import Mathlib

/-!
# Lenzhound transmitter (Txr): mode controller, packet protocol, outbound queue

A shallow embedding of `src/Txr/ao_Txr.cpp` and `src/Txr/radio.cpp`.

Conventions of the embedding

* The target is an 8-bit AVR: `int` is 16 bits, `long` is 32 bits.  Machine
  integers are values of `Int`; every arithmetic operation of the source is
  followed by the wrap to its C type (`wrapInt`, `wrapLong`).
* C division truncates toward zero: `Int.tdiv`.
* `float cur_pos_` is carried as a rational number; every store to a `float`
  goes through `Config.roundFloat`, the rounding of the target, and the
  conversion `float -> long` is truncation toward zero (`floatToLong`).
* LED and PWM writes are outputs that the program never reads back; they are
  not part of the state.
* Reads of the hardware (`BSP_get_encoder`, `BSP_get_pot`, switches) are
  arguments of the function that performs the read.
* Constants of headers that are not part of the sources (`radio.h`, `bsp.h`,
  `Txr.h`, `settings.h`) are fields of `Config`.
-/

namespace Lenzhound

/-! ## Machine integers -/

/-- Two's-complement wrap of an integer to the 16-bit `int` of the target. -/
def wrapInt (x : Int) : Int := (x + 32768) % 65536 - 32768

/-- Two's-complement wrap of an integer to the 32-bit `long` of the target. -/
def wrapLong (x : Int) : Int := (x + 2147483648) % 4294967296 - 2147483648

/-- Range of a 32-bit `long`. -/
def isLong (x : Int) : Prop := -2147483648 ≤ x ∧ x ≤ 2147483647

instance (x : Int) : Decidable (isLong x) := by
  unfold isLong; infer_instance

/-! ## Constants of `ao_Txr.cpp` -/

def MAX_SPEED : Int := 100
def MID_SPEED : Int := 50
def MIN_SPEED : Int := 1
def MAX_SPEED_ENCODER_FACTOR : Int := 64
def ENCODER_COUNTS_PER_SPEED_PERCENT : Int := 4
def SPEED_PERCENT_SLOP : Int := 2

/-! ## Free functions of `ao_Txr.cpp` -/

/-- Source: `long map(long x, long in_min, long in_max, long out_min, long out_max)`:
`(x - in_min) * (out_max - out_min) / (in_max - in_min) + out_min` in `long`
arithmetic.  A zero divisor is undefined in C; `Int.tdiv` gives 0 there. -/
def map (x in_min in_max out_min out_max : Int) : Int :=
  wrapLong
    (Int.tdiv (wrapLong (wrapLong (x - in_min) * wrapLong (out_max - out_min)))
        (wrapLong (in_max - in_min))
      + out_min)

/-- Source: `long clamp(long x, long min, long max)`. -/
def clamp (x min max : Int) : Int :=
  if x < min then min else (if x > max then max else x)

/-- Source: `long distance(long a, long b)`: `abs(a - b)`. -/
def distance (a b : Int) : Int := wrapLong (Int.natAbs (wrapLong (a - b)))

/-! ## The active object -/

/-- A `QTimeEvt` as the application sees it: the down-counter read by `ctr()`
(0 when disarmed or expired) and the reload interval (0 for a one-shot). -/
structure QTimeEvt where
  ctr : Nat
  interval : Nat
  deriving DecidableEq, Repr

/-- Source: `QTimeEvt::postIn`. -/
def QTimeEvt.postIn (_t : QTimeEvt) (nTicks : Nat) : QTimeEvt := ⟨nTicks, 0⟩

/-- Source: `QTimeEvt::postEvery`. -/
def QTimeEvt.postEvery (_t : QTimeEvt) (nTicks : Nat) : QTimeEvt := ⟨nTicks, nTicks⟩

/-- Source: `QTimeEvt::disarm`. -/
def QTimeEvt.disarm (t : QTimeEvt) : QTimeEvt := ⟨0, t.interval⟩

/-- The data members of `class Txr`. -/
structure Txr where
  alive_timeout_ : QTimeEvt
  flash_timeout_ : QTimeEvt
  send_timeout_ : QTimeEvt
  speed_and_accel_timeout_ : QTimeEvt
  flush_settings_timeout_ : QTimeEvt
  calibration_timeout_ : QTimeEvt
  playback_target_pos_ : Int
  cur_pos_ : ℚ
  prev_pos_1_ : Int
  prev_pos_2_ : Int
  prev_encoder_count_ : Int
  calibration_pos_1_ : Int
  calibration_pos_2_ : Int
  enc_pushes_ : Int
  calibration_multiplier_ : Int
  saved_positions_ : List Int
  prev_position_button_pressed_ : Nat
  z_mode_saved_speed_ : Int
  z_mode_saved_acceleration_ : Int
  encoder_base_ : Int
  previous_speed_percent_ : Int
  deriving DecidableEq, Repr

/-- The object as the constructor `Txr()` leaves the static instance:
zero-initialised storage, `previous_speed_percent_(-1)`,
`playback_target_pos_(0)`; `n` is `NUM_POSITION_BUTTONS`. -/
def Txr.ctor (n : Nat) : Txr :=
  { alive_timeout_ := ⟨0, 0⟩, flash_timeout_ := ⟨0, 0⟩, send_timeout_ := ⟨0, 0⟩,
    speed_and_accel_timeout_ := ⟨0, 0⟩, flush_settings_timeout_ := ⟨0, 0⟩,
    calibration_timeout_ := ⟨0, 0⟩,
    playback_target_pos_ := 0, cur_pos_ := 0, prev_pos_1_ := 0, prev_pos_2_ := 0,
    prev_encoder_count_ := 0, calibration_pos_1_ := 0, calibration_pos_2_ := 0,
    enc_pushes_ := 0, calibration_multiplier_ := 0,
    saved_positions_ := List.replicate n 0, prev_position_button_pressed_ := 0,
    z_mode_saved_speed_ := 0, z_mode_saved_acceleration_ := 0,
    encoder_base_ := 0, previous_speed_percent_ := -1 }

/-- Source: `Txr::init_speed_percent(int start_percentage)`; `encoder_pos` is the
value read from `BSP_get_encoder()`. -/
def init_speed_percent (me : Txr) (encoder_pos : Int) (start_percentage : Int) : Txr :=
  { me with
    encoder_base_ :=
      wrapLong (encoder_pos - wrapInt (start_percentage * ENCODER_COUNTS_PER_SPEED_PERCENT)) }

/-- The baseline that `init_speed_percent(50)` stores for the encoder value
`V`. -/
def init_speed_percent_base (V : Int) : Int :=
  wrapLong (V - wrapInt (50 * ENCODER_COUNTS_PER_SPEED_PERCENT))

/-- The local `speed_percent` of `get_speed_percent_if_changed`:
`(encoder_pos - encoder_base_) / ENCODER_COUNTS_PER_SPEED_PERCENT`. -/
def raw_speed_percent (encoder_pos encoder_base : Int) : Int :=
  Int.tdiv (wrapLong (encoder_pos - encoder_base)) ENCODER_COUNTS_PER_SPEED_PERCENT

/-- The baseline after the re-basing branches of
`get_speed_percent_if_changed`. -/
def rebase (encoder_base speed_percent : Int) : Int :=
  if speed_percent < -SPEED_PERCENT_SLOP then
    wrapLong (speed_percent * ENCODER_COUNTS_PER_SPEED_PERCENT)
  else if speed_percent > wrapInt (100 + SPEED_PERCENT_SLOP) then
    wrapLong (wrapLong (speed_percent - 100) - wrapInt (2 * SPEED_PERCENT_SLOP))
  else encoder_base

/-- Source: `int Txr::get_speed_percent_if_changed()`; `encoder_pos` is the value read
from `BSP_get_encoder()`.  Returns the object afterwards and the result. -/
def get_speed_percent_if_changed (me : Txr) (encoder_pos : Int) : Txr × Int :=
  let speed_percent := raw_speed_percent encoder_pos me.encoder_base_
  let me1 := { me with encoder_base_ := rebase me.encoder_base_ speed_percent }
  let result := wrapInt (clamp speed_percent 1 100)
  if result ≠ me1.previous_speed_percent_ then
    ({ me1 with previous_speed_percent_ := result }, result)
  else
    (me1, -1)

/-- The results of `n` consecutive calls of `get_speed_percent_if_changed`
with the encoder held at `encoder_pos`, and the object after the last one. -/
def repeat_speed_read (me : Txr) (encoder_pos : Int) : Nat → Txr × List Int
  | 0 => (me, [])
  | n + 1 =>
    let r := get_speed_percent_if_changed me encoder_pos
    let rest := repeat_speed_read r.1 encoder_pos n
    (rest.1, r.2 :: rest.2)

/-! ## Constants of the missing headers -/

/-- The constants that `ao_Txr.cpp` and `radio.cpp` take from headers outside
the sources (`Txr.h`, `bsp.h`, `radio.h`, `settings.h`, `version.h`), and the
rounding of a real number to the `float` of the target (`roundFloat`), about
which nothing is assumed. -/
structure Config where
  NUM_POSITION_BUTTONS : Nat
  MIN_POT_VAL : Int
  MAX_POT_VAL : Int
  BSP_TICKS_PER_SEC : Nat
  RADIO_OUT_BUFFER_SIZE : Nat
  PACKET_STRING_LEN : Nat
  NAME_MAX_LENGTH : Nat
  ROLE : Int
  VERSION : List Nat
  PLAYBACK_MODE : Int
  Z_MODE : Int
  FREE_MODE : Int
  roundFloat : ℚ → ℚ

/-! ## Packets (`radio.h`, used by `radio.cpp`) -/

/-- The packet tags named in `radio.cpp`; `other c` is any other tag byte. -/
inductive PacketType
  | PACKET_VERSION_GET | PACKET_VERSION_PRINT
  | PACKET_ROLE_GET | PACKET_ROLE_PRINT
  | PACKET_MAX_SPEED_GET_NO_PRINT | PACKET_MAX_SPEED_GET
  | PACKET_MAX_SPEED_SET | PACKET_MAX_SPEED_PRINT
  | PACKET_ACCEL_GET_NO_PRINT | PACKET_ACCEL_GET
  | PACKET_ACCEL_SET | PACKET_ACCEL_PRINT
  | PACKET_CHANNEL_GET | PACKET_CHANNEL_SET | PACKET_CHANNEL_PRINT
  | PACKET_PROFILE_ID_GET | PACKET_PROFILE_ID_SET | PACKET_PROFILE_ID_PRINT
  | PACKET_PROFILE_NAME_GET | PACKET_PROFILE_NAME_SET | PACKET_PROFILE_NAME_PRINT
  | PACKET_TARGET_POSITION_GET | PACKET_TARGET_POSITION_SET
  | PACKET_TARGET_POSITION_PRINT
  | PACKET_SPEED_PERCENT_SET | PACKET_ACCEL_PERCENT_SET
  | PACKET_SAVE_CONFIG | PACKET_RELOAD_CONFIG
  | PACKET_PRESET_INDEX_GET | PACKET_PRESET_INDEX_SET | PACKET_PRESET_INDEX_PRINT
  | PACKET_START_STATE_GET | PACKET_START_STATE_SET | PACKET_START_STATE_PRINT
  | PACKET_OK
  | other (code : Nat)
  deriving DecidableEq, Repr

open PacketType

/-- The union `radio_packet_t` seen through its members: the tag, the numeric
`val` of the integer variants, the `key` of the `ok` variant and the bytes
`val[0 .. PACKET_STRING_LEN)` of the string variants. -/
structure radio_packet_t where
  type : PacketType
  val : Int
  key : PacketType
  str : List Nat
  deriving DecidableEq, Repr

/-- The packet `radio_packet_t p = {0}`. -/
def zero_packet (cfg : Config) : radio_packet_t :=
  { type := other 0, val := 0, key := other 0,
    str := List.replicate cfg.PACKET_STRING_LEN 0 }

/-- The keys of the debug text channel named in the sources. -/
inductive SerialKey
  | SERIAL_ENCODER_GET | SERIAL_POT_GET | SERIAL_PRESET_INDEX_GET
  | SERIAL_REMOTE_VERSION | SERIAL_REMOTE_ROLE
  | SERIAL_MAX_SPEED_GET | SERIAL_MAX_SPEED_SET
  | SERIAL_ACCEL_GET | SERIAL_ACCEL_SET
  | SERIAL_REMOTE_CHANNEL_GET | SERIAL_REMOTE_CHANNEL_SET
  | SERIAL_ID_GET | SERIAL_ID_SET
  | SERIAL_NAME_GET | SERIAL_NAME_SET
  | SERIAL_TARGET_POSITION_GET | SERIAL_TARGET_POSITION_SET
  | SERIAL_START_STATE_GET
  | SERIAL_SAVE_CONFIG | SERIAL_RELOAD_CONFIG
  | SERIAL_IGNORE
  deriving DecidableEq, Repr

open SerialKey

/-- One call of `serial_api_queue_output`: the text built by the `sprintf`
before it, kept as its format and arguments.  `overrun key bytes` is a text
whose `%s` argument has no terminator in the bytes that are known (`bytes`):
the `sprintf` reads on in the memory after them, which is undefined in C. -/
inductive SerialLine
  | ok (key : SerialKey)
  | num (key : SerialKey) (value : Int)
  | text (key : SerialKey) (bytes : List Nat)
  | overrun (key : SerialKey) (bytes : List Nat)
  deriving DecidableEq, Repr

/-- Modelled from the spec: the SettingsStore of `settings.h` (get/set per key:
channel, max speed, max accel, device id, device name, calibration endpoints,
saved slot positions, preset index, start-in-calibration flag, and a debounced
flush, counted here). -/
structure Settings where
  channel : Int
  max_speed : Int
  max_accel : Int
  id : Int
  name : List Nat
  calibration_position_1 : Int
  calibration_position_2 : Int
  saved_position : List Int
  preset_index : Int
  start_in_calibration_mode : Bool
  flushes : Nat
  deriving DecidableEq, Repr

/-- The global `radio_state` of `radio.cpp`. -/
structure radio_state_t where
  buffer : List radio_packet_t
  write_index : Nat
  read_index : Nat
  string_packet_command : PacketType
  string_packet_buffer : List Nat
  string_packet_buffer_index : Nat
  deriving DecidableEq, Repr

/-- The state `radio_state_t radio_state = {0}`; `cap` is the size of
`string_packet_buffer`. -/
def radio_state_zero (cfg : Config) (cap : Nat) : radio_state_t :=
  { buffer := List.replicate cfg.RADIO_OUT_BUFFER_SIZE (zero_packet cfg),
    write_index := 0, read_index := 0,
    string_packet_command := other 0,
    string_packet_buffer := List.replicate cap 0,
    string_packet_buffer_index := 0 }

/-- The states of the hierarchical state machine of `Txr`. -/
inductive State
  | on | uncalibrated | calibrated | flashing
  | free_run_mode | play_back_mode | z_mode
  deriving DecidableEq, Repr

/-- Everything the two translation units read and write: the active object
and its active state, the settings store, the radio state, the radio channel
register, the lines queued on the debug text channel, the packets handed to
the transport, and the function-local statics of `Txr::flashing`. -/
structure World where
  me : Txr
  state : State
  settings : Settings
  radio_state : radio_state_t
  mirf_channel : Int
  serial_out : List SerialLine
  transmitted : List radio_packet_t
  led_count : Int
  red_on : Int
  deriving DecidableEq, Repr

/-! ## `radio.cpp` -/

/-- Source: `void radio_queue_message(radio_packet_t packet)`. -/
def radio_queue_message (cfg : Config) (rs : radio_state_t) (packet : radio_packet_t) :
    radio_state_t :=
  { rs with
    buffer := rs.buffer.set rs.write_index packet,
    write_index := (rs.write_index + 1) % cfg.RADIO_OUT_BUFFER_SIZE }

/-- Modelled from the spec: the macro `PACKET_SEND(type, name, value)` of
`radio.h`, which builds a zeroed packet with the tag and the value and hands it
to `radio_queue_message`. -/
def PACKET_SEND (cfg : Config) (w : World) (type : PacketType) (value : Int) : World :=
  { w with
    radio_state :=
      radio_queue_message cfg w.radio_state { zero_packet cfg with type := type, val := value } }

/-- Source: `strncpy(dst, src, n)` into a field of `n` bytes: the bytes of `src` up to
its terminator, at most `n` of them, padded with zeros to `n`. -/
def strncpy (src : List Nat) (n : Nat) : List Nat :=
  let body := (src.takeWhile (fun b => b ≠ 0)).take n
  body ++ List.replicate (n - body.length) 0

/-- The C string that starts at the beginning of `bytes`. -/
def cstring (bytes : List Nat) : List Nat := bytes.takeWhile (fun b => b ≠ 0)

/-- The chunk loop of the `PACKET_PROFILE_NAME_GET` case: while
`remaining > 0`, copy `PACKET_STRING_LEN` bytes from `buffer + index` with
`strncpy`, queue the packet, advance `index` and decrease `remaining`.  The
first argument bounds the number of iterations. -/
def send_string_loop (cfg : Config) (send_packet : radio_packet_t) (buffer : List Nat) :
    Nat → Nat → Int → radio_state_t → radio_state_t
  | 0, _, _, rs => rs
  | fuel + 1, index, remaining, rs =>
    if remaining > 0 then
      let length := cfg.PACKET_STRING_LEN
      let p := { send_packet with str := strncpy (buffer.drop index) length }
      send_string_loop cfg p buffer fuel (index + length) (remaining - length)
        (radio_queue_message cfg rs p)
    else rs

/-- The body of the `PACKET_PROFILE_NAME_GET` case for the string `buffer`. -/
def send_string (cfg : Config) (rs : radio_state_t) (type : PacketType) (buffer : List Nat) :
    radio_state_t :=
  let remaining : Nat := (cstring buffer).length + 1
  send_string_loop cfg { zero_packet cfg with type := type } buffer remaining 0 remaining rs

/-- Modelled from the spec: the macro `PACKET_SEND_STRING(type, name, string)`
of `radio.h`; string fields are sent as successive slices of the full string
under the same tag, as the `PACKET_PROFILE_NAME_GET` case does. -/
def PACKET_SEND_STRING (cfg : Config) (w : World) (type : PacketType) (s : List Nat) : World :=
  { w with radio_state := send_string cfg w.radio_state type s }

/-- Source: `void _send_ok(char key)`: the packet is built and dropped, the call of
`radio_queue_message` is commented out in the source. -/
def _send_ok (cfg : Config) (w : World) (key : PacketType) : World :=
  let _packet : radio_packet_t := { zero_packet cfg with type := PACKET_OK, key := key }
  w

/-- The `while` loop of `_incremental_read_packet_string`: `n` iterations are
left, the next one copies `start[k]` to the buffer at `base + k` and returns
(`true`) when the byte after the written one is zero.  An access outside the
buffer is undefined in C; here such a write is dropped and such a read gives
0. -/
def copy_loop (start : Nat → Nat) (base : Nat) : Nat → Nat → List Nat → List Nat × Bool
  | 0, _, buf => (buf, false)
  | n + 1, k, buf =>
    let buf1 := buf.set (base + k) (start k)
    if buf1.getD (base + k + 1) 0 = 0 then (buf1, true)
    else copy_loop start base n (k + 1) buf1

/-- Source: `char* _incremental_read_packet_string(char type, char* start)`; `start i`
is the byte `start[i]`.  The result is the C string at the head of
`string_packet_buffer`, or `none` for the null pointer. -/
def _incremental_read_packet_string (cfg : Config) (rs : radio_state_t) (type : PacketType)
    (start : Nat → Nat) : radio_state_t × Option (List Nat) :=
  let rs1 :=
    if rs.string_packet_command ≠ type then { rs with string_packet_buffer_index := 0 } else rs
  let rs2 := { rs1 with string_packet_command := type }
  let r := copy_loop start rs2.string_packet_buffer_index (cfg.PACKET_STRING_LEN + 1) 0
    rs2.string_packet_buffer
  ({ rs2 with string_packet_buffer := r.1 }, if r.2 then some (cstring r.1) else none)

/-- Source: `char _map_ok_type(char key)`. -/
def _map_ok_type (key : PacketType) : SerialKey :=
  match key with
  | PACKET_MAX_SPEED_SET => SERIAL_MAX_SPEED_SET
  | PACKET_ACCEL_SET => SERIAL_ACCEL_SET
  | PACKET_CHANNEL_SET => SERIAL_REMOTE_CHANNEL_SET
  | PACKET_PROFILE_ID_SET => SERIAL_ID_SET
  | PACKET_PROFILE_NAME_SET => SERIAL_NAME_SET
  | PACKET_TARGET_POSITION_SET => SERIAL_TARGET_POSITION_SET
  | PACKET_SAVE_CONFIG => SERIAL_SAVE_CONFIG
  | PACKET_RELOAD_CONFIG => SERIAL_RELOAD_CONFIG
  | _ => SERIAL_IGNORE

/-- The `serial_api_queue_output(buffer)` at the end of every `_queue_print_*`. -/
def serial_api_queue_output (w : World) (line : SerialLine) : World :=
  { w with serial_out := w.serial_out ++ [line] }

/-- Source: `void radio_set_channel(int channel)`. -/
def radio_set_channel (w : World) (channel : Int) : World :=
  if channel ≥ 1 ∧ channel ≤ 82 then { w with mirf_channel := channel } else w

/-- Conversion to the 16-bit `unsigned int` of the target. -/
def wrapUInt (x : Int) : Int := x % 65536

/-- Source: `void _queue_print_ok(char type)`. -/
def _queue_print_ok (w : World) (type : SerialKey) : World :=
  serial_api_queue_output w (SerialLine.ok type)

/-- Source: `void _queue_print_i16(char type, int val)`. -/
def _queue_print_i16 (w : World) (type : SerialKey) (val : Int) : World :=
  serial_api_queue_output w (SerialLine.num type (wrapInt val))

/-- Source: `void _queue_print_i32(char type, long val)`. -/
def _queue_print_i32 (w : World) (type : SerialKey) (val : Int) : World :=
  serial_api_queue_output w (SerialLine.num type (wrapLong val))

/-- Source: `void _queue_print_u16(char type, int val)`: the `int` printed with `%u`. -/
def _queue_print_u16 (w : World) (type : SerialKey) (val : Int) : World :=
  serial_api_queue_output w (SerialLine.num type (wrapUInt (wrapInt val)))

/-- Source: `void _queue_print_u32(char type, int val)`: the parameter is an `int`; the
line keeps that value. -/
def _queue_print_u32 (w : World) (type : SerialKey) (val : Int) : World :=
  serial_api_queue_output w (SerialLine.num type (wrapInt val))

/-- Source: `void _queue_print_string(char type, char* val)`: at most
`PACKET_STRING_LEN` bytes of the string. -/
def _queue_print_string (cfg : Config) (w : World) (type : SerialKey) (val : List Nat) : World :=
  serial_api_queue_output w (SerialLine.text type ((cstring val).take cfg.PACKET_STRING_LEN))

/-- The macro `PRINT_PACKET_STRING(serial_cmd, name)` of `radio.cpp`:
`sprintf(__buffer, "%c=%s", serial_cmd, packet.name.val)`.  The `%s` reads the
string field up to its terminator; when the field has none it reads on with
`past`, the byte after the field, and without a terminator there either with
memory that the model does not know. -/
def PRINT_PACKET_STRING (w : World) (serial_cmd : SerialKey) (packet : radio_packet_t)
    (past : Nat) : World :=
  serial_api_queue_output w
    (if 0 ∈ packet.str ++ [past] then SerialLine.text serial_cmd (cstring (packet.str ++ [past]))
     else SerialLine.overrun serial_cmd (packet.str ++ [past]))

/-- Source: `void _process_packet(radio_packet_t packet)`; `past` is the byte that
follows the string field of the local copy in memory, which
`_incremental_read_packet_string` reads in its last iteration and the `%s` of
`PRINT_PACKET_STRING` reads after a field without terminator.  The getters
and setters of the settings store are the field reads and updates of
`Settings`. -/
def _process_packet (cfg : Config) (w : World) (packet : radio_packet_t) (past : Nat) : World :=
  let type := packet.type
  match type with
  | PACKET_VERSION_GET => PACKET_SEND_STRING cfg w PACKET_VERSION_PRINT cfg.VERSION
  | PACKET_VERSION_PRINT =>
    _send_ok cfg (PRINT_PACKET_STRING w SERIAL_REMOTE_VERSION packet past) type
  | PACKET_ROLE_GET => PACKET_SEND cfg w PACKET_ROLE_PRINT cfg.ROLE
  | PACKET_ROLE_PRINT => _send_ok cfg (_queue_print_u16 w SERIAL_REMOTE_ROLE packet.val) type
  | PACKET_MAX_SPEED_GET_NO_PRINT =>
    let max_speed := wrapUInt w.settings.max_speed
    PACKET_SEND cfg w PACKET_MAX_SPEED_SET max_speed
  | PACKET_MAX_SPEED_GET =>
    let max_speed := wrapUInt w.settings.max_speed
    PACKET_SEND cfg w PACKET_MAX_SPEED_PRINT max_speed
  | PACKET_MAX_SPEED_SET =>
    _send_ok cfg { w with settings := { w.settings with max_speed := packet.val } } type
  | PACKET_MAX_SPEED_PRINT =>
    let max_speed := wrapUInt packet.val
    _send_ok cfg (_queue_print_u16 w SERIAL_MAX_SPEED_GET max_speed) type
  | PACKET_ACCEL_GET_NO_PRINT =>
    let accel := wrapInt w.settings.max_accel
    PACKET_SEND cfg w PACKET_ACCEL_SET accel
  | PACKET_ACCEL_GET =>
    let accel := wrapInt w.settings.max_accel
    PACKET_SEND cfg w PACKET_ACCEL_PRINT accel
  | PACKET_ACCEL_SET =>
    _send_ok cfg { w with settings := { w.settings with max_accel := packet.val } } type
  | PACKET_ACCEL_PRINT =>
    let accel := wrapInt packet.val
    _send_ok cfg (_queue_print_i16 w SERIAL_ACCEL_GET accel) type
  | PACKET_CHANNEL_GET =>
    let channel := wrapInt w.settings.channel
    PACKET_SEND cfg w PACKET_CHANNEL_PRINT channel
  | PACKET_CHANNEL_SET =>
    let w1 := { w with settings := { w.settings with channel := packet.val } }
    _send_ok cfg (radio_set_channel w1 packet.val) type
  | PACKET_CHANNEL_PRINT =>
    let channel := wrapInt packet.val
    _send_ok cfg (_queue_print_i16 w SERIAL_REMOTE_CHANNEL_GET channel) type
  | PACKET_PROFILE_ID_GET =>
    let id := wrapLong w.settings.id
    PACKET_SEND cfg w PACKET_PROFILE_ID_PRINT id
  | PACKET_PROFILE_ID_SET =>
    _send_ok cfg { w with settings := { w.settings with id := packet.val } } type
  | PACKET_PROFILE_ID_PRINT => _send_ok cfg (_queue_print_u32 w SERIAL_ID_GET packet.val) type
  | PACKET_PROFILE_NAME_GET =>
    { w with
      radio_state :=
        (send_string cfg w.radio_state PACKET_PROFILE_NAME_PRINT w.settings.name) }
  | PACKET_PROFILE_NAME_SET =>
    let r := _incremental_read_packet_string cfg w.radio_state type
      (fun i => packet.str.getD i past)
    let w1 := { w with radio_state := r.1 }
    match r.2 with
    | some name => _send_ok cfg { w1 with settings := { w1.settings with name := name } } type
    | none => w1
  | PACKET_PROFILE_NAME_PRINT =>
    let r := _incremental_read_packet_string cfg w.radio_state type
      (fun i => packet.str.getD i past)
    let w1 := { w with radio_state := r.1 }
    match r.2 with
    | some name => _send_ok cfg (_queue_print_string cfg w1 SERIAL_NAME_GET name) type
    | none => w1
  | PACKET_TARGET_POSITION_GET => w
  | PACKET_TARGET_POSITION_SET => _send_ok cfg w type
  | PACKET_TARGET_POSITION_PRINT =>
    _send_ok cfg (_queue_print_i32 w SERIAL_TARGET_POSITION_GET packet.val) type
  | PACKET_SPEED_PERCENT_SET => _send_ok cfg w type
  | PACKET_ACCEL_PERCENT_SET => _send_ok cfg w type
  | PACKET_SAVE_CONFIG =>
    _send_ok cfg { w with settings := { w.settings with flushes := w.settings.flushes + 1 } } type
  | PACKET_RELOAD_CONFIG =>
    let w1 := PACKET_SEND cfg w PACKET_MAX_SPEED_SET w.settings.max_speed
    let w2 := PACKET_SEND cfg w1 PACKET_ACCEL_SET w1.settings.max_accel
    _send_ok cfg w2 type
  | PACKET_PRESET_INDEX_GET => PACKET_SEND cfg w PACKET_PRESET_INDEX_PRINT w.settings.preset_index
  | PACKET_PRESET_INDEX_SET =>
    _send_ok cfg { w with settings := { w.settings with preset_index := packet.val } } type
  | PACKET_PRESET_INDEX_PRINT =>
    _send_ok cfg (_queue_print_i16 w SERIAL_PRESET_INDEX_GET packet.val) type
  | PACKET_START_STATE_GET =>
    PACKET_SEND cfg w PACKET_START_STATE_PRINT
      (if w.settings.start_in_calibration_mode then 1 else 0)
  | PACKET_START_STATE_SET =>
    _send_ok cfg
      { w with settings := { w.settings with start_in_calibration_mode := decide (packet.val ≠ 0) } }
      type
  | PACKET_START_STATE_PRINT =>
    _send_ok cfg (_queue_print_i16 w SERIAL_START_STATE_GET packet.val) type
  | PACKET_OK =>
    let ok_type := _map_ok_type packet.key
    _queue_print_ok w ok_type
  | other _ => w

/-- First statement of `radio_run`: `if (_get_radio_packet(&packet))
_process_packet(packet);`.  `sending` is `Mirf.isSending()`, `dataReady` is the
received frame when `Mirf.dataReady()`, and `past` is as in `_process_packet`. -/
def radio_run_receive (cfg : Config) (w : World) (sending : Bool)
    (dataReady : Option radio_packet_t) (past : Nat) : World :=
  match sending, dataReady with
  | false, some packet => _process_packet cfg w packet past
  | _, _ => w

/-- Second statement of `radio_run`: when `_is_radio_available()` and the
cursors differ, take the packet at the read cursor, advance the cursor and hand
the packet to `_send_radio_packet`, which appends to `transmitted`. -/
def radio_run_send (cfg : Config) (w : World) (sending : Bool) : World :=
  if sending = false ∧ w.radio_state.read_index ≠ w.radio_state.write_index then
    let out_packet := w.radio_state.buffer.getD w.radio_state.read_index (zero_packet cfg)
    { w with
      radio_state :=
        { w.radio_state with
          read_index := (w.radio_state.read_index + 1) % cfg.RADIO_OUT_BUFFER_SIZE },
      transmitted := w.transmitted ++ [out_packet] }
  else w

/-- Source: `void radio_run()`.  `Mirf.isSending()` is the same at both tests of one
step: a transmission is started only by the step itself, which then waits for
its end. -/
def radio_run (cfg : Config) (w : World) (sending : Bool) (dataReady : Option radio_packet_t)
    (past : Nat) : World :=
  radio_run_send cfg (radio_run_receive cfg w sending dataReady past) sending

/-! ## The outbound queue seen as a list -/

/-- The cursors are inside the buffer of `RADIO_OUT_BUFFER_SIZE` packets. -/
def queue_wf (cfg : Config) (rs : radio_state_t) : Prop :=
  rs.buffer.length = cfg.RADIO_OUT_BUFFER_SIZE ∧
    rs.read_index < cfg.RADIO_OUT_BUFFER_SIZE ∧ rs.write_index < cfg.RADIO_OUT_BUFFER_SIZE

instance (cfg : Config) (rs : radio_state_t) : Decidable (queue_wf cfg rs) := by
  unfold queue_wf; infer_instance

/-- The `count` packets of the buffer from index `start` on, cyclically. -/
def queue_slice (cfg : Config) (buf : List radio_packet_t) : Nat → Nat → List radio_packet_t
  | 0, _ => []
  | count + 1, start =>
    buf.getD start (zero_packet cfg) ::
      queue_slice cfg buf count ((start + 1) % cfg.RADIO_OUT_BUFFER_SIZE)

/-- The distance from the read cursor to the write cursor. -/
def queue_count (cfg : Config) (rs : radio_state_t) : Nat :=
  (rs.write_index + cfg.RADIO_OUT_BUFFER_SIZE - rs.read_index) % cfg.RADIO_OUT_BUFFER_SIZE

/-- The packets that `radio_run` will still send: the buffer from the read
cursor up to the write cursor, oldest first. -/
def pending (cfg : Config) (rs : radio_state_t) : List radio_packet_t :=
  queue_slice cfg rs.buffer (queue_count cfg rs) rs.read_index

/-- A call of the producer or of the idle-transport poll step. -/
inductive QueueOp
  | enqueue (packet : radio_packet_t)
  | drain
  deriving DecidableEq, Repr

/-- One operation on the world: `radio_queue_message(packet)`, or `radio_run()`
with the transport idle and no frame received. -/
def apply_op (cfg : Config) (w : World) : QueueOp → World
  | QueueOp.enqueue packet =>
    { w with radio_state := radio_queue_message cfg w.radio_state packet }
  | QueueOp.drain => radio_run cfg w false none 0

/-- The operations in order. -/
def run_ops (cfg : Config) (w : World) (ops : List QueueOp) : World :=
  ops.foldl (apply_op cfg) w

/-- The packets passed to `radio_queue_message`, in call order. -/
def enqueued : List QueueOp → List radio_packet_t
  | [] => []
  | QueueOp.enqueue packet :: ops => packet :: enqueued ops
  | QueueOp.drain :: ops => enqueued ops

/-- The number of packets enqueued and not yet handed to the transport after
one more operation, counted outside the code. -/
def backlog_step (b : Nat) : QueueOp → Nat
  | QueueOp.enqueue _ => b + 1
  | QueueOp.drain => b - 1

/-- The number of packets enqueued and not yet handed to the transport after
the operations, starting from `b`. -/
def backlog (b : Nat) (ops : List QueueOp) : Nat := ops.foldl backlog_step b

/-! ## `ao_Txr.cpp`: the member functions -/

/-- Two's-complement wrap to the 8-bit `char` of the target. -/
def wrapChar (x : Int) : Int := (x + 128) % 256 - 128

/-- Conversion `float -> long`: truncation toward zero. -/
def floatToLong (q : ℚ) : Int := wrapLong (Int.tdiv q.num q.den)

/-- The hardware as one event handler reads it: `BSP_get_encoder()`,
`BSP_get_pot()`, `BSP_get_mode()`, `FREESWITCH_ON()`, `ZSWITCH_ON()`. -/
structure Inputs where
  encoder : Int
  pot : Int
  mode : Int
  freeswitch_on : Bool
  zswitch_on : Bool
  deriving DecidableEq, Repr

/-- Source: `void Txr::log_value(char key, long value)`. -/
def log_value (w : World) (key : SerialKey) (value : Int) : World :=
  serial_api_queue_output w (SerialLine.num key value)

/-- Source: `void Txr::update_position_calibration()`. -/
def update_position_calibration (cfg : Config) (w : World) (hw : Inputs) : World :=
  let cur_encoder_count := hw.encoder
  let w1 :=
    if cur_encoder_count ≠ w.me.prev_encoder_count_ then
      log_value w SERIAL_ENCODER_GET cur_encoder_count
    else w
  let a0 : ℚ := cfg.roundFloat (wrapLong (cur_encoder_count - w1.me.prev_encoder_count_) : Int)
  let a1 : ℚ := cfg.roundFloat (a0 / 4)
  let amount_to_move : ℚ :=
    cfg.roundFloat (a1 * cfg.roundFloat (w1.me.calibration_multiplier_ : Int))
  let w2 :=
    { w1 with
      me := { w1.me with
        cur_pos_ := cfg.roundFloat (w1.me.cur_pos_ + amount_to_move),
        prev_encoder_count_ := cur_encoder_count } }
  if amount_to_move ≠ 0 then
    PACKET_SEND cfg w2 PACKET_TARGET_POSITION_SET (floatToLong w2.me.cur_pos_)
  else w2

/-- Source: `void Txr::update_position()`. -/
def update_position (cfg : Config) (w : World) (hw : Inputs) : World :=
  let new_pos := hw.pot
  if new_pos ≠ w.me.prev_pos_1_ ∧ new_pos ≠ w.me.prev_pos_2_ then
    let w1 := log_value w SERIAL_POT_GET new_pos
    let w2 :=
      { w1 with
        me := { w1.me with
          prev_pos_1_ := w1.me.prev_pos_2_,
          prev_pos_2_ := new_pos,
          cur_pos_ := cfg.roundFloat
            (map new_pos cfg.MIN_POT_VAL cfg.MAX_POT_VAL
              w1.me.calibration_pos_1_ w1.me.calibration_pos_2_ : Int) } }
    PACKET_SEND cfg w2 PACKET_TARGET_POSITION_SET (floatToLong w2.me.cur_pos_)
  else w

/-- The first half of `update_position_freerun` and of
`update_position_playback`: read the speed percent and send it when it changed
(`update_speed_LEDs` only writes LEDs). -/
def send_speed_percent_if_changed (cfg : Config) (w : World) (hw : Inputs) : World :=
  let r := get_speed_percent_if_changed w.me hw.encoder
  let w1 := { w with me := r.1 }
  let speed_percent := r.2
  if speed_percent ≠ -1 then PACKET_SEND cfg w1 PACKET_SPEED_PERCENT_SET speed_percent
  else w1

/-- Source: `void Txr::update_position_freerun()`. -/
def update_position_freerun (cfg : Config) (w : World) (hw : Inputs) : World :=
  update_position cfg (send_speed_percent_if_changed cfg w hw) hw

/-- Source: `void Txr::update_max_speed_using_encoder()`. -/
def update_max_speed_using_encoder (cfg : Config) (w : World) (hw : Inputs) : World :=
  let cur_encoder_count := hw.encoder
  let w1 :=
    if cur_encoder_count ≠ w.me.prev_encoder_count_ then
      log_value w SERIAL_ENCODER_GET cur_encoder_count
    else w
  let a0 : ℚ := cfg.roundFloat (wrapLong (cur_encoder_count - w1.me.prev_encoder_count_) : Int)
  let a1 : ℚ := cfg.roundFloat (a0 / 4)
  let amount_to_move : ℚ := cfg.roundFloat (a1 * cfg.roundFloat (MAX_SPEED_ENCODER_FACTOR : Int))
  let cur_max_speed : Int := wrapUInt w1.settings.max_speed
  let w2 := { w1 with me := { w1.me with prev_encoder_count_ := cur_encoder_count } }
  if amount_to_move ≠ 0 then
    let clamped :=
      clamp (floatToLong
        (cfg.roundFloat (cfg.roundFloat (cur_max_speed : Int) + amount_to_move))) 1 32768
    let w3 := { w2 with settings := { w2.settings with max_speed := wrapUInt clamped } }
    log_value w3 SERIAL_MAX_SPEED_GET clamped
  else w2

/-- Source: `void Txr::update_position_z_mode()`. -/
def update_position_z_mode (cfg : Config) (w : World) (hw : Inputs) : World :=
  update_position cfg w hw

/-- Source: `void Txr::update_position_playback()`. -/
def update_position_playback (cfg : Config) (w : World) (hw : Inputs) : World :=
  let w1 := send_speed_percent_if_changed cfg w hw
  if cfg.roundFloat (w1.me.playback_target_pos_ : Int) ≠ w1.me.cur_pos_ then
    let w2 :=
      { w1 with me := { w1.me with
          cur_pos_ := cfg.roundFloat (w1.me.playback_target_pos_ : Int) } }
    PACKET_SEND cfg w2 PACKET_TARGET_POSITION_SET (floatToLong w2.me.cur_pos_)
  else w1

/-- Source: `void Txr::update_calibration_multiplier(int setting)`. -/
def update_calibration_multiplier (cfg : Config) (me : Txr) (setting : Int) : Txr :=
  if setting = cfg.PLAYBACK_MODE then { me with calibration_multiplier_ := 40 }
  else if setting = cfg.Z_MODE then { me with calibration_multiplier_ := 80 }
  else { me with calibration_multiplier_ := 8 }

/-! ## `ao_Txr.cpp`: the state machine -/

/-- The signals handled by the state handlers of `Txr`; `POSITION_BUTTON_SIG`
carries `ButtonNum` of its `PositionButtonEvt`. -/
inductive Signal
  | ALIVE_SIG | FLASH_RATE_SIG | SEND_TIMEOUT_SIG | SPEED_AND_ACCEL_TIMEOUT_SIG
  | FLUSH_SETTINGS_TIMEOUT_SIG | CALIBRATION_SIG
  | ENC_DOWN_SIG | ENC_UP_SIG
  | PLAY_BACK_MODE_SIG | FREE_RUN_MODE_SIG | Z_MODE_SIG
  | POSITION_BUTTON_SIG (ButtonNum : Nat)
  | UPDATE_PARAMS_SIG
  deriving DecidableEq, Repr

open Signal

/-- The value returned by a state handler: `Q_HANDLED()`, `Q_TRAN(target)`,
`Q_SUPER(superstate)` (`none` for `QHsm::top`), or a failed `Q_REQUIRE`. -/
inductive Status
  | handled
  | tran (target : State)
  | super (superstate : Option State)
  | assert_failed
  deriving DecidableEq, Repr

/-- The time-outs of `enum TxrTimeouts`, in ticks. -/
def SEND_ENCODER_TOUT (cfg : Config) : Nat := cfg.BSP_TICKS_PER_SEC / 100
def FLASH_RATE_TOUT (cfg : Config) : Nat := cfg.BSP_TICKS_PER_SEC / 16
def FLASH_DURATION_TOUT (cfg : Config) : Nat := cfg.BSP_TICKS_PER_SEC / 4
def ENTER_CALIBRATION_TOUT (cfg : Config) : Nat := cfg.BSP_TICKS_PER_SEC / 2
def ALIVE_DURATION_TOUT (cfg : Config) : Nat := cfg.BSP_TICKS_PER_SEC * 5
def SEND_SPEED_AND_ACCEL_TOUT (cfg : Config) : Nat := cfg.BSP_TICKS_PER_SEC / 4
def FLUSH_SETTINGS_TOUT (cfg : Config) : Nat := cfg.BSP_TICKS_PER_SEC * 4

/-- The `Q_ENTRY_SIG` case of each state handler. -/
def entry_action (cfg : Config) (s : State) (w : World) (hw : Inputs) : World :=
  match s with
  | State.on => w
  | State.uncalibrated =>
    { w with
      me := update_calibration_multiplier cfg
        { w.me with prev_encoder_count_ := hw.encoder } hw.mode }
  | State.calibrated => w
  | State.flashing =>
    { w with
      me := { w.me with
        flash_timeout_ := w.me.flash_timeout_.postEvery (FLASH_RATE_TOUT cfg),
        calibration_timeout_ := w.me.calibration_timeout_.postIn (FLASH_DURATION_TOUT cfg) },
      led_count := 0 }
  | State.free_run_mode => { w with me := init_speed_percent w.me hw.encoder 50 }
  | State.play_back_mode =>
    let w1 := { w with me := { w.me with playback_target_pos_ := floatToLong w.me.cur_pos_ } }
    let w2 := PACKET_SEND cfg w1 PACKET_TARGET_POSITION_SET (floatToLong w1.me.cur_pos_)
    { w2 with me := init_speed_percent w2.me hw.encoder 50 }
  | State.z_mode => { w with me := { w.me with prev_encoder_count_ := hw.encoder } }

/-- The `Q_EXIT_SIG` case of each state handler. -/
def exit_action (s : State) (w : World) : World :=
  match s with
  | State.flashing => { w with me := { w.me with flash_timeout_ := w.me.flash_timeout_.disarm } }
  | _ => w

/-- Source: `QP::QState Txr::on(Txr *const me, QP::QEvt const *const e)`. -/
def Txr.on (cfg : Config) (w : World) (e : Signal) : World × Status :=
  match e with
  | ALIVE_SIG => (w, Status.handled)
  | SPEED_AND_ACCEL_TIMEOUT_SIG =>
    let w1 := PACKET_SEND cfg w PACKET_MAX_SPEED_SET w.settings.max_speed
    (PACKET_SEND cfg w1 PACKET_ACCEL_SET w1.settings.max_accel, Status.handled)
  | FLUSH_SETTINGS_TIMEOUT_SIG =>
    ({ w with settings := { w.settings with flushes := w.settings.flushes + 1 } },
      Status.handled)
  | UPDATE_PARAMS_SIG =>
    let channel := wrapInt w.settings.channel
    (radio_set_channel w channel, Status.handled)
  | _ => (w, Status.super none)

/-- Source: `QP::QState Txr::uncalibrated(Txr *const me, QP::QEvt const *const e)`. -/
def Txr.uncalibrated (cfg : Config) (w : World) (e : Signal) (hw : Inputs) : World × Status :=
  match e with
  | SEND_TIMEOUT_SIG => (update_position_calibration cfg w hw, Status.handled)
  | ENC_DOWN_SIG =>
    let pushes := w.me.enc_pushes_
    let w1 := { w with me := { w.me with enc_pushes_ := wrapChar (pushes + 1) } }
    if pushes = 0 then
      let w2 := { w1 with me := { w1.me with calibration_pos_1_ := floatToLong w1.me.cur_pos_ } }
      ({ w2 with settings := { w2.settings with
            calibration_position_1 := w2.me.calibration_pos_1_ } },
        Status.tran State.flashing)
    else
      let w2 := { w1 with me := { w1.me with calibration_pos_2_ := floatToLong w1.me.cur_pos_ } }
      ({ w2 with settings := { w2.settings with
            calibration_position_2 := w2.me.calibration_pos_2_ } },
        Status.tran State.flashing)
  | PLAY_BACK_MODE_SIG =>
    ({ w with me := update_calibration_multiplier cfg w.me cfg.PLAYBACK_MODE }, Status.handled)
  | Z_MODE_SIG =>
    ({ w with me := update_calibration_multiplier cfg w.me cfg.Z_MODE }, Status.handled)
  | FREE_RUN_MODE_SIG =>
    ({ w with me := update_calibration_multiplier cfg w.me cfg.FREE_MODE }, Status.handled)
  | _ => (w, Status.super (some State.on))

/-- Source: `QP::QState Txr::calibrated(Txr *const me, QP::QEvt const *const e)`. -/
def Txr.calibrated (cfg : Config) (w : World) (e : Signal) : World × Status :=
  match e with
  | ENC_DOWN_SIG =>
    ({ w with me := { w.me with
        calibration_timeout_ := w.me.calibration_timeout_.postIn (ENTER_CALIBRATION_TOUT cfg) } },
      Status.handled)
  | ENC_UP_SIG =>
    ({ w with me := { w.me with calibration_timeout_ := w.me.calibration_timeout_.disarm } },
      Status.handled)
  | CALIBRATION_SIG =>
    ({ w with me := { w.me with enc_pushes_ := 0 } }, Status.tran State.flashing)
  | PLAY_BACK_MODE_SIG => (w, Status.tran State.play_back_mode)
  | Z_MODE_SIG => (w, Status.tran State.z_mode)
  | FREE_RUN_MODE_SIG => (w, Status.tran State.free_run_mode)
  | _ => (w, Status.super (some State.on))

/-- Source: `QP::QState Txr::flashing(Txr *const me, QP::QEvt const *const e)`. -/
def Txr.flashing (w : World) (e : Signal) (hw : Inputs) : World × Status :=
  match e with
  | CALIBRATION_SIG =>
    if w.me.enc_pushes_ ≥ 2 then
      if hw.freeswitch_on then (w, Status.tran State.free_run_mode)
      else if hw.zswitch_on then (w, Status.tran State.z_mode)
      else (w, Status.tran State.play_back_mode)
    else (w, Status.tran State.uncalibrated)
  | FLASH_RATE_SIG =>
    ({ w with red_on := if w.red_on ≠ 0 then 0 else 1 }, Status.handled)
  | ENC_DOWN_SIG => (w, Status.handled)
  | _ => (w, Status.super (some State.uncalibrated))

/-- Source: `QP::QState Txr::free_run_mode(Txr *const me, QP::QEvt const *const e)`. -/
def Txr.free_run_mode (cfg : Config) (w : World) (e : Signal) (hw : Inputs) : World × Status :=
  match e with
  | SEND_TIMEOUT_SIG => (update_position_freerun cfg w hw, Status.handled)
  | POSITION_BUTTON_SIG ButtonNum =>
    if w.me.flash_timeout_.ctr = 0 then
      let w1 := { w with me := { w.me with prev_position_button_pressed_ := ButtonNum % 256 } }
      if w1.me.prev_position_button_pressed_ < cfg.NUM_POSITION_BUTTONS then
        let w2 :=
          { w1 with me := { w1.me with
              saved_positions_ :=
                w1.me.saved_positions_.set w1.me.prev_position_button_pressed_
                  (floatToLong w1.me.cur_pos_) } }
        let w3 :=
          { w2 with settings := { w2.settings with
              saved_position :=
                w2.settings.saved_position.set w2.me.prev_position_button_pressed_
                  (wrapInt (floatToLong w2.me.cur_pos_)) } }
        ({ w3 with me := { w3.me with
              flash_timeout_ := w3.me.flash_timeout_.postIn (FLASH_RATE_TOUT cfg) } },
          Status.handled)
      else (w1, Status.assert_failed)
    else (w, Status.handled)
  | FLASH_RATE_SIG => (w, Status.handled)
  | _ => (w, Status.super (some State.calibrated))

/-- Source: `QP::QState Txr::play_back_mode(Txr *const me, QP::QEvt const *const e)`. -/
def Txr.play_back_mode (cfg : Config) (w : World) (e : Signal) (hw : Inputs) : World × Status :=
  match e with
  | SEND_TIMEOUT_SIG => (update_position_playback cfg w hw, Status.handled)
  | POSITION_BUTTON_SIG button_num =>
    if button_num < cfg.NUM_POSITION_BUTTONS then
      ({ w with me := { w.me with
            playback_target_pos_ := w.me.saved_positions_.getD button_num 0 } },
        Status.handled)
    else (w, Status.assert_failed)
  | _ => (w, Status.super (some State.calibrated))

/-- Source: `QP::QState Txr::z_mode(Txr *const me, QP::QEvt const *const e)`. -/
def Txr.z_mode (cfg : Config) (w : World) (e : Signal) (hw : Inputs) : World × Status :=
  match e with
  | SEND_TIMEOUT_SIG =>
    (update_position_z_mode cfg (update_max_speed_using_encoder cfg w hw) hw, Status.handled)
  | POSITION_BUTTON_SIG button_index =>
    if button_index < cfg.NUM_POSITION_BUTTONS then
      let w1 := log_value w SERIAL_PRESET_INDEX_GET button_index
      let w2 := { w1 with settings := { w1.settings with preset_index := button_index } }
      let w3 := radio_set_channel w2 (wrapInt w2.settings.channel)
      let w4 := PACKET_SEND cfg w3 PACKET_MAX_SPEED_SET w3.settings.max_speed
      (PACKET_SEND cfg w4 PACKET_ACCEL_SET w4.settings.max_accel, Status.handled)
    else (w, Status.assert_failed)
  | _ => (w, Status.super (some State.calibrated))

/-- The state handler of each state. -/
def handler (cfg : Config) (s : State) (w : World) (e : Signal) (hw : Inputs) : World × Status :=
  match s with
  | State.on => Txr.on cfg w e
  | State.uncalibrated => Txr.uncalibrated cfg w e hw
  | State.calibrated => Txr.calibrated cfg w e
  | State.flashing => Txr.flashing w e hw
  | State.free_run_mode => Txr.free_run_mode cfg w e hw
  | State.play_back_mode => Txr.play_back_mode cfg w e hw
  | State.z_mode => Txr.z_mode cfg w e hw

/-- The superstate that the `default` case of each handler names with
`Q_SUPER`; `none` is `QHsm::top`. -/
def superstate : State → Option State
  | State.on => none
  | State.uncalibrated => some State.on
  | State.calibrated => some State.on
  | State.flashing => some State.uncalibrated
  | State.free_run_mode => some State.calibrated
  | State.play_back_mode => some State.calibrated
  | State.z_mode => some State.calibrated

/-- The state and its superstates, innermost first. -/
def chain : State → List State
  | State.on => [State.on]
  | State.uncalibrated => [State.uncalibrated, State.on]
  | State.calibrated => [State.calibrated, State.on]
  | State.flashing => [State.flashing, State.uncalibrated, State.on]
  | State.free_run_mode => [State.free_run_mode, State.calibrated, State.on]
  | State.play_back_mode => [State.play_back_mode, State.calibrated, State.on]
  | State.z_mode => [State.z_mode, State.calibrated, State.on]

/-- The event processor of the framework, first half: offer the event to the
handler of `s` and, on `Q_SUPER`, to the superstates in turn.  The result is
the world afterwards and, for `Q_TRAN`, the state whose handler took the
transition and its target. -/
def offer (cfg : Config) (e : Signal) (hw : Inputs) :
    Nat → State → World → World × Option (State × State)
  | 0, _, w => (w, none)
  | n + 1, s, w =>
    match handler cfg s w e hw with
    | (w1, Status.handled) => (w1, none)
    | (w1, Status.assert_failed) => (w1, none)
    | (w1, Status.tran target) => (w1, some (s, target))
    | (w1, Status.super (some p)) => offer cfg e hw n p w1
    | (w1, Status.super none) => (w1, none)

/-- The states left by a transition taken in `source` to `target` while
`active` is the active state, innermost first: the states from `active` up to
`source`, then the states of `source` upward that do not contain `target`
(`source` itself for a self-transition). -/
def exit_path (active source target : State) : List State :=
  (chain active).takeWhile (fun s => s ≠ source) ++
    (if source = target then [source]
     else (chain source).filter (fun s => s ∉ chain target))

/-- The states entered by a transition from `source` to `target`, outermost
first. -/
def entry_path (source target : State) : List State :=
  if source = target then [target]
  else ((chain target).filter (fun s => s ∉ chain source)).reverse

/-- Source: `QHsm::dispatch`: run-to-completion processing of one event.  The event is
offered to the active state and its superstates; a transition runs the exit
actions, then the entry actions, and makes the target the active state (no
state of `Txr` has an initial transition of its own). -/
def dispatch (cfg : Config) (w : World) (e : Signal) (hw : Inputs) : World :=
  match offer cfg e hw 4 w.state w with
  | (w1, none) => w1
  | (w1, some (source, target)) =>
    let w2 := (exit_path w1.state source target).foldl (fun acc s => exit_action s acc) w1
    let w3 := (entry_path source target).foldl (fun acc s => entry_action cfg s acc hw) w2
    { w3 with state := target }

/-- Source: `QP::QState Txr::initial(Txr *const me, QP::QEvt const *const e)` followed
by the entry actions of the initial transition that the framework runs. -/
def Txr.initial (cfg : Config) (w : World) (hw : Inputs) : World :=
  let w1 := { w with me := { w.me with
      calibration_multiplier_ := 1, cur_pos_ := 0, prev_encoder_count_ := 0 } }
  let w2 := PACKET_SEND cfg w1 PACKET_TARGET_POSITION_SET 0
  let w3 := { w2 with me := { w2.me with
      z_mode_saved_speed_ := 50, z_mode_saved_acceleration_ := 100,
      prev_pos_1_ := -1, prev_pos_2_ := -1,
      send_timeout_ := w2.me.send_timeout_.postEvery (SEND_ENCODER_TOUT cfg),
      flush_settings_timeout_ := w2.me.flush_settings_timeout_.postEvery (FLUSH_SETTINGS_TOUT cfg),
      alive_timeout_ := w2.me.alive_timeout_.postEvery (ALIVE_DURATION_TOUT cfg),
      speed_and_accel_timeout_ :=
        w2.me.speed_and_accel_timeout_.postEvery (SEND_SPEED_AND_ACCEL_TOUT cfg),
      calibration_pos_1_ := w2.settings.calibration_position_1,
      calibration_pos_2_ := w2.settings.calibration_position_2 } }
  let start (target : State) (w : World) : World :=
    { (chain target).reverse.foldl (fun acc s => entry_action cfg s acc hw) w with
      state := target }
  if ¬ w3.settings.start_in_calibration_mode then
    let w4 := { w3 with me := { w3.me with
        saved_positions_ :=
          (List.range cfg.NUM_POSITION_BUTTONS).map
            (fun i => w3.settings.saved_position.getD i 0) } }
    if hw.freeswitch_on then start State.free_run_mode w4
    else if hw.zswitch_on then start State.z_mode w4
    else start State.play_back_mode w4
  else start State.uncalibrated w3

/-! ## The SET and command tags -/

/-- The SET and command tags handled by `_process_packet`: the cases that end
in `_send_ok(type)` and carry a value or command from the peer. -/
def set_command_tags : List PacketType :=
  [PACKET_MAX_SPEED_SET, PACKET_ACCEL_SET, PACKET_CHANNEL_SET, PACKET_PROFILE_ID_SET,
   PACKET_PROFILE_NAME_SET, PACKET_TARGET_POSITION_SET, PACKET_SPEED_PERCENT_SET,
   PACKET_ACCEL_PERCENT_SET, PACKET_PRESET_INDEX_SET, PACKET_START_STATE_SET,
   PACKET_SAVE_CONFIG, PACKET_RELOAD_CONFIG]

/-- The dispatch contract of the spec for `F_SET { value }`, settings side:
the value is applied to the key of the family in the SettingsStore; the
control-only families (target position, speed percent, accel percent) and
reload-config store nothing, save-config flushes. -/
def spec_apply_set (s : Settings) (packet : radio_packet_t) : Settings :=
  match packet.type with
  | PACKET_MAX_SPEED_SET => { s with max_speed := packet.val }
  | PACKET_ACCEL_SET => { s with max_accel := packet.val }
  | PACKET_CHANNEL_SET => { s with channel := packet.val }
  | PACKET_PROFILE_ID_SET => { s with id := packet.val }
  | PACKET_PRESET_INDEX_SET => { s with preset_index := packet.val }
  | PACKET_START_STATE_SET => { s with start_in_calibration_mode := decide (packet.val ≠ 0) }
  | PACKET_SAVE_CONFIG => { s with flushes := s.flushes + 1 }
  | _ => s

/-- The part of the radio state that is the outbound queue. -/
def queue_of (rs : radio_state_t) : List radio_packet_t × Nat × Nat :=
  (rs.buffer, rs.write_index, rs.read_index)

/-! ## A concrete configuration for evaluating the definitions -/

/-- A configuration with four position buttons, a queue of four packets and
string fields of four bytes; `float` rounding is the identity. -/
def example_config : Config :=
  { NUM_POSITION_BUTTONS := 4, MIN_POT_VAL := 0, MAX_POT_VAL := 1023,
    BSP_TICKS_PER_SEC := 1000, RADIO_OUT_BUFFER_SIZE := 4, PACKET_STRING_LEN := 4,
    NAME_MAX_LENGTH := 16, ROLE := 0, VERSION := [49, 46, 48],
    PLAYBACK_MODE := 0, Z_MODE := 1, FREE_MODE := 2, roundFloat := fun q => q }

/-- A settings store with the start-in-calibration flag set. -/
def example_settings : Settings :=
  { channel := 5, max_speed := 1000, max_accel := 200, id := 7, name := [76, 72],
    calibration_position_1 := 0, calibration_position_2 := 0,
    saved_position := [0, 0, 0, 0], preset_index := 0,
    start_in_calibration_mode := true, flushes := 0 }

/-- The world after construction, in `uncalibrated`, with the empty queue. -/
def example_world : World :=
  { me := Txr.ctor 4, state := State.uncalibrated, settings := example_settings,
    radio_state := radio_state_zero example_config 16, mirf_channel := 0,
    serial_out := [], transmitted := [], led_count := 0, red_on := 0 }

/-- The hardware with the encoder at 1000 and the free-run switch on. -/
def example_inputs : Inputs :=
  { encoder := 1000, pot := 512, mode := 2, freeswitch_on := true, zswitch_on := false }

/-- Three packets `A`, `B`, `C`. -/
def packet_A : radio_packet_t :=
  { zero_packet example_config with type := PACKET_TARGET_POSITION_SET, val := 1 }
def packet_B : radio_packet_t :=
  { zero_packet example_config with type := PACKET_TARGET_POSITION_SET, val := 2 }
def packet_C : radio_packet_t :=
  { zero_packet example_config with type := PACKET_TARGET_POSITION_SET, val := 3 }

/-- Enqueue `A`, `B`, `C`, then three idle poll steps. -/
def ops_ABC : List QueueOp :=
  [QueueOp.enqueue packet_A, QueueOp.enqueue packet_B, QueueOp.enqueue packet_C,
   QueueOp.drain, QueueOp.drain, QueueOp.drain]

/-- The example world with `A`, `B`, `C` pending: one packet short of the
buffer size of the example configuration. -/
def example_world_ABC : World :=
  run_ops example_config example_world
    [QueueOp.enqueue packet_A, QueueOp.enqueue packet_B, QueueOp.enqueue packet_C]

/-- The example world after the initial transition: `uncalibrated`, position
0, calibration multiplier 8, encoder baseline 1000. -/
def example_world_started : World :=
  Txr.initial example_config example_world example_inputs

/-- The world of the first press: a send tick has seen the encoder 5 counts
further, which moved the position to 10. -/
def example_world_at_10 : World :=
  dispatch example_config example_world_started SEND_TIMEOUT_SIG
    { example_inputs with encoder := 1005 }

/-- The world of the second press: after the first press at position 10 the
flash duration elapses (`CALIBRATION_SIG`, back to `uncalibrated`) and a send
tick sees the encoder 20 counts further, which moves the position to 50. -/
def example_world_second_press : World :=
  dispatch example_config
    (dispatch example_config
      (dispatch example_config example_world_at_10 ENC_DOWN_SIG example_inputs)
      CALIBRATION_SIG example_inputs)
    SEND_TIMEOUT_SIG { example_inputs with encoder := 1025 }

/-! ## The acknowledgment table and the GET replies -/

/-- The keys that have a `case` of their own in `_map_ok_type`. -/
def registered_ok_tags : List PacketType :=
  [PACKET_MAX_SPEED_SET, PACKET_ACCEL_SET, PACKET_CHANNEL_SET, PACKET_PROFILE_ID_SET,
   PACKET_PROFILE_NAME_SET, PACKET_TARGET_POSITION_SET, PACKET_SAVE_CONFIG,
   PACKET_RELOAD_CONFIG]

/-- An `Ok` packet with the given key. -/
def ok_packet (cfg : Config) (key : PacketType) : radio_packet_t :=
  { zero_packet cfg with type := PACKET_OK, key := key }

/-- The stored values fit the C types of the locals that the GET cases of
`_process_packet` read them into: `unsigned int max_speed`, `int accel`,
`int channel`, `long id`. -/
def settings_in_range (s : Settings) : Prop :=
  (0 ≤ s.max_speed ∧ s.max_speed ≤ 65535) ∧
  (-32768 ≤ s.max_accel ∧ s.max_accel ≤ 32767) ∧
  (-32768 ≤ s.channel ∧ s.channel ≤ 32767) ∧ isLong s.id

instance (s : Settings) : Decidable (settings_in_range s) := by
  unfold settings_in_range; infer_instance

/-- The world after one more packet with the tag and the value has been handed
to `radio_queue_message`, everything else as it was. -/
def with_enqueued (cfg : Config) (w : World) (type : PacketType) (value : Int) : World :=
  { w with
    radio_state :=
      radio_queue_message cfg w.radio_state { zero_packet cfg with type := type, val := value } }

/-! ## String reassembly over several chunks -/

/-- The chunks, all with the same field type, handed one after the other to
`_incremental_read_packet_string`; `past` is the byte read beyond each chunk.
The result is the reassembly state afterwards and the value returned for each
chunk. -/
def feed_chunks (cfg : Config) (type : PacketType) (past : Nat) :
    radio_state_t → List (List Nat) → radio_state_t × List (Option (List Nat))
  | rs, [] => (rs, [])
  | rs, chunk :: chunks =>
    let r := _incremental_read_packet_string cfg rs type (fun i => chunk.getD i past)
    let rest := feed_chunks cfg type past r.1 chunks
    (rest.1, r.2 :: rest.2)

/-- The reassembly cursor is 0 and the byte at index 1 of a reassembly buffer
of at least two bytes is zero. -/
def reassembly_idle (rs : radio_state_t) : Prop :=
  rs.string_packet_buffer_index = 0 ∧ 2 ≤ rs.string_packet_buffer.length ∧
    rs.string_packet_buffer.getD 1 0 = 0

/-- The packets processed one after the other by `_process_packet`. -/
def process_all (cfg : Config) (past : Nat) (w : World) (packets : List radio_packet_t) : World :=
  packets.foldl (fun acc packet => _process_packet cfg acc packet past) w

/-- The example world with the device name `ABCDE`. -/
def example_world_ABCDE : World :=
  { example_world with settings := { example_settings with name := [65, 66, 67, 68, 69] } }

/-! ## Exactness of the `float` of the target -/

/-- Every quarter of an integer of magnitude at most 2^24 is kept by the
rounding to `float`.  IEEE 754 binary32, the `float` of the target, has this
property: such a number has at most 24 significant bits. -/
def exact_on_quarters (cfg : Config) : Prop :=
  ∀ n : Int, -16777216 ≤ n → n ≤ 16777216 → cfg.roundFloat ((n : ℚ) / 4) = (n : ℚ) / 4

/-- The example world in `z_mode` with the encoder baseline at 1000. -/
def example_world_z_mode : World :=
  { example_world with
    state := State.z_mode,
    me := { example_world.me with prev_encoder_count_ := 1000 } }

/-! ## Linear interpolation of the potentiometer sample -/

/-- The linear interpolation of the spec, in exact integers with truncating
division: `out_min + (x - in_min) * (out_max - out_min) / (in_max - in_min)`. -/
def interpolate (in_min in_max out_min out_max x : Int) : Int :=
  out_min + Int.tdiv ((x - in_min) * (out_max - out_min)) (in_max - in_min)

/-- The integer `x` lies between `a` and `b` inclusive, in either order. -/
def between (a b x : Int) : Prop := (a ≤ x ∧ x ≤ b) ∨ (b ≤ x ∧ x ≤ a)

instance (a b x : Int) : Decidable (between a b x) := by
  unfold between; infer_instance

/-- Every integer between `a` and `b` is kept by the rounding to `float`. -/
def exact_between (cfg : Config) (a b : Int) : Prop :=
  ∀ n : Int, between a b n → cfg.roundFloat (n : ℚ) = n

/-- The example world with calibration endpoints 0 and 3000000 and no sample
accepted yet. -/
def example_world_wide : World :=
  { example_world with
    me := { example_world.me with
      calibration_pos_1_ := 0, calibration_pos_2_ := 3000000,
      prev_pos_1_ := -1, prev_pos_2_ := -1 } }

/-- The example world with calibration endpoints 100 and 1100 and no sample
accepted yet. -/
def example_world_calibrated : World :=
  { example_world with
    me := { example_world.me with
      calibration_pos_1_ := 100, calibration_pos_2_ := 1100,
      prev_pos_1_ := -1, prev_pos_2_ := -1 } }

/-! ## Worlds for the calibrated submodes -/

/-- The example world in `free_run_mode` at position 40000, no save-flash
pending. -/
def example_world_far : World :=
  { example_world with
    state := State.free_run_mode,
    me := { example_world.me with cur_pos_ := ((40000 : Int) : ℚ) } }

/-- The example world in `play_back_mode` at position 10 with the playback
target 30. -/
def example_world_playback : World :=
  { example_world with
    state := State.play_back_mode,
    me := { example_world.me with
      cur_pos_ := ((10 : Int) : ℚ), playback_target_pos_ := 30, encoder_base_ := 800 } }

/-! ## Memory accesses of the string reassembly -/

/-- The memory accesses of a call of `_incremental_read_packet_string`. -/
structure Accesses where
  frame_reads : List Nat
  buffer_writes : List Nat
  buffer_reads : List Nat
  deriving DecidableEq, Repr

/-- The accesses of the `while` loop of `_incremental_read_packet_string`, in
the order of `copy_loop`: the iteration with offset `k` reads `start[k]`,
writes the buffer at `base + k` and reads the buffer at `base + k + 1`. -/
def copy_loop_accesses (start : Nat → Nat) (base : Nat) : Nat → Nat → List Nat → Accesses
  | 0, _, _ => ⟨[], [], []⟩
  | n + 1, k, buf =>
    let buf1 := buf.set (base + k) (start k)
    if buf1.getD (base + k + 1) 0 = 0 then ⟨[k], [base + k], [base + k + 1]⟩
    else
      let rest := copy_loop_accesses start base n (k + 1) buf1
      ⟨k :: rest.frame_reads, (base + k) :: rest.buffer_writes,
        (base + k + 1) :: rest.buffer_reads⟩

/-- The accesses of the call `_incremental_read_packet_string(type, start)` in
the state `rs`. -/
def incremental_read_accesses (cfg : Config) (rs : radio_state_t) (type : PacketType)
    (start : Nat → Nat) : Accesses :=
  let rs1 :=
    if rs.string_packet_command ≠ type then { rs with string_packet_buffer_index := 0 } else rs
  let rs2 := { rs1 with string_packet_command := type }
  copy_loop_accesses start rs2.string_packet_buffer_index (cfg.PACKET_STRING_LEN + 1) 0
    rs2.string_packet_buffer

/-- The reassembly state after the calls
`_incremental_read_packet_string(type, start)` of the list, made one after the
other. -/
def feed_strings (cfg : Config) : radio_state_t → List (PacketType × (Nat → Nat)) → radio_state_t
  | rs, [] => rs
  | rs, call :: calls =>
    feed_strings cfg (_incremental_read_packet_string cfg rs call.1 call.2).1 calls

/-- Three calls: the two chunks of `ABCDE` under the PRINT tag, then a chunk
under the SET tag. -/
def example_calls : List (PacketType × (Nat → Nat)) :=
  [(PACKET_PROFILE_NAME_PRINT, fun i => [65, 66, 67, 68].getD i 0),
   (PACKET_PROFILE_NAME_PRINT, fun i => [69, 0, 0, 0].getD i 0),
   (PACKET_PROFILE_NAME_SET, fun i => [76, 72, 0, 0].getD i 0)]

/-! ## The chunks of the device name -/

/-- The payload of chunk `k` in the words of the spec, for string fields of
`L` bytes: the bytes of the name from offset `k * L`, `min(remaining, L)` of
them, followed by zero padding up to `L`. -/
def spec_name_chunk (L : Nat) (name : List Nat) (k : Nat) : List Nat :=
  (name.drop (k * L)).take (min (name.length - k * L) L) ++
    List.replicate (L - min (name.length - k * L) L) 0

/-- The payloads of the chunks in the words of the spec: `ceil((n + 1) / L)`
chunks for a name of length `n`. -/
def spec_name_chunks (L : Nat) (name : List Nat) : List (List Nat) :=
  (List.range ((name.length + 1 + (L - 1)) / L)).map (spec_name_chunk L name)

/-- The packet `p` with the string field `chunk`. -/
def with_str (p : radio_packet_t) (chunk : List Nat) : radio_packet_t := { p with str := chunk }

/-! ## Runs of the state machine -/

/-- The world after the events of the list, each dispatched with the inputs
read while it is processed. -/
def run_events (cfg : Config) : World → List (Signal × Inputs) → World
  | w, [] => w
  | w, ev :: evs => run_events cfg (dispatch cfg w ev.1 ev.2) evs

/-- The state is one of the three submodes of `calibrated`. -/
def calibrated_submode (s : State) : Prop :=
  s = State.free_run_mode ∨ s = State.play_back_mode ∨ s = State.z_mode

instance (s : State) : Decidable (calibrated_submode s) := by
  unfold calibrated_submode; infer_instance

/-- The invariant of the press counter: the active state is a leaf state, the
counter is 0, 1 or 2, it is at most 1 in `uncalibrated`, and it is 0 or 2 in a
submode of `calibrated`. -/
def press_counter_ok (w : World) : Prop :=
  (w.state ≠ State.on ∧ w.state ≠ State.calibrated) ∧
  (w.me.enc_pushes_ = 0 ∨ w.me.enc_pushes_ = 1 ∨ w.me.enc_pushes_ = 2) ∧
  (w.state = State.uncalibrated → w.me.enc_pushes_ ≤ 1) ∧
  (calibrated_submode w.state → w.me.enc_pushes_ = 0 ∨ w.me.enc_pushes_ = 2)

/-- The example world with the start-in-calibration flag clear. -/
def example_world_flag_clear : World :=
  { example_world with
    settings := { example_settings with start_in_calibration_mode := false } }

/-- Two presses of the encoder button, each followed by the elapsed flash
duration, then a mode switch. -/
def example_events : List (Signal × Inputs) :=
  [(ENC_DOWN_SIG, example_inputs), (CALIBRATION_SIG, example_inputs),
   (ENC_DOWN_SIG, example_inputs), (CALIBRATION_SIG, example_inputs),
   (Z_MODE_SIG, example_inputs)]

/-! ## Arithmetic lemmas -/

theorem tdiv_four (a : Int) :
    Int.tdiv a 4 = if 0 ≤ a then a / 4 else -((-a) / 4) := by
  split
  · next h => exact Int.tdiv_eq_ediv h (by decide)
  · next h =>
    have h1 : (0 : Int) ≤ -a := by omega
    have h2 := Int.tdiv_eq_ediv h1 (show (0 : Int) ≤ 4 by decide)
    rw [Int.neg_tdiv] at h2
    omega

theorem wrapInt_small (x : Int) (h1 : -32768 ≤ x) (h2 : x ≤ 32767) : wrapInt x = x := by
  unfold wrapInt; omega

theorem wrapLong_small (x : Int) (h : isLong x) : wrapLong x = x := by
  unfold wrapLong; unfold isLong at h; omega

theorem clamp_range (x lo hi : Int) (h : lo ≤ hi) :
    lo ≤ clamp x lo hi ∧ clamp x lo hi ≤ hi := by
  unfold clamp; split_ifs <;> omega

/-! ## Speed percent -/

/-- C1: `get_speed_percent_if_changed` returns the sentinel -1 (and then the
stored previous percentage is untouched) or a value in [1,100] (and then the
stored previous percentage equals the returned value). -/
theorem get_speed_percent_if_changed_range (me : Txr) (encoder_pos : Int) :
    ((get_speed_percent_if_changed me encoder_pos).2 = -1 ∧
      (get_speed_percent_if_changed me encoder_pos).1.previous_speed_percent_
        = me.previous_speed_percent_) ∨
    (1 ≤ (get_speed_percent_if_changed me encoder_pos).2 ∧
      (get_speed_percent_if_changed me encoder_pos).2 ≤ 100 ∧
      (get_speed_percent_if_changed me encoder_pos).1.previous_speed_percent_
        = (get_speed_percent_if_changed me encoder_pos).2) := by
  have hc := clamp_range (raw_speed_percent encoder_pos me.encoder_base_) 1 100 (by decide)
  have hw := wrapInt_small (clamp (raw_speed_percent encoder_pos me.encoder_base_) 1 100)
    (by omega) (by omega)
  unfold get_speed_percent_if_changed
  simp only [hw]
  split_ifs with h
  · right; exact ⟨hc.1, hc.2, rfl⟩
  · left; exact ⟨rfl, rfl⟩

/-- C2: with baseline 100 and the encoder held at 0 the raw percent is -25, the
low-side re-basing stores -100, and the following read at the same encoder
value reports 25 instead of staying at the low rail; with baseline 0 and the
encoder held at 1000 the raw percent is 250, the high-side re-basing stores
146, and the following raw percent is 213, still above the slop band. -/
theorem rebase_misses_the_rail :
    raw_speed_percent 0 100 = -25 ∧
    (get_speed_percent_if_changed
      { Txr.ctor 0 with encoder_base_ := 100 } 0).1.encoder_base_ = -100 ∧
    (get_speed_percent_if_changed
      { Txr.ctor 0 with encoder_base_ := 100 } 0).2 = 1 ∧
    (get_speed_percent_if_changed (get_speed_percent_if_changed
      { Txr.ctor 0 with encoder_base_ := 100 } 0).1 0).2 = 25 ∧
    raw_speed_percent 1000 0 = 250 ∧
    (get_speed_percent_if_changed (Txr.ctor 0) 1000).1.encoder_base_ = 146 ∧
    raw_speed_percent 1000 146 = 213 ∧
    (get_speed_percent_if_changed (get_speed_percent_if_changed
      (Txr.ctor 0) 1000).1 1000).1.encoder_base_ = 109 := by
  decide

theorem raw_speed_percent_after_init (V : Int) :
    raw_speed_percent V (init_speed_percent_base V) = 50 := by
  unfold raw_speed_percent init_speed_percent_base ENCODER_COUNTS_PER_SPEED_PERCENT
  rw [tdiv_four]
  unfold wrapLong wrapInt
  split_ifs <;> omega

theorem raw_speed_percent_after_turn (V : Int) :
    raw_speed_percent (wrapLong (V + 200)) (init_speed_percent_base V) = 100 := by
  unfold raw_speed_percent init_speed_percent_base ENCODER_COUNTS_PER_SPEED_PERCENT
  rw [tdiv_four]
  unfold wrapLong wrapInt
  split_ifs <;> omega

theorem get_speed_percent_in_band (me : Txr) (encoder_pos p : Int)
    (hraw : raw_speed_percent encoder_pos me.encoder_base_ = p)
    (h1 : 1 ≤ p) (h2 : p ≤ 100) :
    get_speed_percent_if_changed me encoder_pos =
      if p ≠ me.previous_speed_percent_ then ({ me with previous_speed_percent_ := p }, p)
      else (me, -1) := by
  have hc : clamp p 1 100 = p := by unfold clamp; split_ifs <;> omega
  have hw : wrapInt p = p := wrapInt_small p (by omega) (by omega)
  have hr : rebase me.encoder_base_ p = me.encoder_base_ := by
    unfold rebase SPEED_PERCENT_SLOP wrapInt
    split_ifs <;> first | rfl | omega
  unfold get_speed_percent_if_changed
  simp only [hraw, hc, hw, hr]

theorem repeat_speed_read_stable (me : Txr) (encoder_pos p : Int)
    (hraw : raw_speed_percent encoder_pos me.encoder_base_ = p)
    (h1 : 1 ≤ p) (h2 : p ≤ 100) (hprev : me.previous_speed_percent_ = p) (n : Nat) :
    repeat_speed_read me encoder_pos n = (me, List.replicate n (-1)) := by
  induction n with
  | zero => rfl
  | succ k ih =>
    have hg := get_speed_percent_in_band me encoder_pos p hraw h1 h2
    simp only [hprev, ne_eq, not_true_eq_false, if_false] at hg
    simp only [repeat_speed_read, hg, ih, List.replicate_succ]

/-- C3: after the entry action of `free_run_mode` with the encoder at `V` and a
previously reported speed other than 50, the first read with the encoder at
`V` reports 50, the following read with the encoder at `V + 200` reports 100,
and each of any number of further reads at `V + 200` reports -1. -/
theorem free_run_entry_speed_reports (cfg : Config) (w : World) (hw : Inputs) (n : Nat)
    (hprev : w.me.previous_speed_percent_ ≠ 50) :
    (get_speed_percent_if_changed (entry_action cfg State.free_run_mode w hw).me
        hw.encoder).2 = 50 ∧
    (get_speed_percent_if_changed
        (get_speed_percent_if_changed (entry_action cfg State.free_run_mode w hw).me
          hw.encoder).1 (wrapLong (hw.encoder + 200))).2 = 100 ∧
    (repeat_speed_read
        (get_speed_percent_if_changed
          (get_speed_percent_if_changed (entry_action cfg State.free_run_mode w hw).me
            hw.encoder).1 (wrapLong (hw.encoder + 200))).1
        (wrapLong (hw.encoder + 200)) n).2 = List.replicate n (-1) := by
  have hbase : (entry_action cfg State.free_run_mode w hw).me.encoder_base_
      = init_speed_percent_base hw.encoder := rfl
  have hp0 : (entry_action cfg State.free_run_mode w hw).me.previous_speed_percent_
      = w.me.previous_speed_percent_ := rfl
  have e1 := get_speed_percent_in_band (entry_action cfg State.free_run_mode w hw).me
    hw.encoder 50 (by rw [hbase]; exact raw_speed_percent_after_init _) (by decide) (by decide)
  rw [hp0, if_pos (fun h => hprev h.symm)] at e1
  rw [e1]
  have e2 := get_speed_percent_in_band
    { (entry_action cfg State.free_run_mode w hw).me with previous_speed_percent_ := 50 }
    (wrapLong (hw.encoder + 200)) 100
    (by show raw_speed_percent _ (entry_action cfg State.free_run_mode w hw).me.encoder_base_ = 100
        rw [hbase]; exact raw_speed_percent_after_turn _) (by decide) (by decide)
  rw [if_pos (show (100 : Int) ≠ 50 by decide)] at e2
  rw [e2]
  refine ⟨rfl, rfl, ?_⟩
  rw [repeat_speed_read_stable _ (wrapLong (hw.encoder + 200)) 100
    (by show raw_speed_percent _ (entry_action cfg State.free_run_mode w hw).me.encoder_base_ = 100
        rw [hbase]; exact raw_speed_percent_after_turn _) (by decide) (by decide) rfl n]

/-! ## Position jitter filter -/

/-- C4: `update_position` accepts the sample exactly when it differs from both
history samples.  On acceptance the history becomes (old `prev_pos_2_`, sample)
and a target-position packet carrying the new position is queued; otherwise the
whole world, history and current position included, is unchanged. -/
theorem update_position_jitter_filter (cfg : Config) (w : World) (hw : Inputs) :
    if hw.pot ≠ w.me.prev_pos_1_ ∧ hw.pot ≠ w.me.prev_pos_2_ then
      (update_position cfg w hw).me.prev_pos_1_ = w.me.prev_pos_2_ ∧
      (update_position cfg w hw).me.prev_pos_2_ = hw.pot ∧
      (update_position cfg w hw).radio_state =
        radio_queue_message cfg w.radio_state
          { zero_packet cfg with
            type := PACKET_TARGET_POSITION_SET,
            val := floatToLong (update_position cfg w hw).me.cur_pos_ }
    else update_position cfg w hw = w := by
  by_cases h : hw.pot ≠ w.me.prev_pos_1_ ∧ hw.pot ≠ w.me.prev_pos_2_
  · rw [if_pos h]
    unfold update_position
    simp only [if_pos h]
    exact ⟨rfl, rfl, rfl⟩
  · rw [if_neg h]
    unfold update_position
    simp only [if_neg h]

/-! ## Outbound queue -/

theorem mod_wrap (a N : Nat) (h : a < 2 * N) :
    a % N = if a < N then a else a - N := by
  split_ifs with h1
  · exact Nat.mod_eq_of_lt h1
  · rw [Nat.mod_eq_sub_mod (by omega), Nat.mod_eq_of_lt (by omega)]

theorem queue_count_cases (cfg : Config) (rs : radio_state_t) (hwf : queue_wf cfg rs) :
    queue_count cfg rs =
      if rs.read_index ≤ rs.write_index then rs.write_index - rs.read_index
      else rs.write_index + cfg.RADIO_OUT_BUFFER_SIZE - rs.read_index := by
  obtain ⟨_, hr, hw⟩ := hwf
  unfold queue_count
  rw [mod_wrap _ _ (by omega)]
  split_ifs <;> omega

theorem getD_set_self (buf : List radio_packet_t) (i : Nat) (p d : radio_packet_t)
    (h : i < buf.length) : (buf.set i p).getD i d = p := by
  simp [List.getD_eq_getElem?_getD, List.getElem?_set, h]

theorem getD_set_other (buf : List radio_packet_t) (i j : Nat) (p d : radio_packet_t)
    (h : i ≠ j) : (buf.set i p).getD j d = buf.getD j d := by
  simp [List.getD_eq_getElem?_getD, List.getElem?_set, h]

theorem queue_slice_enqueue (cfg : Config) (buf : List radio_packet_t) (p : radio_packet_t)
    (wi : Nat) (hlen : buf.length = cfg.RADIO_OUT_BUFFER_SIZE)
    (hw : wi < cfg.RADIO_OUT_BUFFER_SIZE) :
    ∀ (c r : Nat), r < cfg.RADIO_OUT_BUFFER_SIZE → c < cfg.RADIO_OUT_BUFFER_SIZE →
      (r + c) % cfg.RADIO_OUT_BUFFER_SIZE = wi →
      queue_slice cfg (buf.set wi p) (c + 1) r = queue_slice cfg buf c r ++ [p] := by
  intro c
  induction c with
  | zero =>
    intro r hr _ hrc
    rw [Nat.add_zero, Nat.mod_eq_of_lt hr] at hrc
    subst hrc
    simp only [queue_slice, List.nil_append]
    rw [getD_set_self buf r p _ (by omega)]
  | succ c ih =>
    intro r hr hc hrc
    have hne : wi ≠ r := by
      rw [mod_wrap _ _ (by omega)] at hrc
      split_ifs at hrc <;> omega
    have hr1 : (r + 1) % cfg.RADIO_OUT_BUFFER_SIZE < cfg.RADIO_OUT_BUFFER_SIZE :=
      Nat.mod_lt _ (by omega)
    have hrc1 : ((r + 1) % cfg.RADIO_OUT_BUFFER_SIZE + c) % cfg.RADIO_OUT_BUFFER_SIZE = wi := by
      rw [Nat.mod_add_mod]
      rw [← hrc]; congr 1; omega
    have := ih ((r + 1) % cfg.RADIO_OUT_BUFFER_SIZE) hr1 (by omega) hrc1
    rw [queue_slice, this, getD_set_other buf wi r p _ hne]
    conv_rhs => rw [queue_slice]
    rfl

theorem queue_slice_length (cfg : Config) (buf : List radio_packet_t) :
    ∀ (c r : Nat), (queue_slice cfg buf c r).length = c := by
  intro c
  induction c with
  | zero => intro r; rfl
  | succ c ih => intro r; simp [queue_slice, ih]

theorem pending_length (cfg : Config) (rs : radio_state_t) :
    (pending cfg rs).length = queue_count cfg rs :=
  queue_slice_length cfg rs.buffer _ _

/-- Enqueuing below the usable capacity appends to the pending packets. -/
theorem pending_enqueue (cfg : Config) (rs : radio_state_t) (p : radio_packet_t)
    (hwf : queue_wf cfg rs) (hroom : queue_count cfg rs + 1 < cfg.RADIO_OUT_BUFFER_SIZE) :
    queue_wf cfg (radio_queue_message cfg rs p) ∧
    pending cfg (radio_queue_message cfg rs p) = pending cfg rs ++ [p] := by
  have hcount := queue_count_cases cfg rs hwf
  obtain ⟨hlen, hr, hw⟩ := hwf
  have hN : 0 < cfg.RADIO_OUT_BUFFER_SIZE := by omega
  have hwf1 : queue_wf cfg (radio_queue_message cfg rs p) := by
    refine ⟨?_, hr, Nat.mod_lt _ hN⟩
    simp [radio_queue_message, hlen]
  refine ⟨hwf1, ?_⟩
  have hcount1 := queue_count_cases cfg _ hwf1
  have hw1 : (radio_queue_message cfg rs p).write_index
      = (rs.write_index + 1) % cfg.RADIO_OUT_BUFFER_SIZE := rfl
  have hr1 : (radio_queue_message cfg rs p).read_index = rs.read_index := rfl
  have hc : queue_count cfg (radio_queue_message cfg rs p) = queue_count cfg rs + 1 := by
    rw [hcount1, hw1, hr1, mod_wrap _ _ (by omega)]
    rw [hcount] at hroom ⊢
    split_ifs at hroom ⊢ <;> omega
  unfold pending
  rw [hc, hr1]
  show queue_slice cfg (rs.buffer.set rs.write_index p) _ _ = _
  apply queue_slice_enqueue cfg rs.buffer p rs.write_index hlen hw _ _ hr (by omega)
  rw [hcount, mod_wrap _ _ (by split_ifs <;> omega)]
  split_ifs <;> omega

/-- The idle poll step with no frame received hands over the oldest pending
packet, if there is one. -/
theorem pending_drain (cfg : Config) (w : World) (hwf : queue_wf cfg w.radio_state) :
    queue_wf cfg (radio_run cfg w false none 0).radio_state ∧
    (radio_run cfg w false none 0).transmitted ++ pending cfg (radio_run cfg w false none 0).radio_state
      = w.transmitted ++ pending cfg w.radio_state ∧
    (pending cfg (radio_run cfg w false none 0).radio_state).length
      = (pending cfg w.radio_state).length - 1 := by
  have hcount := queue_count_cases cfg _ hwf
  obtain ⟨hlen, hr, hw⟩ := hwf
  have hN : 0 < cfg.RADIO_OUT_BUFFER_SIZE := by omega
  have hrun : radio_run cfg w false none 0 = radio_run_send cfg w false := rfl
  rw [hrun]
  unfold radio_run_send
  by_cases hne : w.radio_state.read_index = w.radio_state.write_index
  · rw [if_neg (by simp [hne])]
    refine ⟨⟨hlen, hr, hw⟩, rfl, ?_⟩
    rw [pending_length, hcount]
    split_ifs <;> omega
  · rw [if_pos ⟨rfl, hne⟩]
    have hwf1 : queue_wf cfg { w.radio_state with
        read_index := (w.radio_state.read_index + 1) % cfg.RADIO_OUT_BUFFER_SIZE } :=
      ⟨hlen, Nat.mod_lt _ hN, hw⟩
    have hcount1 := queue_count_cases cfg _ hwf1
    have hc : queue_count cfg w.radio_state
        = queue_count cfg { w.radio_state with
            read_index := (w.radio_state.read_index + 1) % cfg.RADIO_OUT_BUFFER_SIZE } + 1 := by
      rw [hcount1, hcount]
      simp only
      rw [mod_wrap _ _ (by omega)]
      split_ifs <;> omega
    refine ⟨hwf1, ?_, ?_⟩
    · simp only [List.append_assoc]
      congr 1
      unfold pending
      rw [hc]
      rfl
    · simp only [pending_length]
      rw [hc]
      rfl

theorem backlog_cons (b : Nat) (op : QueueOp) (ops : List QueueOp) :
    backlog b (op :: ops) = backlog (backlog_step b op) ops := rfl

theorem run_ops_invariant (cfg : Config) :
    ∀ (ops : List QueueOp) (w : World), queue_wf cfg w.radio_state →
      (∀ k, k ≤ ops.length →
        backlog (pending cfg w.radio_state).length (ops.take k) < cfg.RADIO_OUT_BUFFER_SIZE) →
      queue_wf cfg (run_ops cfg w ops).radio_state ∧
      (run_ops cfg w ops).transmitted ++ pending cfg (run_ops cfg w ops).radio_state
        = w.transmitted ++ pending cfg w.radio_state ++ enqueued ops ∧
      (pending cfg (run_ops cfg w ops).radio_state).length
        = backlog (pending cfg w.radio_state).length ops := by
  intro ops
  induction ops with
  | nil =>
    intro w hwf _
    exact ⟨hwf, by simp [run_ops, enqueued], rfl⟩
  | cons op ops ih =>
    intro w hwf hfit
    have h1 := hfit 1 (by simp)
    have hstep : queue_wf cfg (apply_op cfg w op).radio_state ∧
        (apply_op cfg w op).transmitted ++ pending cfg (apply_op cfg w op).radio_state
          = w.transmitted ++ pending cfg w.radio_state ++ enqueued [op] ∧
        (pending cfg (apply_op cfg w op).radio_state).length
          = backlog_step (pending cfg w.radio_state).length op := by
      cases op with
      | enqueue packet =>
        have hroom : queue_count cfg w.radio_state + 1 < cfg.RADIO_OUT_BUFFER_SIZE := by
          rw [← pending_length]; exact h1
        obtain ⟨hw1, hp1⟩ := pending_enqueue cfg w.radio_state packet hwf hroom
        refine ⟨hw1, ?_, ?_⟩
        · show w.transmitted ++ pending cfg (radio_queue_message cfg w.radio_state packet) = _
          rw [hp1, List.append_assoc]; rfl
        · show (pending cfg (radio_queue_message cfg w.radio_state packet)).length = _
          rw [hp1]; simp [backlog_step]
      | drain =>
        obtain ⟨hw1, hp1, hl1⟩ := pending_drain cfg w hwf
        exact ⟨hw1, by simpa [enqueued] using hp1, hl1⟩
    obtain ⟨hw1, hp1, hl1⟩ := hstep
    have hfit1 : ∀ k, k ≤ ops.length →
        backlog (pending cfg (apply_op cfg w op).radio_state).length (ops.take k)
          < cfg.RADIO_OUT_BUFFER_SIZE := by
      intro k hk
      have := hfit (k + 1) (by simp; omega)
      rw [List.take_succ_cons, backlog_cons] at this
      rw [hl1]; exact this
    obtain ⟨hw2, hp2, hl2⟩ := ih (apply_op cfg w op) hw1 hfit1
    have hrun : run_ops cfg w (op :: ops) = run_ops cfg (apply_op cfg w op) ops := rfl
    rw [hrun]
    refine ⟨hw2, ?_, ?_⟩
    · rw [hp2, hp1]
      cases op <;> simp [enqueued]
    · rw [hl2, hl1, backlog_cons]

theorem pending_zero (cfg : Config) (cap : Nat) :
    pending cfg (radio_state_zero cfg cap) = [] := by
  unfold pending queue_count radio_state_zero
  simp [queue_slice]

/-- C5: starting from the empty queue, for every interleaving of
`radio_queue_message` calls and idle-transport `radio_run` steps in which the
number of packets enqueued and not yet sent stays below
`RADIO_OUT_BUFFER_SIZE`, the packets handed to the transport followed by the
packets still pending are exactly the enqueued packets in enqueue order; the
number still pending is the number enqueued and not yet sent. -/
theorem outbound_queue_fifo (cfg : Config) (cap : Nat) (w : World) (ops : List QueueOp)
    (hN : 0 < cfg.RADIO_OUT_BUFFER_SIZE)
    (hrs : w.radio_state = radio_state_zero cfg cap) (ht : w.transmitted = [])
    (hfit : ∀ k, k ≤ ops.length → backlog 0 (ops.take k) < cfg.RADIO_OUT_BUFFER_SIZE) :
    (run_ops cfg w ops).transmitted ++ pending cfg (run_ops cfg w ops).radio_state
      = enqueued ops ∧
    (pending cfg (run_ops cfg w ops).radio_state).length = backlog 0 ops := by
  have hp : pending cfg w.radio_state = [] := by rw [hrs]; exact pending_zero cfg cap
  have hwf : queue_wf cfg w.radio_state := by
    rw [hrs]; exact ⟨by simp [radio_state_zero], hN, hN⟩
  have h := run_ops_invariant cfg ops w hwf (by rw [hp]; exact hfit)
  rw [hp, ht] at h
  exact ⟨by simpa using h.2.1, h.2.2⟩

/-- C6: with `RADIO_OUT_BUFFER_SIZE - 1` packets pending, one more
`radio_queue_message` makes the write cursor equal to the read cursor: the
queue then reads as empty, the idle poll step sends nothing, and nothing tells
the producer. -/
theorem radio_queue_message_laps_silently (cfg : Config) (w : World) (p : radio_packet_t)
    (hwf : queue_wf cfg w.radio_state)
    (hfull : (pending cfg w.radio_state).length + 1 = cfg.RADIO_OUT_BUFFER_SIZE) :
    (radio_queue_message cfg w.radio_state p).write_index
      = (radio_queue_message cfg w.radio_state p).read_index ∧
    pending cfg (radio_queue_message cfg w.radio_state p) = [] ∧
    radio_run cfg { w with radio_state := radio_queue_message cfg w.radio_state p } false none 0
      = { w with radio_state := radio_queue_message cfg w.radio_state p } := by
  rw [pending_length, queue_count_cases cfg _ hwf] at hfull
  obtain ⟨hlen, hr, hw⟩ := hwf
  have heq : (radio_queue_message cfg w.radio_state p).write_index
      = (radio_queue_message cfg w.radio_state p).read_index := by
    show (w.radio_state.write_index + 1) % cfg.RADIO_OUT_BUFFER_SIZE = w.radio_state.read_index
    rw [mod_wrap _ _ (by omega)]
    split_ifs at hfull ⊢ <;> omega
  refine ⟨heq, ?_, ?_⟩
  · unfold pending queue_count
    rw [heq]
    have : (radio_queue_message cfg w.radio_state p).read_index + cfg.RADIO_OUT_BUFFER_SIZE
        - (radio_queue_message cfg w.radio_state p).read_index = cfg.RADIO_OUT_BUFFER_SIZE := by
      omega
    rw [this, Nat.mod_self]
    rfl
  · show radio_run_send cfg _ false = _
    unfold radio_run_send
    rw [if_neg (fun h => h.2 heq.symm)]
    rfl

theorem radio_queue_message_wf (cfg : Config) (rs : radio_state_t) (p : radio_packet_t)
    (hwf : queue_wf cfg rs) : queue_wf cfg (radio_queue_message cfg rs p) := by
  obtain ⟨hlen, hr, hw⟩ := hwf
  exact ⟨by simp [radio_queue_message, hlen], hr, Nat.mod_lt _ (by omega)⟩

theorem send_string_loop_wf (cfg : Config) (buffer : List Nat) :
    ∀ (fuel : Nat) (p : radio_packet_t) (index : Nat) (remaining : Int) (rs : radio_state_t),
      queue_wf cfg rs → queue_wf cfg (send_string_loop cfg p buffer fuel index remaining rs) := by
  intro fuel
  induction fuel with
  | zero => intro p index remaining rs hwf; exact hwf
  | succ n ih =>
    intro p index remaining rs hwf
    unfold send_string_loop
    split_ifs
    · exact ih _ _ _ _ (radio_queue_message_wf cfg rs _ hwf)
    · exact hwf

theorem incremental_read_queue (cfg : Config) (rs : radio_state_t) (type : PacketType)
    (start : Nat → Nat) :
    (_incremental_read_packet_string cfg rs type start).1.buffer = rs.buffer ∧
    (_incremental_read_packet_string cfg rs type start).1.read_index = rs.read_index ∧
    (_incremental_read_packet_string cfg rs type start).1.write_index = rs.write_index := by
  unfold _incremental_read_packet_string
  split_ifs <;> exact ⟨rfl, rfl, rfl⟩

theorem queue_wf_congr (cfg : Config) (rs rs1 : radio_state_t)
    (h : rs1.buffer = rs.buffer ∧ rs1.read_index = rs.read_index ∧
      rs1.write_index = rs.write_index) (hwf : queue_wf cfg rs) : queue_wf cfg rs1 := by
  unfold queue_wf at *
  rw [h.1, h.2.1, h.2.2]; exact hwf

theorem process_packet_transmitted (cfg : Config) (w : World) (packet : radio_packet_t)
    (past : Nat) : (_process_packet cfg w packet past).transmitted = w.transmitted := by
  obtain ⟨type, val, key, str⟩ := packet
  cases type <;> simp only [_process_packet] <;>
    first | rfl | (split <;> rfl) | (simp only [radio_set_channel]; split_ifs <;> rfl)

theorem send_ok_eq (cfg : Config) (w : World) (key : PacketType) : _send_ok cfg w key = w := rfl

theorem PACKET_SEND_radio_state (cfg : Config) (w : World) (type : PacketType) (value : Int) :
    (PACKET_SEND cfg w type value).radio_state =
      radio_queue_message cfg w.radio_state { zero_packet cfg with type := type, val := value } :=
  rfl

theorem serial_api_queue_output_radio_state (w : World) (line : SerialLine) :
    (serial_api_queue_output w line).radio_state = w.radio_state := rfl

theorem radio_set_channel_radio_state (w : World) (channel : Int) :
    (radio_set_channel w channel).radio_state = w.radio_state := by
  unfold radio_set_channel; split_ifs <;> rfl

theorem process_packet_wf (cfg : Config) (w : World) (packet : radio_packet_t)
    (past : Nat) (hwf : queue_wf cfg w.radio_state) :
    queue_wf cfg (_process_packet cfg w packet past).radio_state := by
  obtain ⟨type, val, key, str⟩ := packet
  cases type <;>
    simp only [_process_packet, send_ok_eq, PACKET_SEND_radio_state,
      serial_api_queue_output_radio_state, radio_set_channel_radio_state,
      _queue_print_ok, _queue_print_i16, _queue_print_i32, _queue_print_u16, _queue_print_u32,
      _queue_print_string, PRINT_PACKET_STRING, PACKET_SEND_STRING, send_string] <;>
    first
    | with_reducible exact hwf
    | with_reducible exact radio_queue_message_wf cfg _ _ hwf
    | with_reducible exact radio_queue_message_wf cfg _ _ (radio_queue_message_wf cfg _ _ hwf)
    | with_reducible exact send_string_loop_wf cfg _ _ _ _ _ _ hwf
    | (split <;> simp only [serial_api_queue_output_radio_state] <;>
        exact queue_wf_congr cfg _ _ (incremental_read_queue cfg _ _ _) hwf)

theorem pending_empty (cfg : Config) (rs : radio_state_t)
    (heq : rs.read_index = rs.write_index) : pending cfg rs = [] := by
  unfold pending queue_count
  rw [heq, Nat.add_sub_cancel_left, Nat.mod_self]
  rfl

theorem pending_unfold (cfg : Config) (rs : radio_state_t) (hwf : queue_wf cfg rs)
    (hne : rs.read_index ≠ rs.write_index) :
    pending cfg rs = rs.buffer.getD rs.read_index (zero_packet cfg) ::
      pending cfg { rs with read_index := (rs.read_index + 1) % cfg.RADIO_OUT_BUFFER_SIZE } := by
  have hcount := queue_count_cases cfg _ hwf
  obtain ⟨hlen, hr, hw⟩ := hwf
  have hwf1 : queue_wf cfg { rs with
      read_index := (rs.read_index + 1) % cfg.RADIO_OUT_BUFFER_SIZE } :=
    ⟨hlen, Nat.mod_lt _ (by omega), hw⟩
  have hcount1 := queue_count_cases cfg _ hwf1
  have hc : queue_count cfg rs
      = queue_count cfg { rs with
          read_index := (rs.read_index + 1) % cfg.RADIO_OUT_BUFFER_SIZE } + 1 := by
    rw [hcount1, hcount]
    simp only
    rw [mod_wrap _ _ (by omega)]
    split_ifs <;> omega
  unfold pending
  rw [hc]
  rfl

theorem radio_run_receive_busy (cfg : Config) (w : World) (dataReady : Option radio_packet_t)
    (past : Nat) : radio_run_receive cfg w true dataReady past = w := by
  cases dataReady <;> rfl

theorem radio_run_receive_frame (cfg : Config) (w : World) (sending : Bool)
    (dataReady : Option radio_packet_t) (past : Nat) (hwf : queue_wf cfg w.radio_state) :
    queue_wf cfg (radio_run_receive cfg w sending dataReady past).radio_state ∧
    (radio_run_receive cfg w sending dataReady past).transmitted = w.transmitted := by
  cases sending <;> cases dataReady
  · exact ⟨hwf, rfl⟩
  · exact ⟨process_packet_wf cfg w _ past hwf, process_packet_transmitted cfg w _ past⟩
  · exact ⟨hwf, rfl⟩
  · exact ⟨hwf, rfl⟩

/-- C7: one `radio_run` step, after the received frame (if any) has been
processed, hands a packet to the transport exactly when the transport is idle
and packets are pending; it is then the oldest pending packet, the only one
handed over, the read cursor advances by one modulo the capacity, and buffer
and write cursor stay.  Otherwise nothing is handed over.  With the transport
busy the step changes nothing at all. -/
theorem radio_run_hands_over_oldest (cfg : Config) (w : World) (sending : Bool)
    (dataReady : Option radio_packet_t) (past : Nat) (hwf : queue_wf cfg w.radio_state) :
    (if sending = false ∧
        pending cfg (radio_run_receive cfg w sending dataReady past).radio_state ≠ [] then
      pending cfg (radio_run_receive cfg w sending dataReady past).radio_state
        = (radio_run_receive cfg w sending dataReady past).radio_state.buffer.getD
            (radio_run_receive cfg w sending dataReady past).radio_state.read_index
            (zero_packet cfg)
          :: pending cfg (radio_run cfg w sending dataReady past).radio_state ∧
      (radio_run cfg w sending dataReady past).transmitted
        = w.transmitted ++
          [(radio_run_receive cfg w sending dataReady past).radio_state.buffer.getD
            (radio_run_receive cfg w sending dataReady past).radio_state.read_index
            (zero_packet cfg)] ∧
      (radio_run cfg w sending dataReady past).radio_state.read_index
        = ((radio_run_receive cfg w sending dataReady past).radio_state.read_index + 1)
            % cfg.RADIO_OUT_BUFFER_SIZE ∧
      (radio_run cfg w sending dataReady past).radio_state.buffer
        = (radio_run_receive cfg w sending dataReady past).radio_state.buffer ∧
      (radio_run cfg w sending dataReady past).radio_state.write_index
        = (radio_run_receive cfg w sending dataReady past).radio_state.write_index
    else
      radio_run cfg w sending dataReady past = radio_run_receive cfg w sending dataReady past ∧
      (radio_run cfg w sending dataReady past).transmitted = w.transmitted) ∧
    radio_run cfg w true dataReady past = w := by
  obtain ⟨hwf1, ht1⟩ := radio_run_receive_frame cfg w sending dataReady past hwf
  have hrun : radio_run cfg w sending dataReady past
      = radio_run_send cfg (radio_run_receive cfg w sending dataReady past) sending := rfl
  refine ⟨?_, ?_⟩
  · generalize radio_run_receive cfg w sending dataReady past = w1 at hwf1 ht1 hrun
    rw [hrun]
    by_cases hcond : sending = false ∧ w1.radio_state.read_index ≠ w1.radio_state.write_index
    · have hp := pending_unfold cfg w1.radio_state hwf1 hcond.2
      have hsend : radio_run_send cfg w1 sending =
          { w1 with
            radio_state := { w1.radio_state with
              read_index := (w1.radio_state.read_index + 1) % cfg.RADIO_OUT_BUFFER_SIZE },
            transmitted := w1.transmitted ++
              [w1.radio_state.buffer.getD w1.radio_state.read_index (zero_packet cfg)] } := by
        unfold radio_run_send
        rw [if_pos hcond]
      rw [if_pos ⟨hcond.1, by rw [hp]; exact List.cons_ne_nil _ _⟩, hsend]
      exact ⟨hp, by rw [← ht1], rfl, rfl, rfl⟩
    · have hsend : radio_run_send cfg w1 sending = w1 := by
        unfold radio_run_send
        rw [if_neg hcond]
      have hcond1 : ¬ (sending = false ∧ pending cfg w1.radio_state ≠ []) := by
        intro h
        by_cases heq : w1.radio_state.read_index = w1.radio_state.write_index
        · exact h.2 (pending_empty cfg _ heq)
        · exact hcond ⟨h.1, heq⟩
      rw [if_neg hcond1, hsend]
      exact ⟨rfl, ht1⟩
  · show radio_run_send cfg (radio_run_receive cfg w true dataReady past) true = w
    rw [radio_run_receive_busy]
    rfl

/-! ## Calibration -/

theorem floatToLong_intCast (P : Int) (h : isLong P) : floatToLong (P : ℚ) = P := by
  unfold floatToLong
  rw [Rat.num_intCast, Rat.den_intCast]
  simp only [Nat.cast_one, Int.tdiv_one]
  exact wrapLong_small P h

theorem dispatch_uncalibrated_enc_down (cfg : Config) (w : World) (hw : Inputs)
    (hs : w.state = State.uncalibrated) :
    (dispatch cfg w ENC_DOWN_SIG hw).state = State.flashing ∧
    (dispatch cfg w ENC_DOWN_SIG hw).me.enc_pushes_ = wrapChar (w.me.enc_pushes_ + 1) ∧
    (if w.me.enc_pushes_ = 0 then
      (dispatch cfg w ENC_DOWN_SIG hw).me.calibration_pos_1_ = floatToLong w.me.cur_pos_ ∧
      (dispatch cfg w ENC_DOWN_SIG hw).settings.calibration_position_1
        = floatToLong w.me.cur_pos_ ∧
      (dispatch cfg w ENC_DOWN_SIG hw).me.calibration_pos_2_ = w.me.calibration_pos_2_
    else
      (dispatch cfg w ENC_DOWN_SIG hw).me.calibration_pos_2_ = floatToLong w.me.cur_pos_ ∧
      (dispatch cfg w ENC_DOWN_SIG hw).settings.calibration_position_2
        = floatToLong w.me.cur_pos_ ∧
      (dispatch cfg w ENC_DOWN_SIG hw).me.calibration_pos_1_ = w.me.calibration_pos_1_) := by
  unfold dispatch
  simp only [offer, hs, handler, Txr.uncalibrated]
  split_ifs with h0 <;>
    simp [exit_path, entry_path, chain, entry_action, exit_action]

/-- C8: two button-down events handled in `uncalibrated`, the first with press
count 0 and current position `P1`, the second in a world that carries the
press count and endpoint 1 left by the first and has current position `P2`:
each press makes `flashing` the active state, the first sets calibration
endpoint 1 (object and settings store) to `P1`, the second sets endpoint 2 to
`P2` and leaves endpoint 1 at `P1`. -/
theorem two_presses_record_endpoints (cfg : Config) (w w' : World) (hw hw' : Inputs)
    (P1 P2 : Int) (hP1 : isLong P1) (hP2 : isLong P2)
    (hs : w.state = State.uncalibrated) (hp : w.me.enc_pushes_ = 0)
    (hpos : w.me.cur_pos_ = (P1 : ℚ))
    (hs' : w'.state = State.uncalibrated)
    (hp' : w'.me.enc_pushes_ = (dispatch cfg w ENC_DOWN_SIG hw).me.enc_pushes_)
    (hc' : w'.me.calibration_pos_1_ = (dispatch cfg w ENC_DOWN_SIG hw).me.calibration_pos_1_)
    (hpos' : w'.me.cur_pos_ = (P2 : ℚ)) :
    (dispatch cfg w ENC_DOWN_SIG hw).state = State.flashing ∧
    (dispatch cfg w ENC_DOWN_SIG hw).me.calibration_pos_1_ = P1 ∧
    (dispatch cfg w ENC_DOWN_SIG hw).settings.calibration_position_1 = P1 ∧
    (dispatch cfg w' ENC_DOWN_SIG hw').state = State.flashing ∧
    (dispatch cfg w' ENC_DOWN_SIG hw').me.calibration_pos_2_ = P2 ∧
    (dispatch cfg w' ENC_DOWN_SIG hw').settings.calibration_position_2 = P2 ∧
    (dispatch cfg w' ENC_DOWN_SIG hw').me.calibration_pos_1_ = P1 := by
  obtain ⟨h1s, h1p, h1c⟩ := dispatch_uncalibrated_enc_down cfg w hw hs
  obtain ⟨h2s, _, h2c⟩ := dispatch_uncalibrated_enc_down cfg w' hw' hs'
  rw [if_pos hp, hpos, floatToLong_intCast P1 hP1] at h1c
  rw [hp] at h1p
  have hp1 : w'.me.enc_pushes_ ≠ 0 := by rw [hp', h1p]; decide
  rw [if_neg hp1, hpos', floatToLong_intCast P2 hP2, hc', h1c.1] at h2c
  exact ⟨h1s, h1c.1, h1c.2.1, h2s, h2c.1, h2c.2.1, h2c.2.2⟩

/-- C9: in `flashing`, `CALIBRATION_SIG` makes the active state a function of
the press count and the two switches: with press count at least 2 it is
`free_run_mode` if the free-run switch is on, else `z_mode` if the Z switch is
on, else `play_back_mode`; with press count below 2 it is `uncalibrated`. -/
theorem flashing_elapsed_next_state (cfg : Config) (w : World) (hw : Inputs)
    (hs : w.state = State.flashing) :
    (dispatch cfg w CALIBRATION_SIG hw).state =
      if w.me.enc_pushes_ ≥ 2 then
        (if hw.freeswitch_on then State.free_run_mode
         else if hw.zswitch_on then State.z_mode
         else State.play_back_mode)
      else State.uncalibrated := by
  unfold dispatch
  simp only [offer, hs, handler, Txr.flashing]
  split_ifs <;> rfl

/-! ## Acknowledgment of SET and command packets -/

/-- C10, as stated, fails: processing a `PACKET_MAX_SPEED_SET` packet with
value 500 on the empty queue stores 500 as the max speed and leaves the radio
state as it was; no packet is pending afterwards, so no `Ok` packet with key
`PACKET_MAX_SPEED_SET` has been enqueued. -/
theorem set_packet_enqueues_no_ok :
    (_process_packet example_config example_world
      { zero_packet example_config with type := PACKET_MAX_SPEED_SET, val := 500 } 0).settings.max_speed
      = 500 ∧
    (_process_packet example_config example_world
      { zero_packet example_config with type := PACKET_MAX_SPEED_SET, val := 500 } 0).radio_state
      = example_world.radio_state ∧
    pending example_config (_process_packet example_config example_world
      { zero_packet example_config with type := PACKET_MAX_SPEED_SET, val := 500 } 0).radio_state
      ≠ [{ zero_packet example_config with type := PACKET_OK, key := PACKET_MAX_SPEED_SET }] := by
  decide

/-- C10, amended: processing a packet with a SET or command tag enqueues no
`Ok` packet: the outbound queue is left as it was, except that reload-config
enqueues the max-speed SET and the accel SET packet with the stored values.
The settings afterwards are those of the dispatch contract (`spec_apply_set`:
the value stored under the key of the family, a flush for save-config, nothing
for the control-only families and reload-config), except for the profile-name
tag: there the name becomes the string that `_incremental_read_packet_string`
returns for the string field of the packet, and the settings stay as they were
when it returns null. -/
theorem set_packet_applied_not_acknowledged (cfg : Config) (w : World)
    (packet : radio_packet_t) (past : Nat) (h : packet.type ∈ set_command_tags) :
    queue_of (_process_packet cfg w packet past).radio_state =
      (if packet.type = PACKET_RELOAD_CONFIG then
        queue_of
          (radio_queue_message cfg
            (radio_queue_message cfg w.radio_state
              { zero_packet cfg with type := PACKET_MAX_SPEED_SET, val := w.settings.max_speed })
            { zero_packet cfg with type := PACKET_ACCEL_SET, val := w.settings.max_accel })
      else queue_of w.radio_state) ∧
    (_process_packet cfg w packet past).settings =
      (if packet.type = PACKET_PROFILE_NAME_SET then
        (match (_incremental_read_packet_string cfg w.radio_state PACKET_PROFILE_NAME_SET
            (fun i => packet.str.getD i past)).2 with
          | some name => { w.settings with name := name }
          | none => w.settings)
      else spec_apply_set w.settings packet) := by
  obtain ⟨type, val, key, str⟩ := packet
  simp only [set_command_tags, List.mem_cons, List.mem_singleton, List.not_mem_nil,
    or_false] at h
  rcases h with h | h | h | h | h | h | h | h | h | h | h | h <;> subst h
  · exact ⟨rfl, rfl⟩
  · exact ⟨rfl, rfl⟩
  · simp only [_process_packet, send_ok_eq, spec_apply_set, reduceCtorEq, if_false]
    refine ⟨?_, ?_⟩ <;> (unfold radio_set_channel; split_ifs <;> rfl)
  · exact ⟨rfl, rfl⟩
  · have hq := incremental_read_queue cfg w.radio_state PACKET_PROFILE_NAME_SET
      (fun i => str.getD i past)
    simp only [_process_packet, send_ok_eq, if_true]
    split
    · next name hname =>
      refine ⟨?_, ?_⟩
      · simp only [queue_of, hq.1, hq.2.1, hq.2.2, reduceCtorEq, if_false]
      · simp only [hname]
    · next hname =>
      refine ⟨?_, ?_⟩
      · simp only [queue_of, hq.1, hq.2.1, hq.2.2, reduceCtorEq, if_false]
      · simp only [hname]
  · exact ⟨rfl, rfl⟩
  · exact ⟨rfl, rfl⟩
  · exact ⟨rfl, rfl⟩
  · exact ⟨rfl, rfl⟩
  · exact ⟨rfl, rfl⟩
  · exact ⟨rfl, rfl⟩
  · exact ⟨rfl, rfl⟩

/-! ## Instances on the example configuration -/

/-- Instance of C3: the example world (nothing reported yet, encoder at 1000)
enters `free_run_mode`; the first read reports 50. -/
theorem free_run_entry_speed_reports_witness :
    example_world.me.previous_speed_percent_ ≠ 50 ∧
    (get_speed_percent_if_changed
      (entry_action example_config State.free_run_mode example_world example_inputs).me
      example_inputs.encoder).2 = 50 :=
  ⟨by decide,
    (free_run_entry_speed_reports example_config example_world example_inputs 3
      (by decide)).1⟩

/-- Instance of C5: enqueuing `A`, `B`, `C` into a queue of four and polling
three times hands over `A`, `B`, `C` and leaves nothing pending. -/
theorem outbound_queue_fifo_witness :
    (run_ops example_config example_world ops_ABC).transmitted
      ++ pending example_config (run_ops example_config example_world ops_ABC).radio_state
      = [packet_A, packet_B, packet_C] ∧
    (pending example_config
      (run_ops example_config example_world ops_ABC).radio_state).length = 0 :=
  outbound_queue_fifo example_config 16 example_world ops_ABC (by decide) rfl rfl (by decide)

/-- Instance of C6: with `A`, `B`, `C` pending in a queue of four, one more
enqueue leaves no packet pending. -/
theorem radio_queue_message_laps_silently_witness :
    (pending example_config example_world_ABC.radio_state).length + 1
      = example_config.RADIO_OUT_BUFFER_SIZE ∧
    pending example_config
      (radio_queue_message example_config example_world_ABC.radio_state packet_A) = [] :=
  ⟨by decide,
    (radio_queue_message_laps_silently example_config example_world_ABC packet_A
      (by decide) (by decide)).2.1⟩

/-- Instance of C7: with `A`, `B`, `C` pending the idle step hands over `A`; the
busy step changes nothing. -/
theorem radio_run_hands_over_oldest_witness :
    queue_wf example_config example_world_ABC.radio_state ∧
    (radio_run example_config example_world_ABC false none 0).transmitted = [packet_A] ∧
    radio_run example_config example_world_ABC true none 0 = example_world_ABC := by
  have h := radio_run_hands_over_oldest example_config example_world_ABC false none 0
    (by decide)
  rw [if_pos (by decide)] at h
  exact ⟨by decide, h.1.2.1, h.2⟩

/-- Instance of C8 on a trace from startup: first press at position 10, flash
elapsed, position moved to 50, second press. -/
theorem two_presses_record_endpoints_witness :
    example_world_at_10.state = State.uncalibrated ∧
    example_world_at_10.me.enc_pushes_ = 0 ∧
    example_world_at_10.me.cur_pos_ = ((10 : Int) : ℚ) ∧
    example_world_second_press.state = State.uncalibrated ∧
    example_world_second_press.me.cur_pos_ = ((50 : Int) : ℚ) ∧
    (dispatch example_config example_world_at_10 ENC_DOWN_SIG example_inputs).state
      = State.flashing ∧
    (dispatch example_config example_world_at_10 ENC_DOWN_SIG
      example_inputs).me.calibration_pos_1_ = 10 ∧
    (dispatch example_config example_world_second_press ENC_DOWN_SIG example_inputs).state
      = State.flashing ∧
    (dispatch example_config example_world_second_press ENC_DOWN_SIG
      example_inputs).me.calibration_pos_2_ = 50 ∧
    (dispatch example_config example_world_second_press ENC_DOWN_SIG
      example_inputs).me.calibration_pos_1_ = 10 := by
  have h := two_presses_record_endpoints example_config example_world_at_10
    example_world_second_press example_inputs example_inputs 10 50 (by decide) (by decide)
    (by with_unfolding_all decide) (by with_unfolding_all decide)
    (by with_unfolding_all decide) (by with_unfolding_all decide)
    (by with_unfolding_all decide) (by with_unfolding_all decide)
    (by with_unfolding_all decide)
  exact ⟨by with_unfolding_all decide, by with_unfolding_all decide,
    by with_unfolding_all decide, by with_unfolding_all decide,
    by with_unfolding_all decide, h.1, h.2.1, h.2.2.2.1, h.2.2.2.2.1, h.2.2.2.2.2.2⟩

/-- Instance of C9: after the first press the flash-duration event leads back
to `uncalibrated`. -/
theorem flashing_elapsed_next_state_witness :
    (dispatch example_config example_world_at_10 ENC_DOWN_SIG example_inputs).state
      = State.flashing ∧
    (dispatch example_config
      (dispatch example_config example_world_at_10 ENC_DOWN_SIG example_inputs)
      CALIBRATION_SIG example_inputs).state = State.uncalibrated :=
  ⟨by with_unfolding_all decide,
    (flashing_elapsed_next_state example_config
      (dispatch example_config example_world_at_10 ENC_DOWN_SIG example_inputs)
      example_inputs (by with_unfolding_all decide)).trans (by with_unfolding_all decide)⟩

/-- Instance of C10 as amended: reload-config on the example world enqueues the
two SET packets and nothing else. -/
theorem set_packet_applied_not_acknowledged_witness :
    PACKET_RELOAD_CONFIG ∈ set_command_tags ∧
    queue_of (_process_packet example_config example_world
      { zero_packet example_config with type := PACKET_RELOAD_CONFIG } 0).radio_state =
      queue_of
        (radio_queue_message example_config
          (radio_queue_message example_config example_world.radio_state
            { zero_packet example_config with
              type := PACKET_MAX_SPEED_SET, val := example_world.settings.max_speed })
          { zero_packet example_config with
            type := PACKET_ACCEL_SET, val := example_world.settings.max_accel }) :=
  ⟨by decide,
    (set_packet_applied_not_acknowledged example_config example_world
      { zero_packet example_config with type := PACKET_RELOAD_CONFIG } 0 (by decide)).1⟩

/-! ## The acknowledgment table -/

/-- C12, as stated, fails: dispatching `Ok` with a key that is not in the
table (tag byte 0) on the example world queues the line `OK <ignore sentinel>`
on the debug channel. -/
theorem unregistered_ok_is_printed :
    other 0 ∉ registered_ok_tags ∧
    (_process_packet example_config example_world (ok_packet example_config (other 0))
      0).serial_out = [SerialLine.ok SERIAL_IGNORE] ∧
    example_world.serial_out = [] := by
  decide

/-- C12, amended: for every key without an entry in `_map_ok_type`,
dispatching `Ok{key}` queues exactly one line on the debug channel, `OK`
followed by the ignore sentinel, and changes nothing else: nothing is enqueued
on the outbound queue and no setting changes. -/
theorem unregistered_ok_prints_ignore (cfg : Config) (w : World) (packet : radio_packet_t)
    (past : Nat) (ht : packet.type = PACKET_OK) (hkey : packet.key ∉ registered_ok_tags) :
    _process_packet cfg w packet past
      = { w with serial_out := w.serial_out ++ [SerialLine.ok SERIAL_IGNORE] } := by
  obtain ⟨type, val, key, str⟩ := packet
  simp only at ht hkey
  subst ht
  have hmap : _map_ok_type key = SERIAL_IGNORE := by
    cases key <;> first | rfl | (exfalso; apply hkey; decide)
  simp only [_process_packet, hmap]
  rfl

/-! ## GET packets and unknown tags -/

/-- C16: for the two silent GET tags, with the stored values inside their C
types, processing the packet hands exactly one packet to
`radio_queue_message`, the SET packet of the family with the stored value, and
leaves the rest of the world (settings store, debug channel) as it was. -/
theorem silent_get_enqueues_set (cfg : Config) (w : World) (val : Int) (key : PacketType)
    (str : List Nat) (past : Nat) (hs : settings_in_range w.settings) :
    _process_packet cfg w
        { type := PACKET_MAX_SPEED_GET_NO_PRINT, val := val, key := key, str := str } past
      = with_enqueued cfg w PACKET_MAX_SPEED_SET w.settings.max_speed ∧
    _process_packet cfg w
        { type := PACKET_ACCEL_GET_NO_PRINT, val := val, key := key, str := str } past
      = with_enqueued cfg w PACKET_ACCEL_SET w.settings.max_accel := by
  obtain ⟨⟨h1, h2⟩, ⟨h3, h4⟩, _, _⟩ := hs
  have e1 : wrapUInt w.settings.max_speed = w.settings.max_speed := by
    unfold wrapUInt; omega
  have e2 : wrapInt w.settings.max_accel = w.settings.max_accel := wrapInt_small _ h3 h4
  simp only [_process_packet, PACKET_SEND, with_enqueued, e1, e2, and_self]

/-- C17, as stated, fails: the `PACKET_TARGET_POSITION_GET` case is empty; on
the example world it leaves the world, outbound queue included, as it was, so
no PRINT packet is enqueued. -/
theorem target_position_get_is_empty :
    _process_packet example_config example_world
        { zero_packet example_config with type := PACKET_TARGET_POSITION_GET } 0
      = example_world ∧
    pending example_config
        (_process_packet example_config example_world
          { zero_packet example_config with type := PACKET_TARGET_POSITION_GET } 0).radio_state
      = [] := by
  decide

/-- C17, amended: for the verbose GET tags of role, max speed, accel, channel,
profile id, preset index and start-mode flag, with the stored values inside
their C types, processing the packet hands exactly one packet to
`radio_queue_message`, the PRINT packet of the family with the current value,
and leaves the rest of the world (settings store included) as it was; the
target-position GET, an empty case, leaves the whole world as it was. -/
theorem verbose_get_enqueues_print (cfg : Config) (w : World) (val : Int) (key : PacketType)
    (str : List Nat) (past : Nat) (hs : settings_in_range w.settings) :
    _process_packet cfg w { type := PACKET_ROLE_GET, val := val, key := key, str := str } past
      = with_enqueued cfg w PACKET_ROLE_PRINT cfg.ROLE ∧
    _process_packet cfg w
        { type := PACKET_MAX_SPEED_GET, val := val, key := key, str := str } past
      = with_enqueued cfg w PACKET_MAX_SPEED_PRINT w.settings.max_speed ∧
    _process_packet cfg w { type := PACKET_ACCEL_GET, val := val, key := key, str := str } past
      = with_enqueued cfg w PACKET_ACCEL_PRINT w.settings.max_accel ∧
    _process_packet cfg w { type := PACKET_CHANNEL_GET, val := val, key := key, str := str } past
      = with_enqueued cfg w PACKET_CHANNEL_PRINT w.settings.channel ∧
    _process_packet cfg w
        { type := PACKET_PROFILE_ID_GET, val := val, key := key, str := str } past
      = with_enqueued cfg w PACKET_PROFILE_ID_PRINT w.settings.id ∧
    _process_packet cfg w
        { type := PACKET_PRESET_INDEX_GET, val := val, key := key, str := str } past
      = with_enqueued cfg w PACKET_PRESET_INDEX_PRINT w.settings.preset_index ∧
    _process_packet cfg w
        { type := PACKET_START_STATE_GET, val := val, key := key, str := str } past
      = with_enqueued cfg w PACKET_START_STATE_PRINT
          (if w.settings.start_in_calibration_mode then 1 else 0) ∧
    _process_packet cfg w
        { type := PACKET_TARGET_POSITION_GET, val := val, key := key, str := str } past
      = w := by
  obtain ⟨⟨h1, h2⟩, ⟨h3, h4⟩, ⟨h5, h6⟩, h7⟩ := hs
  have e1 : wrapUInt w.settings.max_speed = w.settings.max_speed := by
    unfold wrapUInt; omega
  have e2 : wrapInt w.settings.max_accel = w.settings.max_accel := wrapInt_small _ h3 h4
  have e3 : wrapInt w.settings.channel = w.settings.channel := wrapInt_small _ h5 h6
  have e4 : wrapLong w.settings.id = w.settings.id := wrapLong_small _ h7
  simp only [_process_packet, PACKET_SEND, with_enqueued, e1, e2, e3, e4, and_self]

/-- C18: a packet whose tag is none of the tags named in the `switch` of
`_process_packet` leaves the whole world as it was: settings, outbound queue
and its cursors, debug channel and string-reassembly state. -/
theorem unknown_tag_is_dropped (cfg : Config) (w : World) (code : Nat) (val : Int)
    (key : PacketType) (str : List Nat) (past : Nat) :
    _process_packet cfg w { type := other code, val := val, key := key, str := str } past
      = w := by
  simp only [_process_packet]

/-! ## String reassembly -/

theorem cstring_head_zero (v : Nat) (rest : List Nat) :
    cstring (v :: 0 :: rest) = cstring [v] := by
  unfold cstring
  by_cases hv : v = 0
  · simp [List.takeWhile, hv]
  · simp [List.takeWhile, hv]

/-- With the cursor at 0 and a zero at index 1 of the buffer, a call returns at
once with the first byte of the chunk as the whole string, and leaves cursor
and index 1 as they were. -/
theorem incremental_read_idle (cfg : Config) (rs : radio_state_t) (type : PacketType)
    (start : Nat → Nat) (h : reassembly_idle rs) :
    reassembly_idle (_incremental_read_packet_string cfg rs type start).1 ∧
    (_incremental_read_packet_string cfg rs type start).2 = some (cstring [start 0]) := by
  obtain ⟨hidx, hlen, hone⟩ := h
  match hb : rs.string_packet_buffer, hlen, hone with
  | a :: b :: rest, _, hone =>
    have hb0 : b = 0 := by simpa using hone
    subst hb0
    have hloop : ∀ n, copy_loop start 0 (n + 1) 0 (a :: 0 :: rest)
        = (start 0 :: 0 :: rest, true) := by
      intro n
      simp [copy_loop]
    unfold _incremental_read_packet_string reassembly_idle
    by_cases hc : rs.string_packet_command ≠ type
    · simp only [if_pos hc, hb, hloop, if_true]
      simp [cstring_head_zero]
    · simp only [if_neg hc, hb, hidx, hloop, if_true]
      simp [cstring_head_zero]

theorem radio_state_zero_idle (cfg : Config) (cap : Nat) :
    reassembly_idle (radio_state_zero cfg (cap + 2)) := by
  unfold reassembly_idle radio_state_zero
  refine ⟨rfl, by simp, ?_⟩
  simp [List.replicate_succ]

/-- From an idle reassembly state every chunk is answered with its own first
byte, whatever was fed before. -/
theorem feed_chunks_idle (cfg : Config) (type : PacketType) (past : Nat) :
    ∀ (chunks : List (List Nat)) (rs : radio_state_t), reassembly_idle rs →
      reassembly_idle (feed_chunks cfg type past rs chunks).1 ∧
      (feed_chunks cfg type past rs chunks).2
        = chunks.map (fun chunk => some (cstring [chunk.getD 0 past])) := by
  intro chunks
  induction chunks with
  | nil => intro rs h; exact ⟨h, rfl⟩
  | cons chunk chunks ih =>
    intro rs h
    obtain ⟨h1, h2⟩ := incremental_read_idle cfg rs type (fun i => chunk.getD i past) h
    obtain ⟨h3, h4⟩ := ih _ h1
    simp only [feed_chunks, List.map_cons]
    exact ⟨h3, by rw [h2, h4]⟩

/-- C13: from the zero-initialised reassembly state, with string fields of four
bytes, the two chunks `ABCD` and `E` of the string `ABCDE` are answered with
the strings `A` and `E`: the first chunk, which has no terminator, is not
answered with null, and the chunk with the terminator is not answered with
`ABCDE`. -/
theorem chunks_of_ABCDE_are_not_reassembled :
    (feed_chunks example_config PACKET_PROFILE_NAME_PRINT 0
        (radio_state_zero example_config 16) [[65, 66, 67, 68], [69, 0, 0, 0]]).2
      = [some [65], some [69]] ∧
    (feed_chunks example_config PACKET_PROFILE_NAME_PRINT 0
        (radio_state_zero example_config 16)
        [[65, 66, 67, 68], [69, 0, 0, 0]]).1.string_packet_buffer_index = 0 := by
  decide

/-- A call with a field type other than the stored one sets the cursor to 0
(with the stored type the cursor stays); and after any chunks of a type `t1`
fed from the zero-initialised state, the values returned for chunks of a type
`t2`, the same as `t1` or not, are those that the zero-initialised state
returns for them: no state reached from the zero-initialised one holds an
accumulation. -/
theorem type_change_restarts_reassembly (cfg : Config) (cap past : Nat) (t1 t2 : PacketType)
    (pre post : List (List Nat)) (rs : radio_state_t) (start : Nat → Nat) :
    (_incremental_read_packet_string cfg rs t2 start).1.string_packet_buffer_index
      = (if rs.string_packet_command ≠ t2 then 0 else rs.string_packet_buffer_index) ∧
    (feed_chunks cfg t2 past
        (feed_chunks cfg t1 past (radio_state_zero cfg (cap + 2)) pre).1 post).2
      = (feed_chunks cfg t2 past (radio_state_zero cfg (cap + 2)) post).2 := by
  refine ⟨?_, ?_⟩
  · unfold _incremental_read_packet_string
    split_ifs <;> rfl
  · have h0 := radio_state_zero_idle cfg cap
    have h1 := (feed_chunks_idle cfg t1 past pre _ h0).1
    rw [(feed_chunks_idle cfg t2 past post _ h1).2, (feed_chunks_idle cfg t2 past post _ h0).2]

/-- C15: with the stored name `ABCDE` and string fields of four bytes the
`PACKET_PROFILE_NAME_GET` case enqueues the chunks `ABCD` and `E`; processed in
order by the `PACKET_PROFILE_NAME_PRINT` case of a receiver in its initial
state they make it report the names `A` and `E`, never `ABCDE`. -/
theorem name_chunks_do_not_reassemble :
    (pending example_config
        (_process_packet example_config example_world_ABCDE
          { zero_packet example_config with type := PACKET_PROFILE_NAME_GET } 0).radio_state).map
        (fun packet => (packet.type, packet.str))
      = [(PACKET_PROFILE_NAME_PRINT, [65, 66, 67, 68]),
         (PACKET_PROFILE_NAME_PRINT, [69, 0, 0, 0])] ∧
    (process_all example_config 0 example_world
        (pending example_config
          (_process_packet example_config example_world_ABCDE
            { zero_packet example_config with type := PACKET_PROFILE_NAME_GET }
            0).radio_state)).serial_out
      = [SerialLine.text SERIAL_NAME_GET [65], SerialLine.text SERIAL_NAME_GET [69]] := by
  decide

/-! ## Max speed from the encoder in `z_mode` -/

theorem roundFloat_int (cfg : Config) (hexact : exact_on_quarters cfg) (n : Int)
    (h1 : -4194304 ≤ n) (h2 : n ≤ 4194304) : cfg.roundFloat (n : ℚ) = n := by
  have h := hexact (4 * n) (by omega) (by omega)
  have e : ((4 * n : Int) : ℚ) / 4 = n := by push_cast; ring
  rw [e] at h
  exact h

theorem encoder_amount_exact (cfg : Config) (hexact : exact_on_quarters cfg) (d : Int)
    (h1 : -131072 ≤ d) (h2 : d ≤ 131072) :
    cfg.roundFloat (cfg.roundFloat (cfg.roundFloat (d : ℚ) / 4)
      * cfg.roundFloat (MAX_SPEED_ENCODER_FACTOR : Int)) = ((16 * d : Int) : ℚ) := by
  rw [roundFloat_int cfg hexact d (by omega) (by omega),
    hexact d (by omega) (by omega)]
  have h64 : cfg.roundFloat (MAX_SPEED_ENCODER_FACTOR : Int) = 64 := by
    have := roundFloat_int cfg hexact 64 (by decide) (by decide)
    simpa [MAX_SPEED_ENCODER_FACTOR] using this
  rw [h64]
  have e : (d : ℚ) / 4 * 64 = ((16 * d : Int) : ℚ) := by push_cast; ring
  rw [e]
  exact roundFloat_int cfg hexact (16 * d) (by omega) (by omega)

theorem update_position_keeps (cfg : Config) (w : World) (hw : Inputs) :
    (update_position cfg w hw).settings = w.settings ∧
    (update_position cfg w hw).me.prev_encoder_count_ = w.me.prev_encoder_count_ := by
  unfold update_position
  by_cases h : hw.pot ≠ w.me.prev_pos_1_ ∧ hw.pot ≠ w.me.prev_pos_2_
  · simp only [if_pos h]
    exact ⟨rfl, rfl⟩
  · simp only [if_neg h, and_self]

theorem update_max_speed_exact (cfg : Config) (w : World) (hw : Inputs)
    (hexact : exact_on_quarters cfg)
    (hold : 0 ≤ w.settings.max_speed ∧ w.settings.max_speed ≤ 65535)
    (hd : -131072 ≤ wrapLong (hw.encoder - w.me.prev_encoder_count_) ∧
      wrapLong (hw.encoder - w.me.prev_encoder_count_) ≤ 131072) :
    (update_max_speed_using_encoder cfg w hw).me.prev_encoder_count_ = hw.encoder ∧
    (update_max_speed_using_encoder cfg w hw).settings =
      if wrapLong (hw.encoder - w.me.prev_encoder_count_) ≠ 0 then
        { w.settings with
          max_speed :=
            clamp (w.settings.max_speed
              + 16 * wrapLong (hw.encoder - w.me.prev_encoder_count_)) 1 32768 }
      else w.settings := by
  have hA := encoder_amount_exact cfg hexact _ hd.1 hd.2
  have hu : wrapUInt w.settings.max_speed = w.settings.max_speed := by
    unfold wrapUInt; omega
  have hsum : cfg.roundFloat (cfg.roundFloat (w.settings.max_speed : ℚ)
      + ((16 * wrapLong (hw.encoder - w.me.prev_encoder_count_) : Int) : ℚ))
      = ((w.settings.max_speed
          + 16 * wrapLong (hw.encoder - w.me.prev_encoder_count_) : Int) : ℚ) := by
    rw [roundFloat_int cfg hexact _ (by omega) (by omega), ← Int.cast_add]
    exact roundFloat_int cfg hexact _ (by omega) (by omega)
  have hfl : floatToLong ((w.settings.max_speed
      + 16 * wrapLong (hw.encoder - w.me.prev_encoder_count_) : Int) : ℚ)
      = w.settings.max_speed + 16 * wrapLong (hw.encoder - w.me.prev_encoder_count_) :=
    floatToLong_intCast _ (by unfold isLong; omega)
  have hc := clamp_range (w.settings.max_speed
    + 16 * wrapLong (hw.encoder - w.me.prev_encoder_count_)) 1 32768 (by decide)
  have hcu : wrapUInt (clamp (w.settings.max_speed
      + 16 * wrapLong (hw.encoder - w.me.prev_encoder_count_)) 1 32768)
      = clamp (w.settings.max_speed
        + 16 * wrapLong (hw.encoder - w.me.prev_encoder_count_)) 1 32768 := by
    unfold wrapUInt; omega
  have hme : ∀ (c : Prop) [Decidable c] (k : SerialKey) (v : Int),
      (if c then log_value w k v else w).me = w.me := by
    intro c _ k v; split_ifs <;> rfl
  have hset : ∀ (c : Prop) [Decidable c] (k : SerialKey) (v : Int),
      (if c then log_value w k v else w).settings = w.settings := by
    intro c _ k v; split_ifs <;> rfl
  have hiff : (((16 * wrapLong (hw.encoder - w.me.prev_encoder_count_) : Int) : ℚ) = 0)
      = (wrapLong (hw.encoder - w.me.prev_encoder_count_) = 0) := by
    apply propext
    constructor
    · intro h
      have h16 : (16 * wrapLong (hw.encoder - w.me.prev_encoder_count_) : Int) = 0 := by
        exact_mod_cast h
      omega
    · intro h
      rw [h]; simp
  unfold update_max_speed_using_encoder
  simp only [hme, hset, hA, hu, hsum, hfl, hcu, ne_eq, hiff]
  split_ifs <;> exact ⟨rfl, rfl⟩

/-- C19: a `z_mode` tick with encoder delta `d` (the `long` difference of the
encoder reading and `prev_encoder_count_`), for a `float` that keeps quarters
of integers up to 2^24, a stored max speed inside `unsigned int` and
`|d| ≤ 131072`: if `d ≠ 0` the stored max speed becomes
`clamp(old + 16 * d, 1, 32768)`, which lies in [1, 32768]; if `d = 0` the
settings store is left as it was; in both cases `prev_encoder_count_` becomes
the encoder reading. -/
theorem z_mode_tick_sets_max_speed (cfg : Config) (w : World) (hw : Inputs)
    (hs : w.state = State.z_mode) (hexact : exact_on_quarters cfg)
    (hold : 0 ≤ w.settings.max_speed ∧ w.settings.max_speed ≤ 65535)
    (hd : -131072 ≤ wrapLong (hw.encoder - w.me.prev_encoder_count_) ∧
      wrapLong (hw.encoder - w.me.prev_encoder_count_) ≤ 131072) :
    (if wrapLong (hw.encoder - w.me.prev_encoder_count_) ≠ 0 then
      (dispatch cfg w SEND_TIMEOUT_SIG hw).settings.max_speed
        = clamp (w.settings.max_speed
            + 16 * wrapLong (hw.encoder - w.me.prev_encoder_count_)) 1 32768 ∧
      1 ≤ (dispatch cfg w SEND_TIMEOUT_SIG hw).settings.max_speed ∧
      (dispatch cfg w SEND_TIMEOUT_SIG hw).settings.max_speed ≤ 32768
    else (dispatch cfg w SEND_TIMEOUT_SIG hw).settings = w.settings) ∧
    (dispatch cfg w SEND_TIMEOUT_SIG hw).me.prev_encoder_count_ = hw.encoder := by
  have hdisp : dispatch cfg w SEND_TIMEOUT_SIG hw
      = update_position_z_mode cfg (update_max_speed_using_encoder cfg w hw) hw := by
    unfold dispatch
    simp only [offer, hs, handler, Txr.z_mode]
  obtain ⟨hp, hset⟩ := update_max_speed_exact cfg w hw hexact hold hd
  obtain ⟨k1, k2⟩ := update_position_keeps cfg (update_max_speed_using_encoder cfg w hw) hw
  have hc := clamp_range (w.settings.max_speed
    + 16 * wrapLong (hw.encoder - w.me.prev_encoder_count_)) 1 32768 (by decide)
  rw [hdisp]
  unfold update_position_z_mode
  rw [k1, k2, hp, hset]
  refine ⟨?_, rfl⟩
  split_ifs
  · exact ⟨rfl, hc.1, hc.2⟩
  · rfl

/-! ## Interpolation of the accepted sample -/

theorem tdiv_scale_nonneg (a D k : Int) (hD : 0 < D) (ha : 0 ≤ a) (haD : a ≤ D)
    (hk : 0 ≤ k) : 0 ≤ Int.tdiv (a * k) D ∧ Int.tdiv (a * k) D ≤ k := by
  rw [Int.tdiv_eq_ediv (Int.mul_nonneg ha hk) (Int.le_of_lt hD)]
  refine ⟨Int.ediv_nonneg (Int.mul_nonneg ha hk) (Int.le_of_lt hD), ?_⟩
  calc a * k / D ≤ D * k / D := Int.ediv_le_ediv hD (by nlinarith)
    _ = k := Int.mul_ediv_cancel_left k (by omega)

theorem tdiv_scale_mono (a b D k : Int) (hD : 0 < D) (ha : 0 ≤ a) (hab : a ≤ b)
    (hk : 0 ≤ k) : Int.tdiv (a * k) D ≤ Int.tdiv (b * k) D := by
  rw [Int.tdiv_eq_ediv (Int.mul_nonneg ha hk) (Int.le_of_lt hD),
    Int.tdiv_eq_ediv (Int.mul_nonneg (by omega) hk) (Int.le_of_lt hD)]
  exact Int.ediv_le_ediv hD (by nlinarith)

theorem tdiv_scale_neg (a D k : Int) :
    Int.tdiv (a * k) D = -Int.tdiv (a * (-k)) D := by
  have e : a * k = -(a * (-k)) := by ring
  rw [e, Int.neg_tdiv]

/-- Within the stated bounds the `long` arithmetic of `map` does not wrap. -/
theorem map_eq_interpolate (lo hi c1 c2 x : Int) (hmm : lo < hi)
    (hspan : hi - lo ≤ 2147483647) (hc1 : isLong c1) (hc2 : isLong c2)
    (hfit : (hi - lo) * (c2 - c1) ≤ 2147483647 ∧ (hi - lo) * (c1 - c2) ≤ 2147483647)
    (hx : lo ≤ x ∧ x ≤ hi) :
    map x lo hi c1 c2 = interpolate lo hi c1 c2 x ∧ between c1 c2 (interpolate lo hi c1 c2 x) := by
  unfold isLong at hc1 hc2
  have hD : 0 < hi - lo := by omega
  have ha : 0 ≤ x - lo := by omega
  have haD : x - lo ≤ hi - lo := by omega
  have hk : -2147483647 ≤ c2 - c1 ∧ c2 - c1 ≤ 2147483647 := by
    constructor <;> nlinarith
  have hprod : -2147483647 ≤ (x - lo) * (c2 - c1) ∧ (x - lo) * (c2 - c1) ≤ 2147483647 := by
    constructor <;> nlinarith
  have hq : between 0 (c2 - c1) (Int.tdiv ((x - lo) * (c2 - c1)) (hi - lo)) := by
    by_cases hpos : 0 ≤ c2 - c1
    · exact Or.inl (tdiv_scale_nonneg _ _ _ hD ha haD hpos)
    · have h := tdiv_scale_nonneg (x - lo) (hi - lo) (-(c2 - c1)) hD ha haD (by omega)
      rw [tdiv_scale_neg]
      exact Or.inr ⟨by omega, by omega⟩
  have hbet : between c1 c2 (interpolate lo hi c1 c2 x) := by
    unfold interpolate
    unfold between at hq ⊢
    omega
  refine ⟨?_, hbet⟩
  unfold map
  rw [wrapLong_small (x - lo) (by unfold isLong; omega),
    wrapLong_small (c2 - c1) (by unfold isLong; omega),
    wrapLong_small _ (show isLong ((x - lo) * (c2 - c1)) by unfold isLong; omega),
    wrapLong_small (hi - lo) (by unfold isLong; omega)]
  unfold interpolate between at hbet
  unfold interpolate
  rw [wrapLong_small _ (by unfold isLong; omega)]
  omega

theorem interpolate_ends (lo hi c1 c2 : Int) (hmm : lo < hi) :
    interpolate lo hi c1 c2 lo = c1 ∧ interpolate lo hi c1 c2 hi = c2 := by
  unfold interpolate
  constructor
  · simp
  · rw [Int.mul_tdiv_cancel_left _ (by omega)]
    omega

theorem interpolate_mono (lo hi c1 c2 x y : Int) (hmm : lo < hi) (hx : lo ≤ x)
    (hxy : x ≤ y) :
    (c1 ≤ c2 ∧ interpolate lo hi c1 c2 x ≤ interpolate lo hi c1 c2 y) ∨
    (c2 ≤ c1 ∧ interpolate lo hi c1 c2 y ≤ interpolate lo hi c1 c2 x) := by
  have hD : 0 < hi - lo := by omega
  unfold interpolate
  by_cases hpos : 0 ≤ c2 - c1
  · have h := tdiv_scale_mono (x - lo) (y - lo) (hi - lo) (c2 - c1) hD (by omega) (by omega) hpos
    exact Or.inl ⟨by omega, by omega⟩
  · have h := tdiv_scale_mono (x - lo) (y - lo) (hi - lo) (-(c2 - c1)) hD (by omega)
      (by omega) (by omega)
    rw [tdiv_scale_neg (x - lo), tdiv_scale_neg (y - lo)]
    exact Or.inr ⟨by omega, by omega⟩

/-- C20, as stated, fails: with the pot range 0..1023 and calibration endpoints
0 and 3000000 the product `1023 * 3000000` leaves the 32-bit `long`; the sample
at `MAX_POT_VAL` is accepted and the position published for it is -1198404,
which is neither endpoint 2 nor between the endpoints. -/
theorem wide_calibration_overflows :
    (update_position example_config example_world_wide
        { example_inputs with pot := 1023 }).me.cur_pos_ = ((-1198404 : Int) : ℚ) ∧
    (pending example_config
        (update_position example_config example_world_wide
          { example_inputs with pot := 1023 }).radio_state).map (fun packet => packet.val)
      = [-1198404] ∧
    ¬ between example_world_wide.me.calibration_pos_1_ example_world_wide.me.calibration_pos_2_
        (-1198404) := by
  decide

/-- C20, amended: for an accepted sample `s` with
`MIN_POT_VAL ≤ s ≤ MAX_POT_VAL` (`MIN_POT_VAL < MAX_POT_VAL`) and calibration
endpoints `c1`, `c2` for which `(MAX_POT_VAL - MIN_POT_VAL) * |c2 - c1|` stays
inside the 32-bit `long` and every integer between them is a `float`, the
position stored and published in the target-position packet is
`c1 + (s - MIN_POT_VAL) * (c2 - c1) / (MAX_POT_VAL - MIN_POT_VAL)` with
truncating division; the interpolation is `c1` at `MIN_POT_VAL` and `c2` at
`MAX_POT_VAL`, lies between `c1` and `c2`, and is monotone in the sample
(non-decreasing for `c1 ≤ c2`, non-increasing for `c2 ≤ c1`). -/
theorem accepted_sample_interpolates (cfg : Config) (w : World) (hw : Inputs) (s2 : Int)
    (hmm : cfg.MIN_POT_VAL < cfg.MAX_POT_VAL)
    (hspan : cfg.MAX_POT_VAL - cfg.MIN_POT_VAL ≤ 2147483647)
    (hc1 : isLong w.me.calibration_pos_1_) (hc2 : isLong w.me.calibration_pos_2_)
    (hfit : (cfg.MAX_POT_VAL - cfg.MIN_POT_VAL)
          * (w.me.calibration_pos_2_ - w.me.calibration_pos_1_) ≤ 2147483647 ∧
        (cfg.MAX_POT_VAL - cfg.MIN_POT_VAL)
          * (w.me.calibration_pos_1_ - w.me.calibration_pos_2_) ≤ 2147483647)
    (hexact : exact_between cfg w.me.calibration_pos_1_ w.me.calibration_pos_2_)
    (hacc : hw.pot ≠ w.me.prev_pos_1_ ∧ hw.pot ≠ w.me.prev_pos_2_)
    (hs : cfg.MIN_POT_VAL ≤ hw.pot ∧ hw.pot ≤ cfg.MAX_POT_VAL)
    (hs2 : hw.pot ≤ s2 ∧ s2 ≤ cfg.MAX_POT_VAL) :
    (update_position cfg w hw).me.cur_pos_
      = (interpolate cfg.MIN_POT_VAL cfg.MAX_POT_VAL w.me.calibration_pos_1_
          w.me.calibration_pos_2_ hw.pot : Int) ∧
    (update_position cfg w hw).radio_state =
      radio_queue_message cfg w.radio_state
        { zero_packet cfg with
          type := PACKET_TARGET_POSITION_SET,
          val := interpolate cfg.MIN_POT_VAL cfg.MAX_POT_VAL w.me.calibration_pos_1_
            w.me.calibration_pos_2_ hw.pot } ∧
    interpolate cfg.MIN_POT_VAL cfg.MAX_POT_VAL w.me.calibration_pos_1_
      w.me.calibration_pos_2_ cfg.MIN_POT_VAL = w.me.calibration_pos_1_ ∧
    interpolate cfg.MIN_POT_VAL cfg.MAX_POT_VAL w.me.calibration_pos_1_
      w.me.calibration_pos_2_ cfg.MAX_POT_VAL = w.me.calibration_pos_2_ ∧
    between w.me.calibration_pos_1_ w.me.calibration_pos_2_
      (interpolate cfg.MIN_POT_VAL cfg.MAX_POT_VAL w.me.calibration_pos_1_
        w.me.calibration_pos_2_ hw.pot) ∧
    ((w.me.calibration_pos_1_ ≤ w.me.calibration_pos_2_ ∧
        interpolate cfg.MIN_POT_VAL cfg.MAX_POT_VAL w.me.calibration_pos_1_
            w.me.calibration_pos_2_ hw.pot
          ≤ interpolate cfg.MIN_POT_VAL cfg.MAX_POT_VAL w.me.calibration_pos_1_
            w.me.calibration_pos_2_ s2) ∨
      (w.me.calibration_pos_2_ ≤ w.me.calibration_pos_1_ ∧
        interpolate cfg.MIN_POT_VAL cfg.MAX_POT_VAL w.me.calibration_pos_1_
            w.me.calibration_pos_2_ s2
          ≤ interpolate cfg.MIN_POT_VAL cfg.MAX_POT_VAL w.me.calibration_pos_1_
            w.me.calibration_pos_2_ hw.pot)) := by
  obtain ⟨hmap, hbet⟩ := map_eq_interpolate cfg.MIN_POT_VAL cfg.MAX_POT_VAL
    w.me.calibration_pos_1_ w.me.calibration_pos_2_ hw.pot hmm hspan hc1 hc2 hfit hs
  obtain ⟨hlo, hhi⟩ := interpolate_ends cfg.MIN_POT_VAL cfg.MAX_POT_VAL
    w.me.calibration_pos_1_ w.me.calibration_pos_2_ hmm
  have hmono := interpolate_mono cfg.MIN_POT_VAL cfg.MAX_POT_VAL
    w.me.calibration_pos_1_ w.me.calibration_pos_2_ hw.pot s2 hmm hs.1 hs2.1
  have hlong : isLong (interpolate cfg.MIN_POT_VAL cfg.MAX_POT_VAL
      w.me.calibration_pos_1_ w.me.calibration_pos_2_ hw.pot) := by
    unfold between at hbet
    unfold isLong at hc1 hc2 ⊢
    omega
  have hcur : (update_position cfg w hw).me.cur_pos_
      = (interpolate cfg.MIN_POT_VAL cfg.MAX_POT_VAL w.me.calibration_pos_1_
          w.me.calibration_pos_2_ hw.pot : Int) := by
    unfold update_position
    simp only [if_pos hacc]
    show cfg.roundFloat ((map hw.pot cfg.MIN_POT_VAL cfg.MAX_POT_VAL
      w.me.calibration_pos_1_ w.me.calibration_pos_2_ : Int) : ℚ) = _
    rw [hmap]
    exact hexact _ hbet
  have hq : (update_position cfg w hw).radio_state =
      radio_queue_message cfg w.radio_state
        { zero_packet cfg with
          type := PACKET_TARGET_POSITION_SET,
          val := floatToLong (update_position cfg w hw).me.cur_pos_ } := by
    unfold update_position
    simp only [if_pos hacc]
    rfl
  rw [hcur, floatToLong_intCast _ hlong] at hq
  exact ⟨hcur, hq, hlo, hhi, hbet, hmono⟩

/-! ## Further instances on the example configuration -/

theorem exact_on_quarters_example : exact_on_quarters example_config := by
  intro n _ _
  rfl

theorem exact_between_example (a b : Int) : exact_between example_config a b := by
  intro n _
  rfl

/-- Instance of C12 as amended: `Ok` with the preset-index SET key queues `OK`
with the ignore sentinel. -/
theorem unregistered_ok_prints_ignore_witness :
    PACKET_PRESET_INDEX_SET ∉ registered_ok_tags ∧
    _process_packet example_config example_world
        (ok_packet example_config PACKET_PRESET_INDEX_SET) 0
      = { example_world with
          serial_out := example_world.serial_out ++ [SerialLine.ok SERIAL_IGNORE] } :=
  ⟨by decide,
    unregistered_ok_prints_ignore example_config example_world
      (ok_packet example_config PACKET_PRESET_INDEX_SET) 0 rfl (by decide)⟩

/-- Instance of C16: the silent max-speed GET on the example world enqueues the
max-speed SET packet with the stored 1000. -/
theorem silent_get_enqueues_set_witness :
    settings_in_range example_world.settings ∧
    _process_packet example_config example_world
        { type := PACKET_MAX_SPEED_GET_NO_PRINT, val := 0, key := other 0, str := [] } 0
      = with_enqueued example_config example_world PACKET_MAX_SPEED_SET 1000 :=
  ⟨by decide,
    (silent_get_enqueues_set example_config example_world 0 (other 0) [] 0 (by decide)).1⟩

/-- Instance of C17 as amended: the channel GET on the example world enqueues
the channel PRINT packet with the stored 5. -/
theorem verbose_get_enqueues_print_witness :
    settings_in_range example_world.settings ∧
    _process_packet example_config example_world
        { type := PACKET_CHANNEL_GET, val := 0, key := other 0, str := [] } 0
      = with_enqueued example_config example_world PACKET_CHANNEL_PRINT 5 :=
  ⟨by decide,
    (verbose_get_enqueues_print example_config example_world 0 (other 0) [] 0
      (by decide)).2.2.2.1⟩

/-- Instance of C19: in `z_mode` with stored max speed 1000 and the encoder one
detent (4 counts) past the baseline, the tick stores 1064 and moves the
baseline to the encoder reading. -/
theorem z_mode_tick_sets_max_speed_witness :
    example_world_z_mode.state = State.z_mode ∧
    wrapLong (1004 - example_world_z_mode.me.prev_encoder_count_) = 4 ∧
    (dispatch example_config example_world_z_mode SEND_TIMEOUT_SIG
        { example_inputs with encoder := 1004 }).settings.max_speed = 1064 ∧
    (dispatch example_config example_world_z_mode SEND_TIMEOUT_SIG
        { example_inputs with encoder := 1004 }).me.prev_encoder_count_ = 1004 := by
  have h := z_mode_tick_sets_max_speed example_config example_world_z_mode
    { example_inputs with encoder := 1004 } (by decide) exact_on_quarters_example
    (by decide) (by decide)
  rw [if_pos (by decide)] at h
  exact ⟨by decide, by decide, h.1.1.trans (by decide), h.2⟩

/-- Instance of C20 as amended: with pot range 0..1023 and endpoints 100 and
1100 the sample 512 publishes 600. -/
theorem accepted_sample_interpolates_witness :
    interpolate 0 1023 100 1100 512 = 600 ∧
    (update_position example_config example_world_calibrated example_inputs).me.cur_pos_
      = ((600 : Int) : ℚ) ∧
    between 100 1100 (interpolate 0 1023 100 1100 512) := by
  have h := accepted_sample_interpolates example_config example_world_calibrated
    example_inputs 1023 (by decide) (by decide) (by decide) (by decide) (by decide)
    (exact_between_example _ _) (by decide) (by decide) (by decide)
  exact ⟨by decide, h.1, h.2.2.2.2.1⟩

/-! ## The initial transition -/

theorem getD_range_map (f : Nat → Int) (n i : Nat) (h : i < n) :
    ((List.range n).map f).getD i 0 = f i := by
  rw [List.getD_eq_getElem?_getD, List.getElem?_map, List.getElem?_range h]
  rfl

theorem floatToLong_zero : floatToLong (0 : ℚ) = 0 := by
  have h := floatToLong_intCast 0 (by unfold isLong; omega)
  simpa using h

theorem update_calibration_multiplier_eq (cfg : Config) (me : Txr) (setting : Int) :
    update_calibration_multiplier cfg me setting =
      { me with calibration_multiplier_ :=
          if setting = cfg.PLAYBACK_MODE then 40 else if setting = cfg.Z_MODE then 80 else 8 } := by
  unfold update_calibration_multiplier
  split_ifs <;> rfl

/-- C21: after `Txr::initial` and the entry actions of its transition, the
active state is `uncalibrated` when the start-in-calibration flag of the
settings is set; otherwise it is `free_run_mode` when the free-run switch is on,
else `z_mode` when the Z switch is on, else `play_back_mode`, and every saved
slot below `NUM_POSITION_BUTTONS` holds the stored saved position.  In both
cases the current position is 0, the packet `TARGET_POSITION_SET 0` has been
handed to `radio_queue_message` (a second time by the entry action of
`play_back_mode`), both calibration endpoints hold the stored values and the
settings are as they were. -/
theorem initial_transition_startup (cfg : Config) (w : World) (hw : Inputs) :
    (if w.settings.start_in_calibration_mode then
        (Txr.initial cfg w hw).state = State.uncalibrated
     else
        (Txr.initial cfg w hw).state =
          (if hw.freeswitch_on then State.free_run_mode
           else if hw.zswitch_on then State.z_mode else State.play_back_mode) ∧
        ∀ i : Fin cfg.NUM_POSITION_BUTTONS,
          (Txr.initial cfg w hw).me.saved_positions_.getD i.val 0
            = w.settings.saved_position.getD i.val 0) ∧
    (Txr.initial cfg w hw).me.cur_pos_ = 0 ∧
    (Txr.initial cfg w hw).radio_state =
      (if (Txr.initial cfg w hw).state = State.play_back_mode then
        (with_enqueued cfg (with_enqueued cfg w PACKET_TARGET_POSITION_SET 0)
          PACKET_TARGET_POSITION_SET 0).radio_state
       else (with_enqueued cfg w PACKET_TARGET_POSITION_SET 0).radio_state) ∧
    (Txr.initial cfg w hw).me.calibration_pos_1_ = w.settings.calibration_position_1 ∧
    (Txr.initial cfg w hw).me.calibration_pos_2_ = w.settings.calibration_position_2 ∧
    (Txr.initial cfg w hw).settings = w.settings := by
  rcases hflag : w.settings.start_in_calibration_mode with _ | _ <;>
  rcases hfree : hw.freeswitch_on with _ | _ <;>
  rcases hz : hw.zswitch_on with _ | _ <;>
  simp [Txr.initial, hflag, hfree, hz, chain, entry_action, PACKET_SEND, with_enqueued,
    update_calibration_multiplier_eq, init_speed_percent, floatToLong_zero, getD_range_map]

/-! ## The calibration multiplier -/

/-- C22: with the three mode codes of `bsp.h` pairwise different,
`update_calibration_multiplier` stores 40 for `PLAYBACK_MODE`, 80 for `Z_MODE`,
8 for `FREE_MODE` and for every other setting, and changes no other field of
the object; in `uncalibrated` each of the three mode-switch events applies it
for its own mode and leaves everything else, the active state included, as it
was. -/
theorem calibration_multiplier_by_mode (cfg : Config) (w : World) (hw : Inputs) (setting : Int)
    (hdistinct : cfg.PLAYBACK_MODE ≠ cfg.Z_MODE ∧ cfg.FREE_MODE ≠ cfg.PLAYBACK_MODE ∧
      cfg.FREE_MODE ≠ cfg.Z_MODE)
    (hs : w.state = State.uncalibrated) :
    update_calibration_multiplier cfg w.me cfg.PLAYBACK_MODE
      = { w.me with calibration_multiplier_ := 40 } ∧
    update_calibration_multiplier cfg w.me cfg.Z_MODE
      = { w.me with calibration_multiplier_ := 80 } ∧
    update_calibration_multiplier cfg w.me cfg.FREE_MODE
      = { w.me with calibration_multiplier_ := 8 } ∧
    update_calibration_multiplier cfg w.me setting
      = { w.me with calibration_multiplier_ :=
            if setting = cfg.PLAYBACK_MODE then 40 else if setting = cfg.Z_MODE then 80 else 8 } ∧
    dispatch cfg w PLAY_BACK_MODE_SIG hw
      = { w with me := { w.me with calibration_multiplier_ := 40 } } ∧
    dispatch cfg w Z_MODE_SIG hw
      = { w with me := { w.me with calibration_multiplier_ := 80 } } ∧
    dispatch cfg w FREE_RUN_MODE_SIG hw
      = { w with me := { w.me with calibration_multiplier_ := 8 } } := by
  obtain ⟨h1, h2, h3⟩ := hdistinct
  have hz : ¬ cfg.Z_MODE = cfg.PLAYBACK_MODE := fun h => h1 h.symm
  simp only [dispatch, hs, offer, handler, Txr.uncalibrated, update_calibration_multiplier_eq,
    if_true, if_neg hz, if_neg h2, if_neg h3, if_pos, and_self]

theorem calibration_multiplier_by_mode_witness :
    (dispatch example_config example_world Z_MODE_SIG example_inputs).me.calibration_multiplier_
      = 80 ∧
    (dispatch example_config example_world Z_MODE_SIG example_inputs).state
      = State.uncalibrated := by
  have h := (calibration_multiplier_by_mode example_config example_world example_inputs 7
    (by decide) rfl).2.2.2.2.2.1
  rw [h]
  exact ⟨rfl, rfl⟩

/-! ## Saving a position in `free_run_mode` -/

/-- C23: in `free_run_mode` at position 40000 with no save-flash pending, the
event of position button 0 stores 40000 in saved slot 0 of the object but hands
`(int)cur_pos_`, which is -25536 for the 16-bit `int`, to
`settings_set_saved_position`; the other slots keep their values, and the event
of button 1 that follows while the flash is pending changes nothing. -/
theorem saved_position_persisted_as_int :
    (dispatch example_config example_world_far (POSITION_BUTTON_SIG 0)
      example_inputs).me.saved_positions_ = [40000, 0, 0, 0] ∧
    (dispatch example_config example_world_far (POSITION_BUTTON_SIG 0)
      example_inputs).settings.saved_position = [-25536, 0, 0, 0] ∧
    (dispatch example_config
      (dispatch example_config example_world_far (POSITION_BUTTON_SIG 0) example_inputs)
      (POSITION_BUTTON_SIG 1) example_inputs)
      = dispatch example_config example_world_far (POSITION_BUTTON_SIG 0) example_inputs := by
  decide

/-- Within the range of the 16-bit `int` the save of a position keeps the
value: in `free_run_mode` with no save-flash pending, the event of a position
button `i` below `NUM_POSITION_BUTTONS` stores the integral position `P` in
slot `i` of the object and of the settings, arms the flash timer and changes
nothing else; with a save-flash pending the event changes nothing. -/
theorem position_button_saves_small (cfg : Config) (w : World) (hw : Inputs) (i : Nat) (P : Int)
    (hs : w.state = State.free_run_mode) (hi : i < cfg.NUM_POSITION_BUTTONS) (hbyte : i < 256)
    (hcur : w.me.cur_pos_ = (P : ℚ)) (h1 : -32768 ≤ P) (h2 : P ≤ 32767) :
    dispatch cfg w (POSITION_BUTTON_SIG i) hw =
      (if w.me.flash_timeout_.ctr = 0 then
        { w with
          me := { w.me with
            prev_position_button_pressed_ := i,
            saved_positions_ := w.me.saved_positions_.set i P,
            flash_timeout_ := w.me.flash_timeout_.postIn (FLASH_RATE_TOUT cfg) },
          settings := { w.settings with saved_position := w.settings.saved_position.set i P } }
       else w) := by
  have hmod : i % 256 = i := Nat.mod_eq_of_lt hbyte
  have hP : floatToLong (P : ℚ) = P := floatToLong_intCast P (by unfold isLong; omega)
  by_cases hc : w.me.flash_timeout_.ctr = 0
  · simp [dispatch, hs, offer, handler, Txr.free_run_mode, hc, hmod, hi, hcur, hP,
      wrapInt_small P h1 h2]
  · simp [dispatch, hs, offer, handler, Txr.free_run_mode, hc]

/-! ## Playback -/

theorem get_speed_percent_keeps (me : Txr) (encoder_pos : Int) :
    (get_speed_percent_if_changed me encoder_pos).1.cur_pos_ = me.cur_pos_ ∧
    (get_speed_percent_if_changed me encoder_pos).1.playback_target_pos_
      = me.playback_target_pos_ ∧
    (get_speed_percent_if_changed me encoder_pos).1.enc_pushes_ = me.enc_pushes_ := by
  unfold get_speed_percent_if_changed
  simp only
  split_ifs <;> exact ⟨rfl, rfl, rfl⟩

theorem send_speed_percent_keeps (cfg : Config) (w : World) (hw : Inputs) :
    (send_speed_percent_if_changed cfg w hw).me.cur_pos_ = w.me.cur_pos_ ∧
    (send_speed_percent_if_changed cfg w hw).me.playback_target_pos_
      = w.me.playback_target_pos_ ∧
    (send_speed_percent_if_changed cfg w hw).me.enc_pushes_ = w.me.enc_pushes_ ∧
    (send_speed_percent_if_changed cfg w hw).state = w.state := by
  obtain ⟨h1, h2, h3⟩ := get_speed_percent_keeps w.me hw.encoder
  unfold send_speed_percent_if_changed
  simp only
  split_ifs
  · exact ⟨h1, h2, h3, rfl⟩
  · exact ⟨h1, h2, h3, rfl⟩

theorem dispatch_playback_tick (cfg : Config) (v : World) (hw : Inputs)
    (hs : v.state = State.play_back_mode) :
    dispatch cfg v SEND_TIMEOUT_SIG hw = update_position_playback cfg v hw := by
  simp only [dispatch, hs, offer, handler, Txr.play_back_mode]

/-- C24: the entry action of `play_back_mode`, run at the integral position
`P`, sets the playback target to `P`, keeps the position and hands
`TARGET_POSITION_SET P` to `radio_queue_message`.  A send tick in
`play_back_mode`, with a target that the `float` of the position represents
exactly, leaves the state and the target alone and makes the position equal to
the target; after the speed-percent half of the tick it hands
`TARGET_POSITION_SET target` to `radio_queue_message` exactly when target and
position differed before the tick.  The tick that follows sends nothing but
what its speed-percent half sends, and the position stays at the target. -/
theorem playback_snaps_to_target (cfg : Config) (w v : World) (hw hw1 hw2 : Inputs) (P : Int)
    (hP : isLong P) (hcur : w.me.cur_pos_ = (P : ℚ))
    (hs : v.state = State.play_back_mode)
    (hT : isLong v.me.playback_target_pos_)
    (hexact : cfg.roundFloat (v.me.playback_target_pos_ : ℚ) = v.me.playback_target_pos_) :
    (entry_action cfg State.play_back_mode w hw).me.playback_target_pos_ = P ∧
    (entry_action cfg State.play_back_mode w hw).me.cur_pos_ = (P : ℚ) ∧
    (entry_action cfg State.play_back_mode w hw).radio_state
      = (with_enqueued cfg w PACKET_TARGET_POSITION_SET P).radio_state ∧
    (dispatch cfg v SEND_TIMEOUT_SIG hw1).state = State.play_back_mode ∧
    (dispatch cfg v SEND_TIMEOUT_SIG hw1).me.playback_target_pos_ = v.me.playback_target_pos_ ∧
    (dispatch cfg v SEND_TIMEOUT_SIG hw1).me.cur_pos_ = (v.me.playback_target_pos_ : ℚ) ∧
    (dispatch cfg v SEND_TIMEOUT_SIG hw1).radio_state =
      (if (v.me.playback_target_pos_ : ℚ) ≠ v.me.cur_pos_ then
        (with_enqueued cfg (send_speed_percent_if_changed cfg v hw1)
          PACKET_TARGET_POSITION_SET v.me.playback_target_pos_).radio_state
       else (send_speed_percent_if_changed cfg v hw1).radio_state) ∧
    (dispatch cfg (dispatch cfg v SEND_TIMEOUT_SIG hw1) SEND_TIMEOUT_SIG hw2).radio_state =
      (send_speed_percent_if_changed cfg (dispatch cfg v SEND_TIMEOUT_SIG hw1) hw2).radio_state ∧
    (dispatch cfg (dispatch cfg v SEND_TIMEOUT_SIG hw1) SEND_TIMEOUT_SIG hw2).me.cur_pos_
      = (v.me.playback_target_pos_ : ℚ) := by
  have hentry : floatToLong w.me.cur_pos_ = P := by rw [hcur]; exact floatToLong_intCast P hP
  obtain ⟨k1, k2, -, k4⟩ := send_speed_percent_keeps cfg v hw1
  have htick : (dispatch cfg v SEND_TIMEOUT_SIG hw1).state = State.play_back_mode ∧
      (dispatch cfg v SEND_TIMEOUT_SIG hw1).me.playback_target_pos_
        = v.me.playback_target_pos_ ∧
      (dispatch cfg v SEND_TIMEOUT_SIG hw1).me.cur_pos_ = (v.me.playback_target_pos_ : ℚ) ∧
      (dispatch cfg v SEND_TIMEOUT_SIG hw1).radio_state =
        (if (v.me.playback_target_pos_ : ℚ) ≠ v.me.cur_pos_ then
          (with_enqueued cfg (send_speed_percent_if_changed cfg v hw1)
            PACKET_TARGET_POSITION_SET v.me.playback_target_pos_).radio_state
         else (send_speed_percent_if_changed cfg v hw1).radio_state) := by
    rw [dispatch_playback_tick cfg v hw1 hs]
    unfold update_position_playback
    simp only [k1, k2, hexact]
    by_cases hne : (v.me.playback_target_pos_ : ℚ) ≠ v.me.cur_pos_
    · simp only [if_pos hne, PACKET_SEND, with_enqueued, floatToLong_intCast _ hT]
      exact ⟨k4.trans hs, trivial, trivial, trivial⟩
    · simp only [if_neg hne]
      refine ⟨k4.trans hs, k2, ?_, trivial⟩
      rw [k1]
      exact (not_not.mp hne).symm
  obtain ⟨t1, t2, t3, t4⟩ := htick
  obtain ⟨m1, m2, -, -⟩ :=
    send_speed_percent_keeps cfg (dispatch cfg v SEND_TIMEOUT_SIG hw1) hw2
  have hsecond : dispatch cfg (dispatch cfg v SEND_TIMEOUT_SIG hw1) SEND_TIMEOUT_SIG hw2
      = send_speed_percent_if_changed cfg (dispatch cfg v SEND_TIMEOUT_SIG hw1) hw2 := by
    rw [dispatch_playback_tick cfg _ hw2 t1]
    unfold update_position_playback
    simp only [m1, m2, t2, t3, hexact, ne_eq, not_true_eq_false, if_false]
  refine ⟨?_, ?_, ?_, t1, t2, t3, t4, ?_, ?_⟩
  · simp only [entry_action, PACKET_SEND, init_speed_percent, hentry]
  · simp only [entry_action, PACKET_SEND, init_speed_percent, hcur]
  · simp only [entry_action, PACKET_SEND, init_speed_percent, hentry, with_enqueued]
  · rw [hsecond]
  · rw [hsecond, m1, t3]

theorem playback_snaps_to_target_witness :
    (dispatch example_config example_world_playback SEND_TIMEOUT_SIG example_inputs).me.cur_pos_
      = ((30 : Int) : ℚ) :=
  (playback_snaps_to_target example_config example_world_playback example_world_playback
    example_inputs example_inputs example_inputs 10 (by decide) rfl rfl (by decide) rfl).2.2.2.2.2.1

/-! ## Re-entering calibration -/

/-- C25: in each of `free_run_mode`, `play_back_mode` and `z_mode` the
button-down event arms the calibration timer with `ENTER_CALIBRATION_TOUT` and
keeps the submode; the button-up event that follows disarms the timer (counter
0) and keeps the submode.  When instead the timer fires after the button-down
(`CALIBRATION_SIG`), the press counter becomes 0 and the state `flashing`, and
the `CALIBRATION_SIG` of the elapsed flash duration then leads to
`uncalibrated`. -/
theorem recalibration_hold (cfg : Config) (w : World) (hw1 hw2 hw3 hw4 : Inputs)
    (hs : w.state = State.free_run_mode ∨ w.state = State.play_back_mode ∨
      w.state = State.z_mode) :
    (dispatch cfg w ENC_DOWN_SIG hw1).state = w.state ∧
    (dispatch cfg w ENC_DOWN_SIG hw1).me.calibration_timeout_.ctr = ENTER_CALIBRATION_TOUT cfg ∧
    (dispatch cfg (dispatch cfg w ENC_DOWN_SIG hw1) ENC_UP_SIG hw2).state = w.state ∧
    (dispatch cfg (dispatch cfg w ENC_DOWN_SIG hw1) ENC_UP_SIG hw2).me.calibration_timeout_.ctr
      = 0 ∧
    (dispatch cfg (dispatch cfg w ENC_DOWN_SIG hw1) CALIBRATION_SIG hw3).state
      = State.flashing ∧
    (dispatch cfg (dispatch cfg w ENC_DOWN_SIG hw1) CALIBRATION_SIG hw3).me.enc_pushes_ = 0 ∧
    (dispatch cfg (dispatch cfg (dispatch cfg w ENC_DOWN_SIG hw1) CALIBRATION_SIG hw3)
      CALIBRATION_SIG hw4).state = State.uncalibrated := by
  rcases hs with hs | hs | hs <;>
  simp [dispatch, hs, offer, handler, Txr.free_run_mode, Txr.play_back_mode, Txr.z_mode,
    Txr.calibrated, Txr.flashing, Txr.uncalibrated, Txr.on, exit_path, entry_path, chain,
    exit_action, entry_action, update_calibration_multiplier_eq, QTimeEvt.postIn,
    QTimeEvt.disarm, QTimeEvt.postEvery]

theorem recalibration_hold_witness :
    (dispatch example_config
      (dispatch example_config
        (dispatch example_config example_world_z_mode ENC_DOWN_SIG example_inputs)
        CALIBRATION_SIG example_inputs)
      CALIBRATION_SIG example_inputs).state = State.uncalibrated :=
  (recalibration_hold example_config example_world_z_mode
    example_inputs example_inputs example_inputs example_inputs (Or.inr (Or.inr rfl))).2.2.2.2.2.2

/-! ## A stationary encoder -/

/-- C29: with the baseline at 100, nothing reported before and the encoder
held at 0, three calls of `get_speed_percent_if_changed` in a row return 1, 25
and -1: the second call reports again although the encoder has not moved,
because the low-side re-basing of the first call stored the baseline -100. -/
theorem stationary_encoder_reports_again :
    (repeat_speed_read { Txr.ctor 4 with encoder_base_ := 100 } 0 3).2 = [1, 25, -1] := by
  decide

/-! ## Memory safety of the string reassembly -/

theorem feed_strings_idle (cfg : Config) :
    ∀ (calls : List (PacketType × (Nat → Nat))) (rs : radio_state_t), reassembly_idle rs →
      reassembly_idle (feed_strings cfg rs calls) := by
  intro calls
  induction calls with
  | nil => intro rs h; exact h
  | cons call calls ih =>
    intro rs h
    exact ih _ (incremental_read_idle cfg rs call.1 call.2 h).1

theorem incremental_read_accesses_idle (cfg : Config) (rs : radio_state_t) (type : PacketType)
    (start : Nat → Nat) (h : reassembly_idle rs) :
    incremental_read_accesses cfg rs type start = ⟨[0], [0], [1]⟩ := by
  obtain ⟨hidx, hlen, hone⟩ := h
  match hb : rs.string_packet_buffer, hlen, hone with
  | a :: b :: rest, _, hone =>
    have hb0 : b = 0 := by simpa using hone
    subst hb0
    have hloop : ∀ n, copy_loop_accesses start 0 (n + 1) 0 (a :: 0 :: rest)
        = ⟨[0], [0], [1]⟩ := by
      intro n
      simp [copy_loop_accesses]
    unfold incremental_read_accesses
    by_cases hc : rs.string_packet_command ≠ type
    · simp only [if_pos hc, hb, hloop]
    · simp only [if_neg hc, hb, hidx, hloop]

theorem copy_loop_length (start : Nat → Nat) (base : Nat) :
    ∀ (n k : Nat) (buf : List Nat), (copy_loop start base n k buf).1.length = buf.length := by
  intro n
  induction n with
  | zero => intro k buf; rfl
  | succ n ih =>
    intro k buf
    unfold copy_loop
    simp only
    split_ifs
    · simp
    · rw [ih]; simp

theorem incremental_read_capacity (cfg : Config) (rs : radio_state_t) (type : PacketType)
    (start : Nat → Nat) :
    (_incremental_read_packet_string cfg rs type start).1.string_packet_buffer.length
      = rs.string_packet_buffer.length := by
  unfold _incremental_read_packet_string
  simp only [copy_loop_length]
  split_ifs <;> rfl

theorem feed_strings_capacity (cfg : Config) :
    ∀ (calls : List (PacketType × (Nat → Nat))) (rs : radio_state_t),
      (feed_strings cfg rs calls).string_packet_buffer.length = rs.string_packet_buffer.length := by
  intro calls
  induction calls with
  | nil => intro rs; rfl
  | cons call calls ih =>
    intro rs
    simp only [feed_strings]
    rw [ih, incremental_read_capacity]

/-- C27: in every reassembly state reached from the zero-initialised radio
state (reassembly buffer of at least two bytes) by any calls of
`_incremental_read_packet_string`, with string fields of at least one byte, a
further call reads the single byte `start[0]` of the string field, writes the
buffer at index 0 only and reads the buffer at index 1 only: it reads at most
`PACKET_STRING_LEN` bytes of the field, none at an offset of
`PACKET_STRING_LEN` or more, and every buffer access is below the capacity,
which the calls leave as it was. -/
theorem incremental_read_in_bounds (cfg : Config) (cap : Nat)
    (calls : List (PacketType × (Nat → Nat))) (type : PacketType) (start : Nat → Nat)
    (hlen : 0 < cfg.PACKET_STRING_LEN) :
    incremental_read_accesses cfg (feed_strings cfg (radio_state_zero cfg (cap + 2)) calls)
      type start = ⟨[0], [0], [1]⟩ ∧
    (incremental_read_accesses cfg (feed_strings cfg (radio_state_zero cfg (cap + 2)) calls)
      type start).frame_reads.length ≤ cfg.PACKET_STRING_LEN ∧
    (∀ k ∈ (incremental_read_accesses cfg
        (feed_strings cfg (radio_state_zero cfg (cap + 2)) calls) type start).frame_reads,
      k < cfg.PACKET_STRING_LEN) ∧
    (∀ i ∈ (incremental_read_accesses cfg
        (feed_strings cfg (radio_state_zero cfg (cap + 2)) calls) type start).buffer_writes,
      i < (feed_strings cfg (radio_state_zero cfg (cap + 2)) calls).string_packet_buffer.length) ∧
    (∀ i ∈ (incremental_read_accesses cfg
        (feed_strings cfg (radio_state_zero cfg (cap + 2)) calls) type start).buffer_reads,
      i < (feed_strings cfg (radio_state_zero cfg (cap + 2)) calls).string_packet_buffer.length) ∧
    (feed_strings cfg (radio_state_zero cfg (cap + 2)) calls).string_packet_buffer.length
      = cap + 2 := by
  have hidle := feed_strings_idle cfg calls _ (radio_state_zero_idle cfg cap)
  have hacc := incremental_read_accesses_idle cfg _ type start hidle
  have hcap : (feed_strings cfg (radio_state_zero cfg (cap + 2)) calls).string_packet_buffer.length
      = cap + 2 := by
    rw [feed_strings_capacity]
    simp [radio_state_zero]
  rw [hacc, hcap]
  refine ⟨rfl, ?_, ?_, ?_, ?_, rfl⟩
  · simpa using hlen
  · intro k hk
    simp only [List.mem_singleton] at hk
    omega
  · intro i hi
    simp only [List.mem_singleton] at hi
    omega
  · intro i hi
    simp only [List.mem_singleton] at hi
    omega

theorem incremental_read_in_bounds_witness :
    (incremental_read_accesses example_config
      (feed_strings example_config (radio_state_zero example_config (14 + 2)) example_calls)
      PACKET_PROFILE_NAME_PRINT (fun i => [70, 71, 72, 73].getD i 0)).frame_reads.length
        ≤ example_config.PACKET_STRING_LEN :=
  (incremental_read_in_bounds example_config 14 example_calls PACKET_PROFILE_NAME_PRINT
    (fun i => [70, 71, 72, 73].getD i 0) (by decide)).2.1

/-- Outside the reachable states the loop is not bounded by the field: on a
buffer without a zero byte it makes `PACKET_STRING_LEN + 1` iterations and
reads `start[PACKET_STRING_LEN]`. -/
theorem copy_loop_accesses_unbounded :
    copy_loop_accesses (fun i => [65, 66, 67, 68].getD i 90) 0 (4 + 1) 0 [1, 1, 1, 1, 1, 1, 1, 1]
      = ⟨[0, 1, 2, 3, 4], [0, 1, 2, 3, 4], [1, 2, 3, 4, 5]⟩ := by
  decide

/-! ## The chunks sent for the device name -/

theorem takeWhile_drop (p : Nat → Bool) :
    ∀ (l : List Nat) (k : Nat), k ≤ (l.takeWhile p).length →
      (l.drop k).takeWhile p = (l.takeWhile p).drop k := by
  intro l
  induction l with
  | nil => intro k _; simp
  | cons a l ih =>
    intro k hk
    cases k with
    | zero => simp
    | succ k =>
      by_cases ha : p a = true
      · rw [List.takeWhile_cons_of_pos ha] at hk ⊢
        simp only [List.length_cons, Nat.add_le_add_iff_right] at hk
        simp only [List.drop_succ_cons]
        exact ih k hk
      · rw [List.takeWhile_cons_of_neg ha] at hk
        simp at hk

theorem take_min_length (xs : List Nat) (m : Nat) :
    xs.take (min xs.length m) = xs.take m := by
  by_cases h : m ≤ xs.length
  · rw [Nat.min_eq_right h]
  · have h1 : xs.length ≤ m := by omega
    rw [Nat.min_eq_left h1, List.take_of_length_le h1, List.take_of_length_le (le_refl _)]

theorem strncpy_drop (buffer : List Nat) (L k : Nat)
    (hk : k * L ≤ (cstring buffer).length) :
    strncpy (buffer.drop (k * L)) L = spec_name_chunk L (cstring buffer) k := by
  have h := takeWhile_drop (fun b => decide (b ≠ 0)) buffer (k * L) hk
  have hl : ((cstring buffer).drop (k * L)).length = (cstring buffer).length - k * L := by simp
  unfold strncpy spec_name_chunk
  rw [← hl, take_min_length]
  unfold cstring at hl ⊢
  simp only [h]
  rw [hl]
  congr 2
  simp only [List.length_take, List.length_drop]
  omega

theorem chunk_count_lt (n L j : Nat) (hL : 0 < L) :
    j < (n + 1 + (L - 1)) / L ↔ j * L ≤ n := by
  have e : n + 1 + (L - 1) = n + L := by omega
  rw [e, Nat.lt_iff_add_one_le, Nat.le_div_iff_mul_le hL, Nat.add_mul, Nat.one_mul]
  omega

theorem send_string_loop_chunks (cfg : Config) (buffer : List Nat)
    (hL : 0 < cfg.PACKET_STRING_LEN) :
    ∀ (m j fuel : Nat) (p : radio_packet_t) (rs : radio_state_t),
      j + m = ((cstring buffer).length + 1 + (cfg.PACKET_STRING_LEN - 1)) / cfg.PACKET_STRING_LEN →
      m ≤ fuel →
      send_string_loop cfg p buffer fuel (j * cfg.PACKET_STRING_LEN)
          (((cstring buffer).length : Int) + 1 - ((j * cfg.PACKET_STRING_LEN : Nat) : Int)) rs
        = ((List.range' j m).map (spec_name_chunk cfg.PACKET_STRING_LEN (cstring buffer))).foldl
            (fun acc chunk => radio_queue_message cfg acc (with_str p chunk)) rs := by
  intro m
  induction m with
  | zero =>
    intro j fuel p rs hj _
    have hnot : ¬ j * cfg.PACKET_STRING_LEN ≤ (cstring buffer).length := by
      rw [← chunk_count_lt _ _ _ hL]
      omega
    have hrem : ¬ (((cstring buffer).length : Int) + 1
        - ((j * cfg.PACKET_STRING_LEN : Nat) : Int) > 0) := by omega
    cases fuel with
    | zero => rfl
    | succ fuel =>
      unfold send_string_loop
      rw [if_neg hrem]
      rfl
  | succ m ih =>
    intro j fuel p rs hj hfuel
    have hle : j * cfg.PACKET_STRING_LEN ≤ (cstring buffer).length := by
      rw [← chunk_count_lt _ _ _ hL]
      omega
    have hrem : (((cstring buffer).length : Int) + 1
        - ((j * cfg.PACKET_STRING_LEN : Nat) : Int) > 0) := by omega
    cases fuel with
    | zero => omega
    | succ fuel =>
      unfold send_string_loop
      rw [if_pos hrem]
      simp only [List.range'_succ, List.map_cons, List.foldl_cons]
      have hidx : j * cfg.PACKET_STRING_LEN + cfg.PACKET_STRING_LEN
          = (j + 1) * cfg.PACKET_STRING_LEN := by ring
      have hremeq : ((cstring buffer).length : Int) + 1
            - ((j * cfg.PACKET_STRING_LEN : Nat) : Int) - (cfg.PACKET_STRING_LEN : Int)
          = ((cstring buffer).length : Int) + 1
            - (((j + 1) * cfg.PACKET_STRING_LEN : Nat) : Int) := by
        push_cast; ring
      rw [hidx, hremeq, strncpy_drop buffer _ j hle]
      exact ih (j + 1) fuel _ _ (by omega) (by omega)

theorem spec_name_chunk_succ (L : Nat) (s : List Nat) (k : Nat) :
    spec_name_chunk L s (k + 1) = spec_name_chunk L (s.drop L) k := by
  unfold spec_name_chunk
  have e1 : (k + 1) * L = L + k * L := by ring
  have e2 : s.length - (L + k * L) = (s.drop L).length - k * L := by
    simp only [List.length_drop]; omega
  rw [e1, e2, List.drop_drop]

theorem join_chunks (L : Nat) :
    ∀ (c : Nat) (s : List Nat), s.length ≤ c * L →
      ((List.range c).map (spec_name_chunk L s)).flatten
        = s ++ List.replicate (c * L - s.length) 0 := by
  intro c
  induction c with
  | zero =>
    intro s hs
    have : s = [] := List.eq_nil_of_length_eq_zero (by omega)
    subst this
    simp
  | succ c ih =>
    intro s hs
    rw [List.range_succ_eq_map, List.map_cons, List.map_map, List.flatten_cons]
    have hfun : (spec_name_chunk L s ∘ Nat.succ) = spec_name_chunk L (s.drop L) := by
      funext k
      exact spec_name_chunk_succ L s k
    rw [hfun, ih (s.drop L) (by simp only [List.length_drop]; rw [Nat.add_mul] at hs; omega)]
    unfold spec_name_chunk
    simp only [Nat.zero_mul, List.drop_zero, Nat.sub_zero, List.length_drop]
    by_cases h : L ≤ s.length
    · rw [Nat.min_eq_right h, Nat.sub_self, List.replicate_zero, List.append_nil,
        ← List.append_assoc, List.take_append_drop]
      congr 2
      rw [Nat.add_mul] at hs ⊢
      omega
    · have h1 : s.length ≤ L := by omega
      rw [Nat.min_eq_left h1, List.take_of_length_le (le_refl _), List.drop_of_length_le h1,
        List.nil_append, List.append_assoc, ← List.replicate_add]
      congr 2
      rw [Nat.add_mul]
      omega

theorem cstring_has_no_zero (buffer : List Nat) : ∀ b ∈ cstring buffer, b ≠ 0 := by
  intro b hb
  have := List.mem_takeWhile_imp hb
  simpa using this

theorem cstring_append_zeros (s : List Nat) (m : Nat) (hs : ∀ b ∈ s, b ≠ 0) :
    cstring (s ++ List.replicate m 0) = s := by
  unfold cstring
  induction s with
  | nil =>
    cases m with
    | zero => rfl
    | succ m => simp [List.replicate_succ]
  | cons a s ih =>
    have ha : a ≠ 0 := hs a (List.mem_cons_self a s)
    rw [List.cons_append, List.takeWhile_cons_of_pos (by simpa using ha)]
    rw [ih (fun b hb => hs b (List.mem_cons_of_mem a hb))]

/-- C26: with string fields of at least one byte, the `PACKET_PROFILE_NAME_GET`
case hands to `radio_queue_message`, in order, one `PROFILE_NAME_PRINT` packet
for each chunk of `spec_name_chunks` of the stored name (the C string `name` of
length `n`), and changes nothing else; the loop gives this result for every
bound of at least `n + 1` iterations, so it ends by its own condition.  The
chunks are `ceil((n + 1) / PACKET_STRING_LEN)` in number, chunk `k` is the
`min(n - k * L, L)` bytes of the name from offset `k * L` followed by zeros up
to `L` bytes (the definition of `spec_name_chunk`), and the concatenation of
the chunks up to the first zero byte is the name. -/
theorem name_get_sends_chunks (cfg : Config) (w : World) (packet : radio_packet_t)
    (past fuel : Nat) (hL : 0 < cfg.PACKET_STRING_LEN)
    (htype : packet.type = PACKET_PROFILE_NAME_GET)
    (hfuel : (cstring w.settings.name).length + 1 ≤ fuel) :
    _process_packet cfg w packet past
      = { w with radio_state :=
            ((spec_name_chunks cfg.PACKET_STRING_LEN (cstring w.settings.name)).foldl
              (fun acc chunk => radio_queue_message cfg acc
                { zero_packet cfg with type := PACKET_PROFILE_NAME_PRINT, str := chunk })
              w.radio_state) } ∧
    send_string_loop cfg { zero_packet cfg with type := PACKET_PROFILE_NAME_PRINT }
        w.settings.name fuel 0 (((cstring w.settings.name).length + 1 : Nat) : Int) w.radio_state
      = (spec_name_chunks cfg.PACKET_STRING_LEN (cstring w.settings.name)).foldl
          (fun acc chunk => radio_queue_message cfg acc
            { zero_packet cfg with type := PACKET_PROFILE_NAME_PRINT, str := chunk })
          w.radio_state ∧
    (spec_name_chunks cfg.PACKET_STRING_LEN (cstring w.settings.name)).length
      = ((cstring w.settings.name).length + 1 + (cfg.PACKET_STRING_LEN - 1))
          / cfg.PACKET_STRING_LEN ∧
    cstring (spec_name_chunks cfg.PACKET_STRING_LEN (cstring w.settings.name)).flatten
      = cstring w.settings.name := by
  have hloop : ∀ fuel, (cstring w.settings.name).length + 1 ≤ fuel →
      send_string_loop cfg { zero_packet cfg with type := PACKET_PROFILE_NAME_PRINT }
        w.settings.name fuel 0 (((cstring w.settings.name).length + 1 : Nat) : Int) w.radio_state
      = (spec_name_chunks cfg.PACKET_STRING_LEN (cstring w.settings.name)).foldl
          (fun acc chunk => radio_queue_message cfg acc
            { zero_packet cfg with type := PACKET_PROFILE_NAME_PRINT, str := chunk })
          w.radio_state := by
    intro fuel hfuel
    have hcount : ((cstring w.settings.name).length + 1 + (cfg.PACKET_STRING_LEN - 1))
        / cfg.PACKET_STRING_LEN ≤ fuel := by
      refine le_trans ?_ hfuel
      rw [Nat.div_le_iff_le_mul_add_pred hL]
      have : (cstring w.settings.name).length + 1
          ≤ cfg.PACKET_STRING_LEN * ((cstring w.settings.name).length + 1) :=
        Nat.le_mul_of_pos_left _ hL
      omega
    have h := send_string_loop_chunks cfg w.settings.name hL _ 0 fuel
      { zero_packet cfg with type := PACKET_PROFILE_NAME_PRINT } w.radio_state
      (Nat.zero_add _) hcount
    simp only [Nat.zero_mul, Nat.cast_zero, sub_zero] at h
    have e : (((cstring w.settings.name).length + 1 : Nat) : Int)
        = ((cstring w.settings.name).length : Int) + 1 := by push_cast; rfl
    rw [e, h, spec_name_chunks, List.range_eq_range']
    rfl
  refine ⟨?_, hloop fuel hfuel, ?_, ?_⟩
  · obtain ⟨type, val, key, str⟩ := packet
    simp only at htype
    subst htype
    simp only [_process_packet, send_string]
    rw [hloop _ (le_refl _)]
  · simp [spec_name_chunks]
  · have hlen : (cstring w.settings.name).length
        ≤ (((cstring w.settings.name).length + 1 + (cfg.PACKET_STRING_LEN - 1))
            / cfg.PACKET_STRING_LEN) * cfg.PACKET_STRING_LEN := by
      by_contra hcon
      have := (chunk_count_lt (cstring w.settings.name).length cfg.PACKET_STRING_LEN
        (((cstring w.settings.name).length + 1 + (cfg.PACKET_STRING_LEN - 1))
            / cfg.PACKET_STRING_LEN) hL).mpr (by omega)
      omega
    rw [spec_name_chunks, join_chunks _ _ _ hlen]
    exact cstring_append_zeros _ _ (cstring_has_no_zero _)

theorem name_get_sends_chunks_witness :
    (spec_name_chunks example_config.PACKET_STRING_LEN
      (cstring example_world_ABCDE.settings.name)).length = 2 :=
  (name_get_sends_chunks example_config example_world_ABCDE
    { zero_packet example_config with type := PACKET_PROFILE_NAME_GET } 0 6
    (by decide) rfl (by decide)).2.2.1.trans (by decide)

/-- The chunks of the name `ABCDE` with string fields of four bytes. -/
theorem spec_name_chunks_ABCDE :
    spec_name_chunks 4 [65, 66, 67, 68, 69] = [[65, 66, 67, 68], [69, 0, 0, 0]] := by
  decide

/-! ## Fields that the tick functions keep -/

theorem update_position_calibration_core (cfg : Config) (w : World) (hw : Inputs) :
    (update_position_calibration cfg w hw).state = w.state ∧
    (update_position_calibration cfg w hw).me.enc_pushes_ = w.me.enc_pushes_ := by
  unfold update_position_calibration
  simp only
  split_ifs <;> exact ⟨rfl, rfl⟩

theorem update_position_core (cfg : Config) (w : World) (hw : Inputs) :
    (update_position cfg w hw).state = w.state ∧
    (update_position cfg w hw).me.enc_pushes_ = w.me.enc_pushes_ := by
  unfold update_position
  simp only
  split_ifs <;> exact ⟨rfl, rfl⟩

theorem update_position_freerun_core (cfg : Config) (w : World) (hw : Inputs) :
    (update_position_freerun cfg w hw).state = w.state ∧
    (update_position_freerun cfg w hw).me.enc_pushes_ = w.me.enc_pushes_ := by
  obtain ⟨-, -, h3, h4⟩ := send_speed_percent_keeps cfg w hw
  obtain ⟨k1, k2⟩ := update_position_core cfg (send_speed_percent_if_changed cfg w hw) hw
  unfold update_position_freerun
  exact ⟨k1.trans h4, k2.trans h3⟩

theorem update_position_playback_core (cfg : Config) (w : World) (hw : Inputs) :
    (update_position_playback cfg w hw).state = w.state ∧
    (update_position_playback cfg w hw).me.enc_pushes_ = w.me.enc_pushes_ := by
  obtain ⟨-, -, h3, h4⟩ := send_speed_percent_keeps cfg w hw
  unfold update_position_playback
  simp only
  split_ifs
  · exact ⟨h4, h3⟩
  · exact ⟨h4, h3⟩

theorem update_max_speed_core (cfg : Config) (w : World) (hw : Inputs) :
    (update_max_speed_using_encoder cfg w hw).state = w.state ∧
    (update_max_speed_using_encoder cfg w hw).me.enc_pushes_ = w.me.enc_pushes_ := by
  unfold update_max_speed_using_encoder
  simp only
  split_ifs <;> exact ⟨rfl, rfl⟩

theorem update_position_z_mode_core (cfg : Config) (w : World) (hw : Inputs) :
    (update_position_z_mode cfg (update_max_speed_using_encoder cfg w hw) hw).state = w.state ∧
    (update_position_z_mode cfg (update_max_speed_using_encoder cfg w hw) hw).me.enc_pushes_
      = w.me.enc_pushes_ := by
  obtain ⟨h1, h2⟩ := update_max_speed_core cfg w hw
  obtain ⟨k1, k2⟩ := update_position_core cfg (update_max_speed_using_encoder cfg w hw) hw
  unfold update_position_z_mode
  exact ⟨k1.trans h1, k2.trans h2⟩

theorem radio_set_channel_core (w : World) (channel : Int) :
    (radio_set_channel w channel).state = w.state ∧
    (radio_set_channel w channel).me = w.me ∧
    (radio_set_channel w channel).settings = w.settings := by
  unfold radio_set_channel
  split_ifs <;> exact ⟨rfl, rfl, rfl⟩

/-! ## The press counter -/

theorem press_counter_step (cfg : Config) (w : World) (e : Signal) (hw : Inputs)
    (h : press_counter_ok w) :
    press_counter_ok (dispatch cfg w e hw) ∧
    (calibrated_submode (dispatch cfg w e hw).state → ¬ calibrated_submode w.state →
      w.state = State.flashing ∧ w.me.enc_pushes_ = 2 ∧ e = CALIBRATION_SIG) ∧
    (calibrated_submode (dispatch cfg w e hw).state → calibrated_submode w.state →
      (dispatch cfg w e hw).me.enc_pushes_ = w.me.enc_pushes_) := by
  obtain ⟨⟨hon, hcal⟩, hp, hu, hc2⟩ := h
  unfold press_counter_ok calibrated_submode
  unfold calibrated_submode at hc2
  rcases hstate : w.state with _ | _ | _ | _ | _ | _ | _
  · exact absurd hstate hon
  · have hu1 := hu hstate
    cases e with
    | ENC_DOWN_SIG =>
      rcases hp with h0 | h0 | h0
      · simp [dispatch, hstate, offer, handler, Txr.uncalibrated, exit_path, entry_path, chain,
          exit_action, entry_action, h0, wrapChar]
      · simp [dispatch, hstate, offer, handler, Txr.uncalibrated, exit_path, entry_path, chain,
          exit_action, entry_action, h0, wrapChar]
      · omega
    | _ =>
      simp [dispatch, hstate, offer, handler, Txr.uncalibrated, Txr.on,
        update_position_calibration_core, PACKET_SEND,
        radio_set_channel_core, update_calibration_multiplier_eq, hp, hu1]
  · exact absurd hstate hcal
  · cases e with
    | CALIBRATION_SIG =>
      rcases hfree : hw.freeswitch_on with _ | _ <;>
      rcases hz : hw.zswitch_on with _ | _ <;>
      rcases hp with h0 | h0 | h0 <;>
      simp [dispatch, hstate, offer, handler, Txr.flashing, exit_path, entry_path, chain,
        exit_action, entry_action, h0, hfree, hz, update_calibration_multiplier_eq,
        init_speed_percent, PACKET_SEND]
    | _ =>
      simp [dispatch, hstate, offer, handler, Txr.flashing, Txr.uncalibrated, Txr.on,
        update_position_calibration_core, PACKET_SEND,
        radio_set_channel_core, update_calibration_multiplier_eq, hp]
  · have hc := hc2 (Or.inl hstate)
    cases e with
    | POSITION_BUTTON_SIG ButtonNum =>
      by_cases hc : w.me.flash_timeout_.ctr = 0
      · by_cases hb : ButtonNum % 256 < cfg.NUM_POSITION_BUTTONS
        · simp [dispatch, hstate, offer, handler, Txr.free_run_mode, hc, hb, hp, hc2]
        · simp [dispatch, hstate, offer, handler, Txr.free_run_mode, hc, hb, hp, hc2]
      · simp [dispatch, hstate, offer, handler, Txr.free_run_mode, hc, hp, hc2]
    | _ =>
      simp [dispatch, hstate, offer, handler, Txr.free_run_mode, Txr.calibrated, Txr.on,
        exit_path, entry_path, chain, exit_action, entry_action,
        update_position_freerun_core, PACKET_SEND, init_speed_percent,
        radio_set_channel_core, update_calibration_multiplier_eq, hp, hc]
  · have hc := hc2 (Or.inr (Or.inl hstate))
    cases e with
    | POSITION_BUTTON_SIG button_num =>
      by_cases hb : button_num < cfg.NUM_POSITION_BUTTONS
      · simp [dispatch, hstate, offer, handler, Txr.play_back_mode, hb, hp, hc]
      · simp [dispatch, hstate, offer, handler, Txr.play_back_mode, hb, hp, hc]
    | _ =>
      simp [dispatch, hstate, offer, handler, Txr.play_back_mode, Txr.calibrated, Txr.on,
        exit_path, entry_path, chain, exit_action, entry_action,
        update_position_playback_core, PACKET_SEND, init_speed_percent,
        radio_set_channel_core, update_calibration_multiplier_eq, hp, hc]
  · have hc := hc2 (Or.inr (Or.inr hstate))
    cases e with
    | POSITION_BUTTON_SIG button_index =>
      by_cases hb : button_index < cfg.NUM_POSITION_BUTTONS
      · simp [dispatch, hstate, offer, handler, Txr.z_mode, hb, hp, PACKET_SEND, log_value,
          serial_api_queue_output, radio_set_channel_core, hc]
      · simp [dispatch, hstate, offer, handler, Txr.z_mode, hb, hp, hc]
    | _ =>
      simp [dispatch, hstate, offer, handler, Txr.z_mode, Txr.calibrated, Txr.on,
        exit_path, entry_path, chain, exit_action, entry_action,
        update_position_z_mode_core, PACKET_SEND, init_speed_percent,
        radio_set_channel_core, update_calibration_multiplier_eq, hp, hc]

theorem initial_press_counter_ok (cfg : Config) (w0 : World) (hw0 : Inputs)
    (hzero : w0.me.enc_pushes_ = 0) :
    press_counter_ok (Txr.initial cfg w0 hw0) ∧
    (Txr.initial cfg w0 hw0).me.enc_pushes_ = 0 ∧
    (if w0.settings.start_in_calibration_mode then
      (Txr.initial cfg w0 hw0).state = State.uncalibrated
     else calibrated_submode (Txr.initial cfg w0 hw0).state) := by
  unfold press_counter_ok calibrated_submode
  rcases hflag : w0.settings.start_in_calibration_mode with _ | _ <;>
  rcases hfree : hw0.freeswitch_on with _ | _ <;>
  rcases hz : hw0.zswitch_on with _ | _ <;>
  simp [Txr.initial, hflag, hfree, hz, chain, entry_action, PACKET_SEND,
    update_calibration_multiplier_eq, init_speed_percent, hzero]

theorem run_events_press_counter_ok (cfg : Config) :
    ∀ (events : List (Signal × Inputs)) (w : World), press_counter_ok w →
      press_counter_ok (run_events cfg w events) := by
  intro events
  induction events with
  | nil => intro w h; exact h
  | cons ev evs ih =>
    intro w h
    exact ih _ (press_counter_step cfg w ev.1 ev.2 h).1

/-- C28, as stated, fails in its last clause: with the start-in-calibration flag
clear and the free-run switch on, the initial transition enters `free_run_mode`
with the press counter at 0, and the mode-switch event `Z_MODE_SIG` then enters
`z_mode` from `free_run_mode`, still with the counter at 0: a submode of
`calibrated` entered neither from `flashing` nor with the counter at 2. -/
theorem calibrated_submode_entered_otherwise :
    (Txr.initial example_config example_world_flag_clear example_inputs).state
      = State.free_run_mode ∧
    (Txr.initial example_config example_world_flag_clear example_inputs).me.enc_pushes_ = 0 ∧
    (dispatch example_config
      (Txr.initial example_config example_world_flag_clear example_inputs)
      Z_MODE_SIG example_inputs).state = State.z_mode ∧
    (dispatch example_config
      (Txr.initial example_config example_world_flag_clear example_inputs)
      Z_MODE_SIG example_inputs).me.enc_pushes_ = 0 := by
  decide

/-- C28, amended: let `w` be the world after the initial transition of the
zero-initialised object and any list of events.  The press counter of `w` is 0,
1 or 2; in `uncalibrated` it is at most 1, so the button-down event there
records endpoint 1 with the counter at 0 and endpoint 2 with the counter at 1;
in a submode of `calibrated` it is 0 or 2.  An event takes the machine from a
state outside the submodes of `calibrated` into one of them only from
`flashing`, with the counter at 2, and the event is `CALIBRATION_SIG`; an event
that leads from a submode to a submode leaves the counter as it was; and the
initial transition leaves the counter at 0 and ends in a submode when the
start-in-calibration flag is clear, in `uncalibrated` when it is set. -/
theorem press_counter_invariant (cfg : Config) (w0 w : World) (hw0 hw : Inputs)
    (events : List (Signal × Inputs)) (e : Signal)
    (hzero : w0.me.enc_pushes_ = 0)
    (hreach : w = run_events cfg (Txr.initial cfg w0 hw0) events) :
    (w.me.enc_pushes_ = 0 ∨ w.me.enc_pushes_ = 1 ∨ w.me.enc_pushes_ = 2) ∧
    (w.state = State.uncalibrated → w.me.enc_pushes_ ≤ 1) ∧
    (w.state = State.uncalibrated →
      (w.me.enc_pushes_ = 0 ∧
        (dispatch cfg w ENC_DOWN_SIG hw).me.calibration_pos_1_ = floatToLong w.me.cur_pos_ ∧
        (dispatch cfg w ENC_DOWN_SIG hw).me.calibration_pos_2_ = w.me.calibration_pos_2_) ∨
      (w.me.enc_pushes_ = 1 ∧
        (dispatch cfg w ENC_DOWN_SIG hw).me.calibration_pos_2_ = floatToLong w.me.cur_pos_ ∧
        (dispatch cfg w ENC_DOWN_SIG hw).me.calibration_pos_1_ = w.me.calibration_pos_1_)) ∧
    (calibrated_submode w.state → w.me.enc_pushes_ = 0 ∨ w.me.enc_pushes_ = 2) ∧
    (calibrated_submode (dispatch cfg w e hw).state → ¬ calibrated_submode w.state →
      w.state = State.flashing ∧ w.me.enc_pushes_ = 2 ∧ e = CALIBRATION_SIG) ∧
    (calibrated_submode (dispatch cfg w e hw).state → calibrated_submode w.state →
      (dispatch cfg w e hw).me.enc_pushes_ = w.me.enc_pushes_) ∧
    (Txr.initial cfg w0 hw0).me.enc_pushes_ = 0 ∧
    (if w0.settings.start_in_calibration_mode then
      (Txr.initial cfg w0 hw0).state = State.uncalibrated
     else calibrated_submode (Txr.initial cfg w0 hw0).state) := by
  obtain ⟨hinit, hinit0, hinits⟩ := initial_press_counter_ok cfg w0 hw0 hzero
  have hok : press_counter_ok w := by
    rw [hreach]
    exact run_events_press_counter_ok cfg events _ hinit
  obtain ⟨-, hstep1, hstep2⟩ := press_counter_step cfg w e hw hok
  obtain ⟨-, hp, hu, hc2⟩ := hok
  refine ⟨hp, hu, ?_, hc2, hstep1, hstep2, hinit0, hinits⟩
  intro hs
  have hu1 := hu hs
  obtain ⟨-, -, hrec⟩ := dispatch_uncalibrated_enc_down cfg w hw hs
  by_cases h0 : w.me.enc_pushes_ = 0
  · rw [if_pos h0] at hrec
    exact Or.inl ⟨h0, hrec.1, hrec.2.2⟩
  · rw [if_neg h0] at hrec
    have h1 : w.me.enc_pushes_ = 1 := by omega
    exact Or.inr ⟨h1, hrec.1, hrec.2.2⟩

theorem press_counter_invariant_witness :
    (run_events example_config (Txr.initial example_config example_world example_inputs)
      example_events).me.enc_pushes_ = 0 ∨
    (run_events example_config (Txr.initial example_config example_world example_inputs)
      example_events).me.enc_pushes_ = 1 ∨
    (run_events example_config (Txr.initial example_config example_world example_inputs)
      example_events).me.enc_pushes_ = 2 :=
  (press_counter_invariant example_config example_world _ example_inputs example_inputs
    example_events CALIBRATION_SIG rfl rfl).1

theorem example_events_end :
    (run_events example_config (Txr.initial example_config example_world example_inputs)
      example_events).state = State.z_mode ∧
    (run_events example_config (Txr.initial example_config example_world example_inputs)
      example_events).me.enc_pushes_ = 2 := by
  decide

end Lenzhound
